import Mathlib

/-! terraform-provider-radarr: the provider package

A shallow embedding of `internal/provider` and the statements settled about it.

Conventions of the embedding

* A Go method with a pointer receiver and a `resp` out-parameter is a function
  from the values on entry to the values on return.
* `diag.Diagnostics` is the list of the diagnostics handed to it by `Append`,
  `AddError` and `AddWarning`, oldest first; that the framework keeps only one
  of several equal diagnostics is not represented.
* A `tfsdk.State` of a response records the writes made to it, oldest first.
* A framework value (`types.String`, `types.Int64`, ...) is null, unknown or
  known.
* A Go `any` is an `Option Any`, a pointer to a client an `Option` of the
  client: `none` is nil.
* A function returning a value and an `error` returns an `Except`, or a pair of
  options where the source is stated about both components.
* `os.Getenv` is a function from variable names to strings, the empty string
  for a variable that is not set.
* What belongs to another package (the package `tools`, the clients, the
  conversions of the framework) is a parameter of the functions that use it.
-/

namespace Provider

/-! ## Framework values -/

/-- A value of the plugin framework: null, unknown, or known with a Go value. -/
inductive TFValue (α : Type) where
  | null : TFValue α
  | unknown : TFValue α
  | known (v : α) : TFValue α
  deriving DecidableEq, Repr

/-- Method `IsNull` of a framework value. -/
def TFValue.IsNull {α : Type} : TFValue α → Bool
  | .null => true
  | _ => false

/-- Method `IsUnknown` of a framework value. -/
def TFValue.IsUnknown {α : Type} : TFValue α → Bool
  | .unknown => true
  | _ => false

/-- Method `ValueString` of `types.String`: the string when known, the empty
string when null or unknown. -/
def TFValue.ValueString : TFValue String → String
  | .known s => s
  | _ => ""

/-- Method `ValueInt64` of `types.Int64`: the integer when known, zero when null
or unknown. -/
def TFValue.ValueInt64 : TFValue Int → Int
  | .known n => n
  | _ => 0

/-- Method `ValueBool` of `types.Bool`: the boolean when known, false when null
or unknown. -/
def TFValue.ValueBool : TFValue Bool → Bool
  | .known b => b
  | _ => false

/-- Go `string`. -/
abbrev GoString := String

/-- Go `bool`. -/
abbrev GoBool := Bool

/-- The framework type `types.String`. -/
abbrev types.String := TFValue GoString

/-- The framework type `types.Int64`; the integers are those of Go `int64`. -/
abbrev types.Int64 := TFValue Int

/-- The framework type `types.Bool`. -/
abbrev types.Bool := TFValue GoBool

/-- The framework type `types.Float64`; a finite Go `float64` is carried as the
rational number it denotes. -/
abbrev types.Float64 := TFValue Rat

/-- The element types `types.Int64Type` and `types.StringType`. -/
inductive attr.Type where
  | Int64Type : attr.Type
  | StringType : attr.Type
  deriving DecidableEq, Repr

/-- An element of a set: a `types.Int64` or a `types.String`. -/
inductive attr.Value where
  | int64 (v : TFValue Int) : attr.Value
  | string (v : TFValue GoString) : attr.Value
  deriving DecidableEq, Repr

/-- The framework type `types.Set`: the element type (nil, `none`, in the zero
value) and the elements, null, unknown or known. -/
structure types.Set where
  ElemType : Option attr.Type
  Elems : TFValue (List attr.Value)
  deriving DecidableEq, Repr

/-! ## Diagnostics -/

/-- Severity of a diagnostic. -/
inductive Severity where
  | error : Severity
  | warning : Severity
  deriving DecidableEq, Repr

/-- One diagnostic: severity, summary, detail. -/
structure Diagnostic where
  severity : Severity
  summary : String
  detail : String
  deriving DecidableEq, Repr

/-- The collection `diag.Diagnostics`, oldest first. -/
abbrev Diagnostics := List Diagnostic

/-- Method `Append`: the given diagnostics are added at the end. -/
def Diagnostics.Append (ds new : Diagnostics) : Diagnostics := ds ++ new

/-- Method `AddError`: one error diagnostic is added at the end. -/
def Diagnostics.AddError (ds : Diagnostics) (summary detail : String) : Diagnostics :=
  ds ++ [⟨Severity.error, summary, detail⟩]

/-- Method `AddWarning`: one warning diagnostic is added at the end. -/
def Diagnostics.AddWarning (ds : Diagnostics) (summary detail : String) : Diagnostics :=
  ds ++ [⟨Severity.warning, summary, detail⟩]

/-- Method `HasError`: some diagnostic of the collection is an error. -/
def Diagnostics.HasError (ds : Diagnostics) : Bool :=
  ds.any (fun d => d.severity = Severity.error)

/-! ## Clients -/

/-- The `starr.Config` that `starr.New(apiKey, appURL, timeout)` builds, as the
record of the three arguments. -/
structure starr.Config where
  APIKey : String
  URL : String
  Timeout : Nat
  deriving DecidableEq, Repr

/-- Constructor `starr.New`. -/
def starr.New (apiKey appURL : String) (timeout : Nat) : starr.Config :=
  ⟨apiKey, appURL, timeout⟩

/-- The client `*radarr.Radarr` of `golift.io/starr/radarr`, which wraps the
configuration it was built from. -/
structure radarr.Radarr where
  config : starr.Config
  deriving DecidableEq, Repr

/-- Constructor `radarr.New`. -/
def radarr.New (config : starr.Config) : radarr.Radarr := ⟨config⟩

/-- The client `*radarr.APIClient` of `github.com/devopsarr/radarr-go/radarr`,
identified by a handle. -/
structure radarr.APIClient where
  handle : Nat
  deriving DecidableEq, Repr

/-- A non-nil Go `any` as the provider data: its dynamic type is one of the two
client pointer types (the pointer itself may be nil, `none`) or some other type,
named as `%T` prints it. -/
inductive Any where
  | radarrClient (c : Option radarr.Radarr) : Any
  | apiClient (c : Option radarr.APIClient) : Any
  | other (typeName : String) : Any
  deriving DecidableEq, Repr

/-- What `%T` prints for a value. -/
def Any.typeName : Any → String
  | .radarrClient _ => "*radarr.Radarr"
  | .apiClient _ => "*radarr.APIClient"
  | .other n => n

/-! ## Data models -/

/-- Indexer describes the indexer data model. -/
structure Indexer where
  Categories : types.Set
  Mediums : types.Set
  Codecs : types.Set
  RequiredFlags : types.Set
  Tags : types.Set
  MultiLanguages : types.Set
  Cookie : types.String
  APIKey : types.String
  ConfigContract : types.String
  Implementation : types.String
  Protocol : types.String
  Username : types.String
  Passkey : types.String
  BaseURL : types.String
  CaptchaToken : types.String
  AdditionalParameters : types.String
  APIPath : types.String
  APIUser : types.String
  Name : types.String
  Priority : types.Int64
  SeedTime : types.Int64
  MinimumSeeders : types.Int64
  DownloadClientID : types.Int64
  Delay : types.Int64
  ID : types.Int64
  SeedRatio : types.Float64
  AllowZeroSize : types.Bool
  RankedOnly : types.Bool
  EnableRss : types.Bool
  EnableAutomaticSearch : types.Bool
  EnableInteractiveSearch : types.Bool
  RemoveYear : types.Bool
  deriving DecidableEq, Repr

/-- IndexerNyaa describes the Nyaa indexer data model. -/
structure IndexerNyaa where
  Tags : types.Set
  MultiLanguages : types.Set
  RequiredFlags : types.Set
  Name : types.String
  BaseURL : types.String
  AdditionalParameters : types.String
  Priority : types.Int64
  ID : types.Int64
  DownloadClientID : types.Int64
  MinimumSeeders : types.Int64
  SeedTime : types.Int64
  SeedRatio : types.Float64
  EnableAutomaticSearch : types.Bool
  EnableRss : types.Bool
  EnableInteractiveSearch : types.Bool
  deriving DecidableEq, Repr

/-- IndexerIptorrents describes the Iptorrents indexer data model. -/
structure IndexerIptorrents where
  Tags : types.Set
  MultiLanguages : types.Set
  RequiredFlags : types.Set
  Name : types.String
  BaseURL : types.String
  Priority : types.Int64
  ID : types.Int64
  DownloadClientID : types.Int64
  MinimumSeeders : types.Int64
  SeedTime : types.Int64
  SeedRatio : types.Float64
  EnableRss : types.Bool
  deriving DecidableEq, Repr

/-- NotificationPushover describes the notification data model. -/
structure NotificationPushover where
  Tags : types.Set
  Devices : types.Set
  Sound : types.String
  Name : types.String
  APIKey : types.String
  UserKey : types.String
  Priority : types.Int64
  ID : types.Int64
  Retry : types.Int64
  Expire : types.Int64
  OnGrab : types.Bool
  OnMovieFileDeleteForUpgrade : types.Bool
  OnMovieFileDelete : types.Bool
  OnMovieAdded : types.Bool
  IncludeHealthWarnings : types.Bool
  OnApplicationUpdate : types.Bool
  OnHealthIssue : types.Bool
  OnMovieDelete : types.Bool
  OnUpgrade : types.Bool
  OnDownload : types.Bool
  deriving DecidableEq, Repr

/-- NotificationTrakt describes the notification data model. -/
structure NotificationTrakt where
  Tags : types.Set
  AuthUser : types.String
  AccessToken : types.String
  RefreshToken : types.String
  Expires : types.String
  Name : types.String
  ID : types.Int64
  OnMovieFileDeleteForUpgrade : types.Bool
  OnMovieFileDelete : types.Bool
  OnMovieAdded : types.Bool
  IncludeHealthWarnings : types.Bool
  OnMovieDelete : types.Bool
  OnUpgrade : types.Bool
  OnDownload : types.Bool
  deriving DecidableEq, Repr

/-- MediaManagement describes the media management data model. -/
structure MediaManagement where
  ChmodFolder : types.String
  RescanAfterRefresh : types.String
  RecycleBin : types.String
  FileDate : types.String
  ExtraFileExtensions : types.String
  DownloadPropersAndRepacks : types.String
  ChownGroup : types.String
  ID : types.Int64
  MinimumFreeSpaceWhenImporting : types.Int64
  RecycleBinCleanupDays : types.Int64
  SetPermissionsLinux : types.Bool
  SkipFreeSpaceCheckWhenImporting : types.Bool
  AutoRenameFolders : types.Bool
  PathsDefaultStatic : types.Bool
  ImportExtraFiles : types.Bool
  EnableMediaInfo : types.Bool
  DeleteEmptyFolders : types.Bool
  CreateEmptyMovieFolders : types.Bool
  CopyUsingHardlinks : types.Bool
  AutoUnmonitorPreviouslyDownloadedMovies : types.Bool
  deriving DecidableEq, Repr

/-- The zero value of `Indexer` (`var state Indexer`): every attribute is null,
every set without element type. -/
def IndexerZero : Indexer :=
  { Categories := ⟨none, TFValue.null⟩
    Mediums := ⟨none, TFValue.null⟩
    Codecs := ⟨none, TFValue.null⟩
    RequiredFlags := ⟨none, TFValue.null⟩
    Tags := ⟨none, TFValue.null⟩
    MultiLanguages := ⟨none, TFValue.null⟩
    Cookie := TFValue.null
    APIKey := TFValue.null
    ConfigContract := TFValue.null
    Implementation := TFValue.null
    Protocol := TFValue.null
    Username := TFValue.null
    Passkey := TFValue.null
    BaseURL := TFValue.null
    CaptchaToken := TFValue.null
    AdditionalParameters := TFValue.null
    APIPath := TFValue.null
    APIUser := TFValue.null
    Name := TFValue.null
    Priority := TFValue.null
    SeedTime := TFValue.null
    MinimumSeeders := TFValue.null
    DownloadClientID := TFValue.null
    Delay := TFValue.null
    ID := TFValue.null
    SeedRatio := TFValue.null
    AllowZeroSize := TFValue.null
    RankedOnly := TFValue.null
    EnableRss := TFValue.null
    EnableAutomaticSearch := TFValue.null
    EnableInteractiveSearch := TFValue.null
    RemoveYear := TFValue.null }

/-! ## Go values and API types -/

/-- A non-nil Go `error`, as the message its method `Error` returns. -/
structure GoError where
  Error : String
  deriving DecidableEq, Repr

/-- A non-nil Go `interface{}` holding a value of a field: a boolean, an integer,
a float, a string or a slice of such values. -/
inductive GoValue where
  | bool (b : Bool) : GoValue
  | int64 (n : Int) : GoValue
  | float64 (x : Rat) : GoValue
  | string (s : String) : GoValue
  | slice (xs : List GoValue) : GoValue
  deriving Repr

/-- The conversion `int32(x)` of a Go `int64`: the value modulo 2^32 in the range
of `int32`. -/
def int32 (n : Int) : Int := (n + 2 ^ 31) % 2 ^ 32 - 2 ^ 31

/-- The API type `starr.FieldOutput`, with the fields the provider package reads:
`Value` is nil (`none`) or holds a value. -/
structure starr.FieldOutput where
  Name : String
  Value : Option GoValue
  deriving Repr

/-- The API type `starr.FieldInput`. -/
structure starr.FieldInput where
  Name : String
  Value : Option GoValue
  deriving Repr

/-- The API type `radarr.IndexerInput` of `golift.io/starr/radarr`, with the
fields the provider package sets. -/
structure radarr.IndexerInput where
  EnableAutomaticSearch : Bool
  EnableInteractiveSearch : Bool
  EnableRss : Bool
  Priority : Int
  DownloadClientID : Int
  ID : Int
  ConfigContract : String
  Implementation : String
  Name : String
  Protocol : String
  Tags : List Int
  Fields : List starr.FieldInput
  deriving Repr

/-- The API type `radarr.IndexerOutput` of `golift.io/starr/radarr`, with the
fields the provider package reads. -/
structure radarr.IndexerOutput where
  EnableAutomaticSearch : Bool
  EnableInteractiveSearch : Bool
  EnableRss : Bool
  Priority : Int
  DownloadClientID : Int
  ID : Int
  ConfigContract : String
  Implementation : String
  Name : String
  Protocol : String
  Tags : List Int
  Fields : List starr.FieldOutput
  deriving Repr

/-- The API type `radarr.Field` of `github.com/devopsarr/radarr-go/radarr`. -/
structure radarr.Field where
  Name : Option String
  Value : Option GoValue
  deriving Repr

/-- The API type `radarr.IndexerResource` of
`github.com/devopsarr/radarr-go/radarr`, with the fields the provider package
reads and sets; a field that is not set is `none`. -/
structure radarr.IndexerResource where
  Id : Option Int
  Name : Option String
  Fields : List radarr.Field
  Implementation : Option String
  ConfigContract : Option String
  Tags : List Int
  EnableRss : Option Bool
  EnableAutomaticSearch : Option Bool
  EnableInteractiveSearch : Option Bool
  Protocol : Option String
  Priority : Option Int
  DownloadClientId : Option Int
  deriving Repr

/-- Constructor `radarr.NewIndexerResource`: no field is set. -/
def radarr.NewIndexerResource : radarr.IndexerResource :=
  { Id := none, Name := none, Fields := [], Implementation := none, ConfigContract := none,
    Tags := [], EnableRss := none, EnableAutomaticSearch := none,
    EnableInteractiveSearch := none, Protocol := none, Priority := none,
    DownloadClientId := none }

/-- Getter `GetId`: the value, or zero when the field is not set. -/
def radarr.IndexerResource.GetId (o : radarr.IndexerResource) : Int := o.Id.getD 0

/-- Getter `GetName`. -/
def radarr.IndexerResource.GetName (o : radarr.IndexerResource) : String := o.Name.getD ""

/-- Getter `GetEnableRss`. -/
def radarr.IndexerResource.GetEnableRss (o : radarr.IndexerResource) : Bool :=
  o.EnableRss.getD false

/-- Getter `GetEnableAutomaticSearch`. -/
def radarr.IndexerResource.GetEnableAutomaticSearch (o : radarr.IndexerResource) : Bool :=
  o.EnableAutomaticSearch.getD false

/-- Getter `GetEnableInteractiveSearch`. -/
def radarr.IndexerResource.GetEnableInteractiveSearch (o : radarr.IndexerResource) : Bool :=
  o.EnableInteractiveSearch.getD false

/-- Getter `GetPriority`. -/
def radarr.IndexerResource.GetPriority (o : radarr.IndexerResource) : Int := o.Priority.getD 0

/-- Getter `GetDownloadClientId`. -/
def radarr.IndexerResource.GetDownloadClientId (o : radarr.IndexerResource) : Int :=
  o.DownloadClientId.getD 0

/-- What the calls the provider package makes on a configured client
`*radarr.Radarr` return: the response, or a non-nil error; for the deletion a
nil (`none`) or non-nil error. -/
structure radarr.Calls where
  AddIndexerContext : radarr.IndexerInput → Except GoError radarr.IndexerOutput
  GetIndexerContext : Int → Except GoError radarr.IndexerOutput
  UpdateIndexerContext : radarr.IndexerInput → Except GoError radarr.IndexerOutput
  DeleteIndexerContext : Int → Option GoError

/-- What the calls the provider package makes on `IndexerApi` of a configured
client `*radarr.APIClient` return, once executed. -/
structure radarr.IndexerApi where
  CreateIndexer : radarr.IndexerResource → Except GoError radarr.IndexerResource
  GetIndexerById : Int → Except GoError radarr.IndexerResource
  UpdateIndexer : String → radarr.IndexerResource → Except GoError radarr.IndexerResource
  DeleteIndexer : Int → Option GoError

/-- The conversions of the framework between Go slices of integers and sets, as
the provider package calls them: `tfsdk.ValueFrom` (the slice, the set whose type
is the target type, the new value of the set), `tfsdk.ValueAs` (the set, the
slice) and `types.SetValueFrom` (the element type, the slice, the set); the
diagnostics they return are dropped by the callers. -/
structure Conversions where
  ValueFrom : List Int → types.Set → types.Set
  ValueAs : types.Set → List Int
  SetValueFrom : attr.Type → List Int → types.Set

/-- Function `types.SetValueMust` for no elements: the known empty set of the
element type. -/
def types.SetValueMust (elemType : attr.Type) (elems : List attr.Value) : types.Set :=
  ⟨some elemType, TFValue.known elems⟩

/-! ## The `tools` package and Go errors -/

/-- What the provider package uses of the package `tools`, which is not part of
the provider package: the diagnostic summaries, the constructor of the "data
not found" error, which returns a non-nil error, and the readers and writers of
fields, here on the model `Indexer` (a reader returns nil, `none`, or a
field). -/
structure Tools where
  ClientError : String
  DataSourceError : String
  UnexpectedResourceConfigureType : String
  UnexpectedDataSourceConfigureType : String
  UnexpectedImportIdentifier : String
  ErrDataNotFoundError : String → String → String → GoError
  WriteStringField : starr.FieldOutput → Indexer → Indexer
  WriteBoolField : starr.FieldOutput → Indexer → Indexer
  WriteIntField : starr.FieldOutput → Indexer → Indexer
  WriteFloatField : starr.FieldOutput → Indexer → Indexer
  WriteIntSliceField : starr.FieldOutput → Indexer → Indexer
  ReadBoolField : String → Indexer → Option starr.FieldInput
  ReadIntField : String → Indexer → Option starr.FieldInput
  ReadFloatField : String → Indexer → Option starr.FieldInput
  ReadStringField : String → Indexer → Option starr.FieldInput
  ReadIntSliceField : String → Indexer → Option starr.FieldInput

/-! ## provider.go -/

/-- Radarr describes the provider data model. -/
structure Radarr where
  APIKey : types.String
  URL : types.String
  deriving DecidableEq, Repr

/-- A `tfsdk.Config`, `tfsdk.Plan` or `tfsdk.State` read into a model of type
`α`: the diagnostics `Get` returns and the value the target holds afterwards. -/
structure Readable (α : Type) where
  diags : Diagnostics
  value : α

/-- Method `Get` of a configuration, plan or state. -/
def Readable.Get {α : Type} (c : Readable α) : Diagnostics × α := (c.diags, c.value)

/-- The request `provider.ConfigureRequest`. -/
structure provider.ConfigureRequest where
  Config : Readable Radarr

/-- The response `provider.ConfigureResponse`. -/
structure provider.ConfigureResponse where
  Diagnostics : Diagnostics
  DataSourceData : Option Any
  ResourceData : Option Any
  deriving DecidableEq, Repr

/-- The response `provider.MetadataResponse`. -/
structure provider.MetadataResponse where
  TypeName : String
  Version : String
  deriving DecidableEq, Repr

/-- RadarrProvider defines the provider implementation. -/
structure RadarrProvider where
  version : String
  deriving DecidableEq, Repr

/-- Method `RadarrProvider.Metadata`. -/
def RadarrProvider.Metadata (p : RadarrProvider) (_resp : provider.MetadataResponse) :
    provider.MetadataResponse :=
  { TypeName := "radarr", Version := p.version }

/-- The locals `url` and `key` of `RadarrProvider.Configure` on return: `none`
for a local whose assignment (lines 82-87, lines 110-115) was not reached. -/
structure RadarrProvider.Configure.Locals where
  url : Option String
  key : Option String
  deriving DecidableEq, Repr

/-- The body of `RadarrProvider.Configure`, returning the response together with
the locals `url` and `key`. -/
def RadarrProvider.Configure.body (getenv : String → String) (req : provider.ConfigureRequest)
    (resp : provider.ConfigureResponse) :
    provider.ConfigureResponse × RadarrProvider.Configure.Locals :=
  let (diags, data) := req.Config.Get
  let resp := { resp with Diagnostics := resp.Diagnostics.Append diags }
  if resp.Diagnostics.HasError then
    (resp, ⟨none, none⟩)
  else if data.URL.IsUnknown then
    ({ resp with Diagnostics :=
        resp.Diagnostics.AddWarning "Unable to create client" "Cannot use unknown value as url" },
     ⟨none, none⟩)
  else
    let url := if data.URL.IsNull then getenv "RADARR_URL" else data.URL.ValueString
    if url = "" then
      ({ resp with Diagnostics :=
          resp.Diagnostics.AddError "Unable to find URL" "URL cannot be an empty string" },
       ⟨some url, none⟩)
    else if data.APIKey.IsUnknown then
      ({ resp with Diagnostics :=
          resp.Diagnostics.AddWarning "Unable to create client" "Cannot use unknown value as api_key" },
       ⟨some url, none⟩)
    else
      let key := if data.APIKey.IsNull then getenv "RADARR_API_KEY" else data.APIKey.ValueString
      if key = "" then
        ({ resp with Diagnostics :=
            resp.Diagnostics.AddError "Unable to find API key" "API key cannot be an empty string" },
         ⟨some url, some key⟩)
      else
        let client := radarr.New (starr.New key url 0)
        ({ resp with DataSourceData := some (Any.radarrClient (some client)),
                     ResourceData := some (Any.radarrClient (some client)) },
         ⟨some url, some key⟩)

/-- Method `RadarrProvider.Configure`: the response on return. -/
def RadarrProvider.Configure (getenv : String → String) (req : provider.ConfigureRequest)
    (resp : provider.ConfigureResponse) : provider.ConfigureResponse :=
  (RadarrProvider.Configure.body getenv req resp).1

/-- The locals `url` and `key` of a run of `RadarrProvider.Configure`. -/
def RadarrProvider.Configure.locals (getenv : String → String)
    (req : provider.ConfigureRequest) (resp : provider.ConfigureResponse) :
    RadarrProvider.Configure.Locals :=
  (RadarrProvider.Configure.body getenv req resp).2

/-- The response `provider.ConfigureResponse` with the given diagnostics and no
provider data, as the framework passes it (with no diagnostics). -/
def provider.ConfigureResponse.fresh (ds : Provider.Diagnostics) : provider.ConfigureResponse :=
  { Diagnostics := ds, DataSourceData := none, ResourceData := none }

/-- An environment in which only the two variables of the provider are set. -/
def envOf (url key : String) : String → String :=
  fun k => if k = "RADARR_URL" then url else if k = "RADARR_API_KEY" then key else ""

/-! ## Configure of resources and data sources -/

/-- The request `resource.ConfigureRequest`: `ProviderData` is nil (`none`) or
holds a value. -/
structure resource.ConfigureRequest where
  ProviderData : Option Any
  deriving DecidableEq, Repr

/-- The response `resource.ConfigureResponse`. -/
structure resource.ConfigureResponse where
  Diagnostics : Diagnostics
  deriving DecidableEq, Repr

/-- The request `datasource.ConfigureRequest`. -/
structure datasource.ConfigureRequest where
  ProviderData : Option Any
  deriving DecidableEq, Repr

/-- The response `datasource.ConfigureResponse`. -/
structure datasource.ConfigureResponse where
  Diagnostics : Diagnostics
  deriving DecidableEq, Repr

/-- IndexerResource defines the indexer implementation. -/
structure IndexerResource where
  client : Option radarr.Radarr
  deriving DecidableEq, Repr

/-- IndexerNyaaResource defines the Nyaa indexer implementation. -/
structure IndexerNyaaResource where
  client : Option radarr.Radarr
  deriving DecidableEq, Repr

/-- IndexerIptorrentsResource defines the Iptorrents indexer implementation. -/
structure IndexerIptorrentsResource where
  client : Option radarr.APIClient
  deriving DecidableEq, Repr

/-- MediaManagementResource defines the media management implementation. -/
structure MediaManagementResource where
  client : Option radarr.Radarr
  deriving DecidableEq, Repr

/-- NotificationPushoverResource defines the notification implementation. -/
structure NotificationPushoverResource where
  client : Option radarr.Radarr
  deriving DecidableEq, Repr

/-- NotificationTraktResource defines the notification implementation. -/
structure NotificationTraktResource where
  client : Option radarr.APIClient
  deriving DecidableEq, Repr

/-- RestrictionDataSource defines the remote path restriction implementation. -/
structure RestrictionDataSource where
  client : Option radarr.Radarr
  deriving DecidableEq, Repr

/-- QualityProfileDataSource defines the quality profiles implementation. -/
structure QualityProfileDataSource where
  client : Option radarr.Radarr
  deriving DecidableEq, Repr

/-- CustomFormatsDataSource defines the download clients implementation. -/
structure CustomFormatsDataSource where
  client : Option radarr.Radarr
  deriving DecidableEq, Repr

/-- Method `IndexerResource.Configure`. -/
def IndexerResource.Configure (tools : Tools) (r : IndexerResource)
    (req : resource.ConfigureRequest) (resp : resource.ConfigureResponse) :
    IndexerResource × resource.ConfigureResponse :=
  match req.ProviderData with
  | none => (r, resp)
  | some (Any.radarrClient client) => ({ r with client := client }, resp)
  | some data =>
    let detail := "Expected *radarr.Radarr, got: " ++ data.typeName
      ++ ". Please report this issue to the provider developers."
    (r, { resp with Diagnostics := resp.Diagnostics.AddError tools.UnexpectedResourceConfigureType detail })

/-- Method `IndexerNyaaResource.Configure`. -/
def IndexerNyaaResource.Configure (tools : Tools) (r : IndexerNyaaResource)
    (req : resource.ConfigureRequest) (resp : resource.ConfigureResponse) :
    IndexerNyaaResource × resource.ConfigureResponse :=
  match req.ProviderData with
  | none => (r, resp)
  | some (Any.radarrClient client) => ({ r with client := client }, resp)
  | some data =>
    let detail := "Expected *radarr.Radarr, got: " ++ data.typeName
      ++ ". Please report this issue to the provider developers."
    (r, { resp with Diagnostics := resp.Diagnostics.AddError tools.UnexpectedResourceConfigureType detail })

/-- Method `IndexerIptorrentsResource.Configure`. -/
def IndexerIptorrentsResource.Configure (tools : Tools) (r : IndexerIptorrentsResource)
    (req : resource.ConfigureRequest) (resp : resource.ConfigureResponse) :
    IndexerIptorrentsResource × resource.ConfigureResponse :=
  match req.ProviderData with
  | none => (r, resp)
  | some (Any.apiClient client) => ({ r with client := client }, resp)
  | some data =>
    let detail := "Expected *radarr.APIClient, got: " ++ data.typeName
      ++ ". Please report this issue to the provider developers."
    (r, { resp with Diagnostics := resp.Diagnostics.AddError tools.UnexpectedResourceConfigureType detail })

/-- Method `MediaManagementResource.Configure`. -/
def MediaManagementResource.Configure (tools : Tools) (r : MediaManagementResource)
    (req : resource.ConfigureRequest) (resp : resource.ConfigureResponse) :
    MediaManagementResource × resource.ConfigureResponse :=
  match req.ProviderData with
  | none => (r, resp)
  | some (Any.radarrClient client) => ({ r with client := client }, resp)
  | some data =>
    let detail := "Expected *radarr.Radarr, got: " ++ data.typeName
      ++ ". Please report this issue to the provider developers."
    (r, { resp with Diagnostics := resp.Diagnostics.AddError tools.UnexpectedResourceConfigureType detail })

/-- Method `NotificationPushoverResource.Configure`. -/
def NotificationPushoverResource.Configure (tools : Tools) (r : NotificationPushoverResource)
    (req : resource.ConfigureRequest) (resp : resource.ConfigureResponse) :
    NotificationPushoverResource × resource.ConfigureResponse :=
  match req.ProviderData with
  | none => (r, resp)
  | some (Any.radarrClient client) => ({ r with client := client }, resp)
  | some data =>
    let detail := "Expected *radarr.Radarr, got: " ++ data.typeName
      ++ ". Please report this issue to the provider developers."
    (r, { resp with Diagnostics := resp.Diagnostics.AddError tools.UnexpectedResourceConfigureType detail })

/-- Method `NotificationTraktResource.Configure`. -/
def NotificationTraktResource.Configure (tools : Tools) (r : NotificationTraktResource)
    (req : resource.ConfigureRequest) (resp : resource.ConfigureResponse) :
    NotificationTraktResource × resource.ConfigureResponse :=
  match req.ProviderData with
  | none => (r, resp)
  | some (Any.apiClient client) => ({ r with client := client }, resp)
  | some data =>
    let detail := "Expected *radarr.APIClient, got: " ++ data.typeName
      ++ ". Please report this issue to the provider developers."
    (r, { resp with Diagnostics := resp.Diagnostics.AddError tools.UnexpectedResourceConfigureType detail })

/-- Method `RestrictionDataSource.Configure`. -/
def RestrictionDataSource.Configure (tools : Tools) (d : RestrictionDataSource)
    (req : datasource.ConfigureRequest) (resp : datasource.ConfigureResponse) :
    RestrictionDataSource × datasource.ConfigureResponse :=
  match req.ProviderData with
  | none => (d, resp)
  | some (Any.radarrClient client) => ({ d with client := client }, resp)
  | some data =>
    let detail := "Expected *radarr.Radarr, got: " ++ data.typeName
      ++ ". Please report this issue to the provider developers."
    (d, { resp with Diagnostics := resp.Diagnostics.AddError tools.UnexpectedDataSourceConfigureType detail })

/-- Method `QualityProfileDataSource.Configure`. -/
def QualityProfileDataSource.Configure (tools : Tools) (d : QualityProfileDataSource)
    (req : datasource.ConfigureRequest) (resp : datasource.ConfigureResponse) :
    QualityProfileDataSource × datasource.ConfigureResponse :=
  match req.ProviderData with
  | none => (d, resp)
  | some (Any.radarrClient client) => ({ d with client := client }, resp)
  | some data =>
    let detail := "Expected *radarr.Radarr, got: " ++ data.typeName
      ++ ". Please report this issue to the provider developers."
    (d, { resp with Diagnostics := resp.Diagnostics.AddError tools.UnexpectedDataSourceConfigureType detail })

/-- Method `CustomFormatsDataSource.Configure`. -/
def CustomFormatsDataSource.Configure (tools : Tools) (d : CustomFormatsDataSource)
    (req : datasource.ConfigureRequest) (resp : datasource.ConfigureResponse) :
    CustomFormatsDataSource × datasource.ConfigureResponse :=
  match req.ProviderData with
  | none => (d, resp)
  | some (Any.radarrClient client) => ({ d with client := client }, resp)
  | some data =>
    let detail := "Expected *radarr.Radarr, got: " ++ data.typeName
      ++ ". Please report this issue to the provider developers."
    (d, { resp with Diagnostics := resp.Diagnostics.AddError tools.UnexpectedDataSourceConfigureType detail })

/-- The dynamic type of a provider data value is `*radarr.Radarr`. -/
def Any.isRadarr : Any → Bool
  | .radarrClient _ => true
  | _ => false

/-- The dynamic type of a provider data value is `*radarr.APIClient`. -/
def Any.isAPIClient : Any → Bool
  | .apiClient _ => true
  | _ => false

/-- Values of the package `tools` used for the runs shown: the summaries, and
field readers and writers that do nothing. -/
def toolsStd : Tools :=
  { ClientError := "Client Error"
    DataSourceError := "Data Source Error"
    UnexpectedResourceConfigureType := "Unexpected Resource Configure Type"
    UnexpectedDataSourceConfigureType := "Unexpected DataSource Configure Type"
    UnexpectedImportIdentifier := "Unexpected Import Identifier"
    ErrDataNotFoundError := fun kind field search =>
      ⟨"data source not found: no " ++ kind ++ " with " ++ field ++ " " ++ search⟩
    WriteStringField := fun _ i => i
    WriteBoolField := fun _ i => i
    WriteIntField := fun _ i => i
    WriteFloatField := fun _ i => i
    WriteIntSliceField := fun _ i => i
    ReadBoolField := fun _ _ => none
    ReadIntField := fun _ _ => none
    ReadFloatField := fun _ _ => none
    ReadStringField := fun _ _ => none
    ReadIntSliceField := fun _ _ => none }

/-! ## Terraform state -/

/-- A write to a Terraform state: `Set` of a whole model, `SetAttribute` of an
integer at a root attribute, `RemoveResource`. -/
inductive StateWrite (α : Type) where
  | Set (val : α) : StateWrite α
  | SetAttribute (path : String) (val : Int) : StateWrite α
  | RemoveResource : StateWrite α
  deriving DecidableEq, Repr

/-- A `tfsdk.State` over the model `α`: what `Get` reads from it on entry, and
the writes made to it, oldest first. -/
structure tfsdk.State (α : Type) where
  content : Readable α
  writes : List (StateWrite α)

/-- Method `Get` of a state. -/
def tfsdk.State.Get {α : Type} (s : tfsdk.State α) : Diagnostics × α := s.content.Get

/-- Method `Set` of a state, for a model of the schema: the write is recorded and
no diagnostic is returned. -/
def tfsdk.State.Set {α : Type} (s : tfsdk.State α) (val : α) : Diagnostics × tfsdk.State α :=
  ([], { s with writes := s.writes ++ [StateWrite.Set val] })

/-- Method `SetAttribute` of a state, for a Go `int` at an attribute the schema
declares as Int64: the write is recorded and no diagnostic is returned. -/
def tfsdk.State.SetAttribute {α : Type} (s : tfsdk.State α) (path : String) (val : Int) :
    Diagnostics × tfsdk.State α :=
  ([], { s with writes := s.writes ++ [StateWrite.SetAttribute path val] })

/-- Method `RemoveResource` of a state. -/
def tfsdk.State.RemoveResource {α : Type} (s : tfsdk.State α) : tfsdk.State α :=
  { s with writes := s.writes ++ [StateWrite.RemoveResource] }

/-! ## strconv -/

/-- The value of a string of decimal digits, most significant first. -/
def strconv.decimal (ds : List Char) : Nat :=
  ds.foldl (fun n c => n * 10 + (c.toNat - 48)) 0

/-- Function `strconv.Atoi` on a 64-bit platform: an optional sign, then one or
more ASCII digits and nothing else, denoting an integer of the range of `int`;
`none` when it returns a non-nil error. -/
def strconv.Atoi (s : String) : Option Int :=
  let cs := s.toList
  let neg := cs.head? = some '-'
  let ds := if cs.head? = some '-' ∨ cs.head? = some '+' then cs.tail else cs
  if ds = [] then none
  else if ds.all Char.isDigit then
    let un := strconv.decimal ds
    if neg then (if un ≤ 2 ^ 63 then some (-(un : Int)) else none)
    else (if un < 2 ^ 63 then some (un : Int) else none)
  else none

/-- Function `strconv.Itoa`. -/
def strconv.Itoa (n : Int) : String := toString n

/-! ## ImportState -/

/-- The request `resource.ImportStateRequest`. -/
structure resource.ImportStateRequest where
  ID : String
  deriving DecidableEq, Repr

/-- The response `resource.ImportStateResponse` of a resource with model `α`. -/
structure resource.ImportStateResponse (α : Type) where
  State : tfsdk.State α
  Diagnostics : Diagnostics

/-- Method `IndexerResource.ImportState`; `quote` is `strconv.Quote`, which the
verb `%q` applies. The call of `tflog.Trace` leaves the response as it is. -/
def IndexerResource.ImportState (tools : Tools) (quote : String → String)
    (_r : IndexerResource) (req : resource.ImportStateRequest)
    (resp : resource.ImportStateResponse Indexer) :
    resource.ImportStateResponse Indexer :=
  match strconv.Atoi req.ID with
  | none =>
    let detail := "Expected import identifier with format: ID. Got: " ++ quote req.ID
    { resp with Diagnostics :=
        resp.Diagnostics.AddError tools.UnexpectedImportIdentifier detail }
  | some id =>
    let (diags, state) := resp.State.SetAttribute "id" id
    { resp with State := state, Diagnostics := resp.Diagnostics.Append diags }

/-- Method `IndexerNyaaResource.ImportState`; `quote` is `strconv.Quote`, which the
verb `%q` applies. The call of `tflog.Trace` leaves the response as it is. -/
def IndexerNyaaResource.ImportState (tools : Tools) (quote : String → String)
    (_r : IndexerNyaaResource) (req : resource.ImportStateRequest)
    (resp : resource.ImportStateResponse IndexerNyaa) :
    resource.ImportStateResponse IndexerNyaa :=
  match strconv.Atoi req.ID with
  | none =>
    let detail := "Expected import identifier with format: ID. Got: " ++ quote req.ID
    { resp with Diagnostics :=
        resp.Diagnostics.AddError tools.UnexpectedImportIdentifier detail }
  | some id =>
    let (diags, state) := resp.State.SetAttribute "id" id
    { resp with State := state, Diagnostics := resp.Diagnostics.Append diags }

/-- Method `IndexerIptorrentsResource.ImportState`; `quote` is `strconv.Quote`, which the
verb `%q` applies. The call of `tflog.Trace` leaves the response as it is. -/
def IndexerIptorrentsResource.ImportState (tools : Tools) (quote : String → String)
    (_r : IndexerIptorrentsResource) (req : resource.ImportStateRequest)
    (resp : resource.ImportStateResponse IndexerIptorrents) :
    resource.ImportStateResponse IndexerIptorrents :=
  match strconv.Atoi req.ID with
  | none =>
    let detail := "Expected import identifier with format: ID. Got: " ++ quote req.ID
    { resp with Diagnostics :=
        resp.Diagnostics.AddError tools.UnexpectedImportIdentifier detail }
  | some id =>
    let (diags, state) := resp.State.SetAttribute "id" id
    { resp with State := state, Diagnostics := resp.Diagnostics.Append diags }

/-- Method `NotificationPushoverResource.ImportState`; `quote` is `strconv.Quote`, which the
verb `%q` applies. The call of `tflog.Trace` leaves the response as it is. -/
def NotificationPushoverResource.ImportState (tools : Tools) (quote : String → String)
    (_r : NotificationPushoverResource) (req : resource.ImportStateRequest)
    (resp : resource.ImportStateResponse NotificationPushover) :
    resource.ImportStateResponse NotificationPushover :=
  match strconv.Atoi req.ID with
  | none =>
    let detail := "Expected import identifier with format: ID. Got: " ++ quote req.ID
    { resp with Diagnostics :=
        resp.Diagnostics.AddError tools.UnexpectedImportIdentifier detail }
  | some id =>
    let (diags, state) := resp.State.SetAttribute "id" id
    { resp with State := state, Diagnostics := resp.Diagnostics.Append diags }

/-- Method `NotificationTraktResource.ImportState`; `quote` is `strconv.Quote`, which the
verb `%q` applies. The call of `tflog.Trace` leaves the response as it is. -/
def NotificationTraktResource.ImportState (tools : Tools) (quote : String → String)
    (_r : NotificationTraktResource) (req : resource.ImportStateRequest)
    (resp : resource.ImportStateResponse NotificationTrakt) :
    resource.ImportStateResponse NotificationTrakt :=
  match strconv.Atoi req.ID with
  | none =>
    let detail := "Expected import identifier with format: ID. Got: " ++ quote req.ID
    { resp with Diagnostics :=
        resp.Diagnostics.AddError tools.UnexpectedImportIdentifier detail }
  | some id =>
    let (diags, state) := resp.State.SetAttribute "id" id
    { resp with State := state, Diagnostics := resp.Diagnostics.Append diags }

/-- A stand-in for `strconv.Quote` on strings that need no escaping. -/
def quoteStd (s : String) : String := "\"" ++ s ++ "\""

/-! ## Metadata -/

/-- The request `resource.MetadataRequest`. -/
structure resource.MetadataRequest where
  ProviderTypeName : String
  deriving DecidableEq, Repr

/-- The response `resource.MetadataResponse`. -/
structure resource.MetadataResponse where
  TypeName : String
  deriving DecidableEq, Repr

/-- The request `datasource.MetadataRequest`. -/
structure datasource.MetadataRequest where
  ProviderTypeName : String
  deriving DecidableEq, Repr

/-- The response `datasource.MetadataResponse`. -/
structure datasource.MetadataResponse where
  TypeName : String
  deriving DecidableEq, Repr

/-- Constant `indexerResourceName` of `indexer_resource.go`. -/
def indexerResourceName : String := "indexer"

/-- Constant `indexerIptorrentsResourceName` of `indexer_iptorrents_resource.go`. -/
def indexerIptorrentsResourceName : String := "indexer_iptorrents"

/-- Constant `indexerNyaaResourceName` of `indexer_nyaa_resource.go`. -/
def indexerNyaaResourceName : String := "indexer_nyaa"

/-- Constant `mediaManagementResourceName` of `media_management_resource.go`. -/
def mediaManagementResourceName : String := "media_management"

/-- Constant `metadataKodiResourceName` of `metadata_kodi_resource.go`. -/
def metadataKodiResourceName : String := "metadata_kodi"

/-- Constant `notificationMailgunResourceName` of `notification_mailgun_resource.go`. -/
def notificationMailgunResourceName : String := "notification_mailgun"

/-- Constant `notificationPushoverResourceName` of `notification_pushover_resource.go`. -/
def notificationPushoverResourceName : String := "notification_pushover"

/-- Constant `notificationTraktResourceName` of `notification_trakt_resource.go`. -/
def notificationTraktResourceName : String := "notification_trakt"

/-- Constant `customFormatsDataSourceName` of `custom_formats_data_source.go`. -/
def customFormatsDataSourceName : String := "custom_formats"

/-- Constant `qualityProfileDataSourceName` of `quality_profile_data_source.go`. -/
def qualityProfileDataSourceName : String := "quality_profile"

/-- Constant `restrictionDataSourceName` of `restriction_data_source.go`. -/
def restrictionDataSourceName : String := "restriction"

/-- Method `IndexerResource.Metadata`. -/
def IndexerResource.Metadata (req : resource.MetadataRequest) (_resp : resource.MetadataResponse) :
    resource.MetadataResponse :=
  { TypeName := req.ProviderTypeName ++ "_" ++ indexerResourceName }

/-- Method `IndexerIptorrentsResource.Metadata`. -/
def IndexerIptorrentsResource.Metadata (req : resource.MetadataRequest) (_resp : resource.MetadataResponse) :
    resource.MetadataResponse :=
  { TypeName := req.ProviderTypeName ++ "_" ++ indexerIptorrentsResourceName }

/-- Method `IndexerNyaaResource.Metadata`. -/
def IndexerNyaaResource.Metadata (req : resource.MetadataRequest) (_resp : resource.MetadataResponse) :
    resource.MetadataResponse :=
  { TypeName := req.ProviderTypeName ++ "_" ++ indexerNyaaResourceName }

/-- Method `MediaManagementResource.Metadata`. -/
def MediaManagementResource.Metadata (req : resource.MetadataRequest) (_resp : resource.MetadataResponse) :
    resource.MetadataResponse :=
  { TypeName := req.ProviderTypeName ++ "_" ++ mediaManagementResourceName }

/-- Method `MetadataKodiResource.Metadata`. -/
def MetadataKodiResource.Metadata (req : resource.MetadataRequest) (_resp : resource.MetadataResponse) :
    resource.MetadataResponse :=
  { TypeName := req.ProviderTypeName ++ "_" ++ metadataKodiResourceName }

/-- Method `NotificationMailgunResource.Metadata`. -/
def NotificationMailgunResource.Metadata (req : resource.MetadataRequest) (_resp : resource.MetadataResponse) :
    resource.MetadataResponse :=
  { TypeName := req.ProviderTypeName ++ "_" ++ notificationMailgunResourceName }

/-- Method `NotificationPushoverResource.Metadata`. -/
def NotificationPushoverResource.Metadata (req : resource.MetadataRequest) (_resp : resource.MetadataResponse) :
    resource.MetadataResponse :=
  { TypeName := req.ProviderTypeName ++ "_" ++ notificationPushoverResourceName }

/-- Method `NotificationTraktResource.Metadata`. -/
def NotificationTraktResource.Metadata (req : resource.MetadataRequest) (_resp : resource.MetadataResponse) :
    resource.MetadataResponse :=
  { TypeName := req.ProviderTypeName ++ "_" ++ notificationTraktResourceName }

/-- Method `CustomFormatsDataSource.Metadata`. -/
def CustomFormatsDataSource.Metadata (req : datasource.MetadataRequest) (_resp : datasource.MetadataResponse) :
    datasource.MetadataResponse :=
  { TypeName := req.ProviderTypeName ++ "_" ++ customFormatsDataSourceName }

/-- Method `QualityProfileDataSource.Metadata`. -/
def QualityProfileDataSource.Metadata (req : datasource.MetadataRequest) (_resp : datasource.MetadataResponse) :
    datasource.MetadataResponse :=
  { TypeName := req.ProviderTypeName ++ "_" ++ qualityProfileDataSourceName }

/-- Method `RestrictionDataSource.Metadata`. -/
def RestrictionDataSource.Metadata (req : datasource.MetadataRequest) (_resp : datasource.MetadataResponse) :
    datasource.MetadataResponse :=
  { TypeName := req.ProviderTypeName ++ "_" ++ restrictionDataSourceName }

/-- The entity names of the resources defined in the provider package. -/
def resourceNames : List String :=
  [indexerResourceName, indexerIptorrentsResourceName, indexerNyaaResourceName,
    mediaManagementResourceName, metadataKodiResourceName, notificationMailgunResourceName,
    notificationPushoverResourceName, notificationTraktResourceName]

/-- The entity names of the data sources defined in the provider package. -/
def dataSourceNames : List String :=
  [customFormatsDataSourceName, qualityProfileDataSourceName, restrictionDataSourceName]

/-! ## Data source lookups -/

/-- The API type `radarr.Restriction` of `golift.io/starr/radarr`. -/
structure radarr.Restriction where
  Tags : List Int
  Required : String
  Ignored : String
  ID : Int
  deriving DecidableEq, Repr

/-- The API type `radarr.QualityProfile` of `golift.io/starr/radarr`, with the
fields the provider package reads in `quality_profile_data_source.go`. -/
structure radarr.QualityProfile where
  ID : Int
  Name : String
  deriving DecidableEq, Repr

/-- Function `findRestriction`: the pair of the restriction (nil, `none`) and the
error (nil, `none`) it returns. The elements of the slice are non-nil. -/
def findRestriction (tools : Tools) (id : Int) :
    List radarr.Restriction → Option radarr.Restriction × Option GoError
  | [] => (none, some (tools.ErrDataNotFoundError restrictionDataSourceName "id"
      (strconv.Itoa id)))
  | m :: restrictions =>
    if m.ID = id then (some m, none) else findRestriction tools id restrictions

/-- Function `findQualityProfile`: the pair of the profile (nil, `none`) and the
error (nil, `none`) it returns. The elements of the slice are non-nil. -/
def findQualityProfile (tools : Tools) (name : String) :
    List radarr.QualityProfile → Option radarr.QualityProfile × Option GoError
  | [] => (none, some (tools.ErrDataNotFoundError qualityProfileDataSourceName "name" name))
  | p :: profiles =>
    if p.Name = name then (some p, none) else findQualityProfile tools name profiles

/-- The request `datasource.ReadRequest` of a data source with model `α`. -/
structure datasource.ReadRequest (α : Type) where
  Config : Readable α

/-- The response `datasource.ReadResponse` of a data source with model `α`. -/
structure datasource.ReadResponse (α : Type) where
  State : tfsdk.State α
  Diagnostics : Diagnostics

/-- Method `QualityProfileDataSource.Read`. The model `QualityProfile` and its
method `write` belong to a file that is not part of the sources at hand: the
model is the type `α`, `Name` reads its attribute `name`, and `write` is its
method, applied to the pointer `findQualityProfile` returns.
`GetQualityProfilesContext` is what the call of the client returns: the
profiles, or a non-nil error. -/
def QualityProfileDataSource.Read {α : Type} (tools : Tools)
    (GetQualityProfilesContext : Except GoError (List radarr.QualityProfile))
    (Name : α → types.String) (write : α → Option radarr.QualityProfile → α)
    (_d : QualityProfileDataSource) (_req : datasource.ReadRequest α)
    (resp : datasource.ReadResponse α) : datasource.ReadResponse α :=
  let (diags, data) := resp.State.Get
  let resp := { resp with Diagnostics := resp.Diagnostics.Append diags }
  if resp.Diagnostics.HasError then
    resp
  else
    match GetQualityProfilesContext with
    | .error err =>
      let detail := "Unable to read " ++ qualityProfileDataSourceName ++ ", got error: "
        ++ err.Error
      { resp with Diagnostics := resp.Diagnostics.AddError tools.ClientError detail }
    | .ok response =>
      match findQualityProfile tools (Name data).ValueString response with
      | (_, some err) =>
        let detail := "Unable to find " ++ qualityProfileDataSourceName ++ ", got error: "
          ++ err.Error
        { resp with Diagnostics := resp.Diagnostics.AddError tools.DataSourceError detail }
      | (profile, none) =>
        let data := write data profile
        let (diags, state) := resp.State.Set data
        { resp with State := state, Diagnostics := resp.Diagnostics.Append diags }

/-! ## indexer_resource.go -/

/-- Table `indexerIntSliceFields`. -/
def indexerIntSliceFields : List String :=
  ["categories", "multiLanguages", "requiredFlags", "codecs", "mediums"]

/-- Table `indexerBoolFields`. -/
def indexerBoolFields : List String := ["allowZeroSize", "removeYear", "rankedOnly"]

/-- Table `indexerIntFields`. -/
def indexerIntFields : List String := ["delay", "minimumSeeders", "seedTime"]

/-- Table `indexerStringFields`. -/
def indexerStringFields : List String :=
  ["additionalParameters", "apiKey", "apiPath", "baseUrl", "captchaToken", "cookie",
    "passkey", "username", "aPIUser", "aPIKey"]

/-- Table `indexerFloatFields`. -/
def indexerFloatFields : List String := ["seedRatio"]

/-- Method `Indexer.writeFields`. -/
def Indexer.writeFields (tools : Tools) (i : Indexer) : List starr.FieldOutput → Indexer
  | [] => i
  | f :: fields =>
    if f.Value.isNone then
      Indexer.writeFields tools i fields
    else if indexerStringFields.contains f.Name then
      Indexer.writeFields tools (tools.WriteStringField f i) fields
    else if indexerBoolFields.contains f.Name then
      Indexer.writeFields tools (tools.WriteBoolField f i) fields
    else if indexerIntFields.contains f.Name then
      Indexer.writeFields tools (tools.WriteIntField f i) fields
    else if indexerFloatFields.contains f.Name then
      Indexer.writeFields tools (tools.WriteFloatField f i) fields
    else if indexerIntSliceFields.contains f.Name then
      Indexer.writeFields tools (tools.WriteIntSliceField f i) fields
    else
      Indexer.writeFields tools i fields

/-- Method `Indexer.write`. -/
def Indexer.write (tools : Tools) (conv : Conversions) (i : Indexer)
    (indexer : radarr.IndexerOutput) : Indexer :=
  let i := { i with
    EnableAutomaticSearch := TFValue.known indexer.EnableAutomaticSearch
    EnableInteractiveSearch := TFValue.known indexer.EnableInteractiveSearch
    EnableRss := TFValue.known indexer.EnableRss
    Priority := TFValue.known indexer.Priority
    DownloadClientID := TFValue.known indexer.DownloadClientID
    ID := TFValue.known indexer.ID
    ConfigContract := TFValue.known indexer.ConfigContract
    Implementation := TFValue.known indexer.Implementation
    Name := TFValue.known indexer.Name
    Protocol := TFValue.known indexer.Protocol
    Tags := types.SetValueMust attr.Type.Int64Type []
    MultiLanguages := types.SetValueMust attr.Type.Int64Type []
    RequiredFlags := types.SetValueMust attr.Type.Int64Type []
    Codecs := types.SetValueMust attr.Type.Int64Type []
    Mediums := types.SetValueMust attr.Type.Int64Type []
    Categories := types.SetValueMust attr.Type.Int64Type [] }
  let i := { i with Tags := conv.ValueFrom indexer.Tags i.Tags }
  Indexer.writeFields tools i indexer.Fields

/-- The loops of `Indexer.readFields`: the fields a reader returns for the names
of a table, in the order of the table, without those that are nil. -/
def Indexer.readFields.loop (reader : String → Indexer → Option starr.FieldInput)
    (i : Indexer) (output : List starr.FieldInput) : List String → List starr.FieldInput
  | [] => output
  | name :: names =>
    match reader name i with
    | some field => Indexer.readFields.loop reader i (output ++ [field]) names
    | none => Indexer.readFields.loop reader i output names

/-- Method `Indexer.readFields`. -/
def Indexer.readFields (tools : Tools) (i : Indexer) : List starr.FieldInput :=
  let output : List starr.FieldInput := []
  let output := Indexer.readFields.loop tools.ReadBoolField i output indexerBoolFields
  let output := Indexer.readFields.loop tools.ReadIntField i output indexerIntFields
  let output := Indexer.readFields.loop tools.ReadFloatField i output indexerFloatFields
  let output := Indexer.readFields.loop tools.ReadStringField i output indexerStringFields
  let output := Indexer.readFields.loop tools.ReadIntSliceField i output indexerIntSliceFields
  output

/-- Method `Indexer.read`. -/
def Indexer.read (tools : Tools) (conv : Conversions) (i : Indexer) : radarr.IndexerInput :=
  let tags := conv.ValueAs i.Tags
  { EnableAutomaticSearch := i.EnableAutomaticSearch.ValueBool
    EnableInteractiveSearch := i.EnableInteractiveSearch.ValueBool
    EnableRss := i.EnableRss.ValueBool
    Priority := i.Priority.ValueInt64
    DownloadClientID := i.DownloadClientID.ValueInt64
    ID := i.ID.ValueInt64
    ConfigContract := i.ConfigContract.ValueString
    Implementation := i.Implementation.ValueString
    Name := i.Name.ValueString
    Protocol := i.Protocol.ValueString
    Tags := tags
    Fields := Indexer.readFields tools i }

/-! ## Requests and responses of the resource operations -/

/-- The request `resource.CreateRequest` of a resource with model `α`. -/
structure resource.CreateRequest (α : Type) where
  Plan : Readable α

/-- The response `resource.CreateResponse` of a resource with model `α`. -/
structure resource.CreateResponse (α : Type) where
  State : tfsdk.State α
  Diagnostics : Diagnostics

/-- The request `resource.ReadRequest` of a resource with model `α`. -/
structure resource.ReadRequest (α : Type) where
  State : Readable α

/-- The response `resource.ReadResponse` of a resource with model `α`. -/
structure resource.ReadResponse (α : Type) where
  State : tfsdk.State α
  Diagnostics : Diagnostics

/-- The request `resource.UpdateRequest` of a resource with model `α`. -/
structure resource.UpdateRequest (α : Type) where
  Plan : Readable α

/-- The response `resource.UpdateResponse` of a resource with model `α`. -/
structure resource.UpdateResponse (α : Type) where
  State : tfsdk.State α
  Diagnostics : Diagnostics

/-- The request `resource.DeleteRequest` of a resource with model `α`. -/
structure resource.DeleteRequest (α : Type) where
  State : Readable α

/-- The response `resource.DeleteResponse` of a resource with model `α`. -/
structure resource.DeleteResponse (α : Type) where
  State : tfsdk.State α
  Diagnostics : Diagnostics

/-! ## indexer_resource.go: the operations

In each operation `client` stands for the calls of `r.client`, and the calls of
`tflog.Trace` leave the response as it is. -/

/-- Method `IndexerResource.Create`. -/
def IndexerResource.Create (tools : Tools) (conv : Conversions) (client : radarr.Calls)
    (_r : IndexerResource) (req : resource.CreateRequest Indexer)
    (resp : resource.CreateResponse Indexer) : resource.CreateResponse Indexer :=
  let (diags, indexer) := req.Plan.Get
  let resp := { resp with Diagnostics := resp.Diagnostics.Append diags }
  if resp.Diagnostics.HasError then
    resp
  else
    let request := Indexer.read tools conv indexer
    match client.AddIndexerContext request with
    | .error err =>
      let detail := "Unable to create " ++ indexerResourceName ++ ", got error: " ++ err.Error
      { resp with Diagnostics := resp.Diagnostics.AddError tools.ClientError detail }
    | .ok response =>
      let state := Indexer.write tools conv IndexerZero response
      let (diags, st) := resp.State.Set state
      { resp with State := st, Diagnostics := resp.Diagnostics.Append diags }

/-- Method `IndexerResource.Read`. -/
def IndexerResource.Read (tools : Tools) (conv : Conversions) (client : radarr.Calls)
    (_r : IndexerResource) (req : resource.ReadRequest Indexer)
    (resp : resource.ReadResponse Indexer) : resource.ReadResponse Indexer :=
  let (diags, indexer) := req.State.Get
  let resp := { resp with Diagnostics := resp.Diagnostics.Append diags }
  if resp.Diagnostics.HasError then
    resp
  else
    match client.GetIndexerContext indexer.ID.ValueInt64 with
    | .error err =>
      let detail := "Unable to read " ++ indexerResourceName ++ ", got error: " ++ err.Error
      { resp with Diagnostics := resp.Diagnostics.AddError tools.ClientError detail }
    | .ok response =>
      let state := Indexer.write tools conv IndexerZero response
      let (diags, st) := resp.State.Set state
      { resp with State := st, Diagnostics := resp.Diagnostics.Append diags }

/-- Method `IndexerResource.Update`. -/
def IndexerResource.Update (tools : Tools) (conv : Conversions) (client : radarr.Calls)
    (_r : IndexerResource) (req : resource.UpdateRequest Indexer)
    (resp : resource.UpdateResponse Indexer) : resource.UpdateResponse Indexer :=
  let (diags, indexer) := req.Plan.Get
  let resp := { resp with Diagnostics := resp.Diagnostics.Append diags }
  if resp.Diagnostics.HasError then
    resp
  else
    let request := Indexer.read tools conv indexer
    match client.UpdateIndexerContext request with
    | .error err =>
      let detail := "Unable to update " ++ indexerResourceName ++ ", got error: " ++ err.Error
      { resp with Diagnostics := resp.Diagnostics.AddError tools.ClientError detail }
    | .ok response =>
      let state := Indexer.write tools conv IndexerZero response
      let (diags, st) := resp.State.Set state
      { resp with State := st, Diagnostics := resp.Diagnostics.Append diags }

/-- Method `IndexerResource.Delete`. -/
def IndexerResource.Delete (tools : Tools) (client : radarr.Calls)
    (_r : IndexerResource) (req : resource.DeleteRequest Indexer)
    (resp : resource.DeleteResponse Indexer) : resource.DeleteResponse Indexer :=
  let (diags, indexer) := req.State.Get
  let resp := { resp with Diagnostics := resp.Diagnostics.Append diags }
  if resp.Diagnostics.HasError then
    resp
  else
    match client.DeleteIndexerContext indexer.ID.ValueInt64 with
    | some err =>
      let detail := "Unable to read " ++ indexerResourceName ++ ", got error: " ++ err.Error
      { resp with Diagnostics := resp.Diagnostics.AddError tools.ClientError detail }
    | none =>
      { resp with State := resp.State.RemoveResource }

/-! ## indexer_nyaa_resource.go -/

/-- Constant `IndexerNyaaImplementation`. -/
def IndexerNyaaImplementation : String := "Nyaa"

/-- Constant `IndexerNyaaConfigContrat`. -/
def IndexerNyaaConfigContrat : String := "NyaaSettings"

/-- Constant `IndexerNyaaProtocol`. -/
def IndexerNyaaProtocol : String := "torrent"

/-- Method `IndexerNyaa.toIndexer`: the attributes not listed are zero-valued. -/
def IndexerNyaa.toIndexer (i : IndexerNyaa) : Indexer :=
  { IndexerZero with
    EnableAutomaticSearch := i.EnableAutomaticSearch
    EnableInteractiveSearch := i.EnableInteractiveSearch
    EnableRss := i.EnableRss
    Priority := i.Priority
    DownloadClientID := i.DownloadClientID
    ID := i.ID
    Name := i.Name
    AdditionalParameters := i.AdditionalParameters
    MinimumSeeders := i.MinimumSeeders
    SeedTime := i.SeedTime
    SeedRatio := i.SeedRatio
    BaseURL := i.BaseURL
    Tags := i.Tags
    MultiLanguages := i.MultiLanguages
    RequiredFlags := i.RequiredFlags }

/-- Method `IndexerNyaa.fromIndexer`. -/
def IndexerNyaa.fromIndexer (i : IndexerNyaa) (indexer : Indexer) : IndexerNyaa :=
  { i with
    EnableAutomaticSearch := indexer.EnableAutomaticSearch
    EnableInteractiveSearch := indexer.EnableInteractiveSearch
    EnableRss := indexer.EnableRss
    Priority := indexer.Priority
    DownloadClientID := indexer.DownloadClientID
    ID := indexer.ID
    Name := indexer.Name
    AdditionalParameters := indexer.AdditionalParameters
    MinimumSeeders := indexer.MinimumSeeders
    SeedTime := indexer.SeedTime
    SeedRatio := indexer.SeedRatio
    BaseURL := indexer.BaseURL
    Tags := indexer.Tags
    MultiLanguages := indexer.MultiLanguages
    RequiredFlags := indexer.RequiredFlags }

/-- Method `IndexerNyaa.write`. -/
def IndexerNyaa.write (tools : Tools) (conv : Conversions) (i : IndexerNyaa)
    (indexer : radarr.IndexerOutput) : IndexerNyaa :=
  let genericIndexer : Indexer := { IndexerZero with
    EnableAutomaticSearch := TFValue.known indexer.EnableAutomaticSearch
    EnableInteractiveSearch := TFValue.known indexer.EnableInteractiveSearch
    EnableRss := TFValue.known indexer.EnableRss
    Priority := TFValue.known indexer.Priority
    DownloadClientID := TFValue.known indexer.DownloadClientID
    ID := TFValue.known indexer.ID
    Name := TFValue.known indexer.Name }
  let genericIndexer := { genericIndexer with
    Tags := conv.SetValueFrom attr.Type.Int64Type indexer.Tags }
  let genericIndexer := Indexer.writeFields tools genericIndexer indexer.Fields
  i.fromIndexer genericIndexer

/-- Method `IndexerNyaa.read`. -/
def IndexerNyaa.read (tools : Tools) (conv : Conversions) (i : IndexerNyaa) :
    radarr.IndexerInput :=
  let tags := conv.ValueAs i.Tags
  { EnableAutomaticSearch := i.EnableAutomaticSearch.ValueBool
    EnableInteractiveSearch := i.EnableInteractiveSearch.ValueBool
    EnableRss := i.EnableRss.ValueBool
    Priority := i.Priority.ValueInt64
    DownloadClientID := i.DownloadClientID.ValueInt64
    ID := i.ID.ValueInt64
    ConfigContract := IndexerNyaaConfigContrat
    Implementation := IndexerNyaaImplementation
    Name := i.Name.ValueString
    Protocol := IndexerNyaaProtocol
    Tags := tags
    Fields := Indexer.readFields tools i.toIndexer }

/-- Method `IndexerNyaaResource.Create`. -/
def IndexerNyaaResource.Create (tools : Tools) (conv : Conversions) (client : radarr.Calls)
    (_r : IndexerNyaaResource) (req : resource.CreateRequest IndexerNyaa)
    (resp : resource.CreateResponse IndexerNyaa) : resource.CreateResponse IndexerNyaa :=
  let (diags, indexer) := req.Plan.Get
  let resp := { resp with Diagnostics := resp.Diagnostics.Append diags }
  if resp.Diagnostics.HasError then
    resp
  else
    let request := indexer.read tools conv
    match client.AddIndexerContext request with
    | .error err =>
      let detail := "Unable to create " ++ indexerNyaaResourceName ++ ", got error: "
        ++ err.Error
      { resp with Diagnostics := resp.Diagnostics.AddError tools.ClientError detail }
    | .ok response =>
      let indexer := indexer.write tools conv response
      let (diags, st) := resp.State.Set indexer
      { resp with State := st, Diagnostics := resp.Diagnostics.Append diags }

/-- Method `IndexerNyaaResource.Read`. -/
def IndexerNyaaResource.Read (tools : Tools) (conv : Conversions) (client : radarr.Calls)
    (_r : IndexerNyaaResource) (req : resource.ReadRequest IndexerNyaa)
    (resp : resource.ReadResponse IndexerNyaa) : resource.ReadResponse IndexerNyaa :=
  let (diags, indexer) := req.State.Get
  let resp := { resp with Diagnostics := resp.Diagnostics.Append diags }
  if resp.Diagnostics.HasError then
    resp
  else
    match client.GetIndexerContext indexer.ID.ValueInt64 with
    | .error err =>
      let detail := "Unable to read " ++ indexerNyaaResourceName ++ ", got error: "
        ++ err.Error
      { resp with Diagnostics := resp.Diagnostics.AddError tools.ClientError detail }
    | .ok response =>
      let indexer := indexer.write tools conv response
      let (diags, st) := resp.State.Set indexer
      { resp with State := st, Diagnostics := resp.Diagnostics.Append diags }

/-- Method `IndexerNyaaResource.Update`. -/
def IndexerNyaaResource.Update (tools : Tools) (conv : Conversions) (client : radarr.Calls)
    (_r : IndexerNyaaResource) (req : resource.UpdateRequest IndexerNyaa)
    (resp : resource.UpdateResponse IndexerNyaa) : resource.UpdateResponse IndexerNyaa :=
  let (diags, indexer) := req.Plan.Get
  let resp := { resp with Diagnostics := resp.Diagnostics.Append diags }
  if resp.Diagnostics.HasError then
    resp
  else
    let request := indexer.read tools conv
    match client.UpdateIndexerContext request with
    | .error err =>
      let detail := "Unable to update " ++ indexerNyaaResourceName ++ ", got error: "
        ++ err.Error
      { resp with Diagnostics := resp.Diagnostics.AddError tools.ClientError detail }
    | .ok response =>
      let indexer := indexer.write tools conv response
      let (diags, st) := resp.State.Set indexer
      { resp with State := st, Diagnostics := resp.Diagnostics.Append diags }

/-- Method `IndexerNyaaResource.Delete`. -/
def IndexerNyaaResource.Delete (tools : Tools) (client : radarr.Calls)
    (_r : IndexerNyaaResource) (req : resource.DeleteRequest IndexerNyaa)
    (resp : resource.DeleteResponse IndexerNyaa) : resource.DeleteResponse IndexerNyaa :=
  let (diags, indexer) := req.State.Get
  let resp := { resp with Diagnostics := resp.Diagnostics.Append diags }
  if resp.Diagnostics.HasError then
    resp
  else
    match client.DeleteIndexerContext indexer.ID.ValueInt64 with
    | some err =>
      let detail := "Unable to read " ++ indexerNyaaResourceName ++ ", got error: "
        ++ err.Error
      { resp with Diagnostics := resp.Diagnostics.AddError tools.ClientError detail }
    | none =>
      { resp with State := resp.State.RemoveResource }

/-! ## indexer_iptorrents_resource.go

This file is written against the client `*radarr.APIClient` and against methods
`writeFields` and `readFields` of `Indexer` over `radarr.Field`; these two methods
are not part of the sources at hand and are parameters of the embedding. -/

/-- Constant `indexerIptorrentsImplementation`. -/
def indexerIptorrentsImplementation : String := "IPTorrents"

/-- Constant `indexerIptorrentsConfigContract`. -/
def indexerIptorrentsConfigContract : String := "IPTorrentsSettings"

/-- Constant `indexerIptorrentsProtocol`. -/
def indexerIptorrentsProtocol : String := "torrent"

/-- Method `IndexerIptorrents.toIndexer`: the attributes not listed are zero-valued. -/
def IndexerIptorrents.toIndexer (i : IndexerIptorrents) : Indexer :=
  { IndexerZero with
    EnableRss := i.EnableRss
    Priority := i.Priority
    DownloadClientID := i.DownloadClientID
    ID := i.ID
    Name := i.Name
    MinimumSeeders := i.MinimumSeeders
    SeedTime := i.SeedTime
    SeedRatio := i.SeedRatio
    BaseURL := i.BaseURL
    Tags := i.Tags
    MultiLanguages := i.MultiLanguages
    RequiredFlags := i.RequiredFlags }

/-- Method `IndexerIptorrents.fromIndexer`. -/
def IndexerIptorrents.fromIndexer (i : IndexerIptorrents) (indexer : Indexer) :
    IndexerIptorrents :=
  { i with
    EnableRss := indexer.EnableRss
    Priority := indexer.Priority
    DownloadClientID := indexer.DownloadClientID
    ID := indexer.ID
    Name := indexer.Name
    MinimumSeeders := indexer.MinimumSeeders
    SeedTime := indexer.SeedTime
    SeedRatio := indexer.SeedRatio
    BaseURL := indexer.BaseURL
    Tags := indexer.Tags
    MultiLanguages := indexer.MultiLanguages
    RequiredFlags := indexer.RequiredFlags }

/-- Method `IndexerIptorrents.write`. -/
def IndexerIptorrents.write (conv : Conversions)
    (writeFields : Indexer → List radarr.Field → Indexer) (i : IndexerIptorrents)
    (indexer : radarr.IndexerResource) : IndexerIptorrents :=
  let genericIndexer : Indexer := { IndexerZero with
    EnableAutomaticSearch := TFValue.known indexer.GetEnableAutomaticSearch
    EnableInteractiveSearch := TFValue.known indexer.GetEnableInteractiveSearch
    EnableRss := TFValue.known indexer.GetEnableRss
    Priority := TFValue.known indexer.GetPriority
    DownloadClientID := TFValue.known indexer.GetDownloadClientId
    ID := TFValue.known indexer.GetId
    Name := TFValue.known indexer.GetName }
  let genericIndexer := { genericIndexer with
    Tags := conv.SetValueFrom attr.Type.Int64Type indexer.Tags }
  let genericIndexer := writeFields genericIndexer indexer.Fields
  i.fromIndexer genericIndexer

/-- Method `IndexerIptorrents.read`. -/
def IndexerIptorrents.read (conv : Conversions) (readFields : Indexer → List radarr.Field)
    (i : IndexerIptorrents) : radarr.IndexerResource :=
  let tags := conv.ValueAs i.Tags
  let indexer := radarr.NewIndexerResource
  let indexer := { indexer with EnableRss := some i.EnableRss.ValueBool }
  let indexer := { indexer with Priority := some (int32 i.Priority.ValueInt64) }
  let indexer := { indexer with DownloadClientId := some (int32 i.DownloadClientID.ValueInt64) }
  let indexer := { indexer with Id := some (int32 i.ID.ValueInt64) }
  let indexer := { indexer with ConfigContract := some indexerIptorrentsConfigContract }
  let indexer := { indexer with Implementation := some indexerIptorrentsImplementation }
  let indexer := { indexer with Name := some i.Name.ValueString }
  let indexer := { indexer with Protocol := some indexerIptorrentsProtocol }
  let indexer := { indexer with Tags := tags }
  let indexer := { indexer with Fields := readFields i.toIndexer }
  indexer

/-- Method `IndexerIptorrentsResource.Create`. -/
def IndexerIptorrentsResource.Create (tools : Tools) (conv : Conversions)
    (writeFields : Indexer → List radarr.Field → Indexer)
    (readFields : Indexer → List radarr.Field) (client : radarr.IndexerApi)
    (_r : IndexerIptorrentsResource) (req : resource.CreateRequest IndexerIptorrents)
    (resp : resource.CreateResponse IndexerIptorrents) :
    resource.CreateResponse IndexerIptorrents :=
  let (diags, indexer) := req.Plan.Get
  let resp := { resp with Diagnostics := resp.Diagnostics.Append diags }
  if resp.Diagnostics.HasError then
    resp
  else
    let request := indexer.read conv readFields
    match client.CreateIndexer request with
    | .error err =>
      let detail := "Unable to create " ++ indexerIptorrentsResourceName ++ ", got error: "
        ++ err.Error
      { resp with Diagnostics := resp.Diagnostics.AddError tools.ClientError detail }
    | .ok response =>
      let indexer := indexer.write conv writeFields response
      let (diags, st) := resp.State.Set indexer
      { resp with State := st, Diagnostics := resp.Diagnostics.Append diags }

/-- Method `IndexerIptorrentsResource.Read`. -/
def IndexerIptorrentsResource.Read (tools : Tools) (conv : Conversions)
    (writeFields : Indexer → List radarr.Field → Indexer) (client : radarr.IndexerApi)
    (_r : IndexerIptorrentsResource) (req : resource.ReadRequest IndexerIptorrents)
    (resp : resource.ReadResponse IndexerIptorrents) :
    resource.ReadResponse IndexerIptorrents :=
  let (diags, indexer) := req.State.Get
  let resp := { resp with Diagnostics := resp.Diagnostics.Append diags }
  if resp.Diagnostics.HasError then
    resp
  else
    match client.GetIndexerById (int32 indexer.ID.ValueInt64) with
    | .error err =>
      let detail := "Unable to read " ++ indexerIptorrentsResourceName ++ ", got error: "
        ++ err.Error
      { resp with Diagnostics := resp.Diagnostics.AddError tools.ClientError detail }
    | .ok response =>
      let indexer := indexer.write conv writeFields response
      let (diags, st) := resp.State.Set indexer
      { resp with State := st, Diagnostics := resp.Diagnostics.Append diags }

/-- Method `IndexerIptorrentsResource.Update`. -/
def IndexerIptorrentsResource.Update (tools : Tools) (conv : Conversions)
    (writeFields : Indexer → List radarr.Field → Indexer)
    (readFields : Indexer → List radarr.Field) (client : radarr.IndexerApi)
    (_r : IndexerIptorrentsResource) (req : resource.UpdateRequest IndexerIptorrents)
    (resp : resource.UpdateResponse IndexerIptorrents) :
    resource.UpdateResponse IndexerIptorrents :=
  let (diags, indexer) := req.Plan.Get
  let resp := { resp with Diagnostics := resp.Diagnostics.Append diags }
  if resp.Diagnostics.HasError then
    resp
  else
    let request := indexer.read conv readFields
    match client.UpdateIndexer (strconv.Itoa request.GetId) request with
    | .error err =>
      let detail := "Unable to update " ++ indexerIptorrentsResourceName ++ ", got error: "
        ++ err.Error
      { resp with Diagnostics := resp.Diagnostics.AddError tools.ClientError detail }
    | .ok response =>
      let indexer := indexer.write conv writeFields response
      let (diags, st) := resp.State.Set indexer
      { resp with State := st, Diagnostics := resp.Diagnostics.Append diags }

/-- Method `IndexerIptorrentsResource.Delete`. -/
def IndexerIptorrentsResource.Delete (tools : Tools) (client : radarr.IndexerApi)
    (_r : IndexerIptorrentsResource) (req : resource.DeleteRequest IndexerIptorrents)
    (resp : resource.DeleteResponse IndexerIptorrents) :
    resource.DeleteResponse IndexerIptorrents :=
  let (diags, indexer) := req.State.Get
  let resp := { resp with Diagnostics := resp.Diagnostics.Append diags }
  if resp.Diagnostics.HasError then
    resp
  else
    match client.DeleteIndexer (int32 indexer.ID.ValueInt64) with
    | some err =>
      let detail := "Unable to read " ++ indexerIptorrentsResourceName ++ ", got error: "
        ++ err.Error
      { resp with Diagnostics := resp.Diagnostics.AddError tools.ClientError detail }
    | none =>
      { resp with State := resp.State.RemoveResource }

/-! ## media_management_resource.go -/

/-- The API type `radarr.MediaManagement` of `golift.io/starr/radarr`: the twenty
fields the provider package maps, in the order of `MediaManagement.read`. -/
structure radarr.MediaManagement where
  AutoRenameFolders : Bool
  AutoUnmonitorPreviouslyDownloadedMovies : Bool
  CopyUsingHardlinks : Bool
  CreateEmptyMovieFolders : Bool
  DeleteEmptyFolders : Bool
  EnableMediaInfo : Bool
  ImportExtraFiles : Bool
  PathsDefaultStatic : Bool
  SetPermissionsLinux : Bool
  SkipFreeSpaceCheckWhenImporting : Bool
  ID : Int
  MinimumFreeSpaceWhenImporting : Int
  RecycleBinCleanupDays : Int
  ChmodFolder : String
  ChownGroup : String
  DownloadPropersAndRepacks : String
  ExtraFileExtensions : String
  FileDate : String
  RecycleBin : String
  RescanAfterRefresh : String
  deriving DecidableEq, Repr

/-- Method `MediaManagement.write`. -/
def MediaManagement.write (m : MediaManagement) (mediaMgt : radarr.MediaManagement) :
    MediaManagement :=
  { m with
    AutoRenameFolders := TFValue.known mediaMgt.AutoRenameFolders
    AutoUnmonitorPreviouslyDownloadedMovies :=
      TFValue.known mediaMgt.AutoUnmonitorPreviouslyDownloadedMovies
    CopyUsingHardlinks := TFValue.known mediaMgt.CopyUsingHardlinks
    CreateEmptyMovieFolders := TFValue.known mediaMgt.CreateEmptyMovieFolders
    DeleteEmptyFolders := TFValue.known mediaMgt.DeleteEmptyFolders
    EnableMediaInfo := TFValue.known mediaMgt.EnableMediaInfo
    ImportExtraFiles := TFValue.known mediaMgt.ImportExtraFiles
    PathsDefaultStatic := TFValue.known mediaMgt.PathsDefaultStatic
    SetPermissionsLinux := TFValue.known mediaMgt.SetPermissionsLinux
    SkipFreeSpaceCheckWhenImporting := TFValue.known mediaMgt.SkipFreeSpaceCheckWhenImporting
    ID := TFValue.known mediaMgt.ID
    MinimumFreeSpaceWhenImporting := TFValue.known mediaMgt.MinimumFreeSpaceWhenImporting
    RecycleBinCleanupDays := TFValue.known mediaMgt.RecycleBinCleanupDays
    ChmodFolder := TFValue.known mediaMgt.ChmodFolder
    ChownGroup := TFValue.known mediaMgt.ChownGroup
    DownloadPropersAndRepacks := TFValue.known mediaMgt.DownloadPropersAndRepacks
    ExtraFileExtensions := TFValue.known mediaMgt.ExtraFileExtensions
    FileDate := TFValue.known mediaMgt.FileDate
    RecycleBin := TFValue.known mediaMgt.RecycleBin
    RescanAfterRefresh := TFValue.known mediaMgt.RescanAfterRefresh }

/-- Method `MediaManagement.read`. -/
def MediaManagement.read (m : MediaManagement) : radarr.MediaManagement :=
  { AutoRenameFolders := m.AutoRenameFolders.ValueBool
    AutoUnmonitorPreviouslyDownloadedMovies :=
      m.AutoUnmonitorPreviouslyDownloadedMovies.ValueBool
    CopyUsingHardlinks := m.CopyUsingHardlinks.ValueBool
    CreateEmptyMovieFolders := m.CreateEmptyMovieFolders.ValueBool
    DeleteEmptyFolders := m.DeleteEmptyFolders.ValueBool
    EnableMediaInfo := m.EnableMediaInfo.ValueBool
    ImportExtraFiles := m.ImportExtraFiles.ValueBool
    PathsDefaultStatic := m.PathsDefaultStatic.ValueBool
    SetPermissionsLinux := m.SetPermissionsLinux.ValueBool
    SkipFreeSpaceCheckWhenImporting := m.SkipFreeSpaceCheckWhenImporting.ValueBool
    ID := m.ID.ValueInt64
    MinimumFreeSpaceWhenImporting := m.MinimumFreeSpaceWhenImporting.ValueInt64
    RecycleBinCleanupDays := m.RecycleBinCleanupDays.ValueInt64
    ChmodFolder := m.ChmodFolder.ValueString
    ChownGroup := m.ChownGroup.ValueString
    DownloadPropersAndRepacks := m.DownloadPropersAndRepacks.ValueString
    ExtraFileExtensions := m.ExtraFileExtensions.ValueString
    FileDate := m.FileDate.ValueString
    RecycleBin := m.RecycleBin.ValueString
    RescanAfterRefresh := m.RescanAfterRefresh.ValueString }

/-- Every one of the twenty attributes of the model is known (neither null nor
unknown). -/
def MediaManagement.allKnown (m : MediaManagement) : Bool :=
  (!m.AutoRenameFolders.IsNull && !m.AutoRenameFolders.IsUnknown) &&
  (!m.AutoUnmonitorPreviouslyDownloadedMovies.IsNull && !m.AutoUnmonitorPreviouslyDownloadedMovies.IsUnknown) &&
  (!m.CopyUsingHardlinks.IsNull && !m.CopyUsingHardlinks.IsUnknown) &&
  (!m.CreateEmptyMovieFolders.IsNull && !m.CreateEmptyMovieFolders.IsUnknown) &&
  (!m.DeleteEmptyFolders.IsNull && !m.DeleteEmptyFolders.IsUnknown) &&
  (!m.EnableMediaInfo.IsNull && !m.EnableMediaInfo.IsUnknown) &&
  (!m.ImportExtraFiles.IsNull && !m.ImportExtraFiles.IsUnknown) &&
  (!m.PathsDefaultStatic.IsNull && !m.PathsDefaultStatic.IsUnknown) &&
  (!m.SetPermissionsLinux.IsNull && !m.SetPermissionsLinux.IsUnknown) &&
  (!m.SkipFreeSpaceCheckWhenImporting.IsNull && !m.SkipFreeSpaceCheckWhenImporting.IsUnknown) &&
  (!m.ID.IsNull && !m.ID.IsUnknown) &&
  (!m.MinimumFreeSpaceWhenImporting.IsNull && !m.MinimumFreeSpaceWhenImporting.IsUnknown) &&
  (!m.RecycleBinCleanupDays.IsNull && !m.RecycleBinCleanupDays.IsUnknown) &&
  (!m.ChmodFolder.IsNull && !m.ChmodFolder.IsUnknown) &&
  (!m.ChownGroup.IsNull && !m.ChownGroup.IsUnknown) &&
  (!m.DownloadPropersAndRepacks.IsNull && !m.DownloadPropersAndRepacks.IsUnknown) &&
  (!m.ExtraFileExtensions.IsNull && !m.ExtraFileExtensions.IsUnknown) &&
  (!m.FileDate.IsNull && !m.FileDate.IsUnknown) &&
  (!m.RecycleBin.IsNull && !m.RecycleBin.IsUnknown) &&
  (!m.RescanAfterRefresh.IsNull && !m.RescanAfterRefresh.IsUnknown)

/-- What the calls the provider package makes on a configured client
`*radarr.Radarr` for the media management settings return. -/
structure radarr.MediaCalls where
  GetMediaManagementContext : Except GoError radarr.MediaManagement
  UpdateMediaManagementContext : radarr.MediaManagement → Except GoError radarr.MediaManagement

/-- Method `MediaManagementResource.Create`. -/
def MediaManagementResource.Create (tools : Tools) (client : radarr.MediaCalls)
    (_r : MediaManagementResource) (req : resource.CreateRequest MediaManagement)
    (resp : resource.CreateResponse MediaManagement) :
    resource.CreateResponse MediaManagement :=
  let (diags, management) := req.Plan.Get
  let resp := { resp with Diagnostics := resp.Diagnostics.Append diags }
  if resp.Diagnostics.HasError then
    resp
  else
    let data := management.read
    let data := { data with ID := 1 }
    match client.UpdateMediaManagementContext data with
    | .error err =>
      let detail := "Unable to create mediamanagement, got error: " ++ err.Error
      { resp with Diagnostics := resp.Diagnostics.AddError tools.ClientError detail }
    | .ok response =>
      let management := management.write response
      let (diags, st) := resp.State.Set management
      { resp with State := st, Diagnostics := resp.Diagnostics.Append diags }

/-- Method `MediaManagementResource.Read`. -/
def MediaManagementResource.Read (tools : Tools) (client : radarr.MediaCalls)
    (_r : MediaManagementResource) (req : resource.ReadRequest MediaManagement)
    (resp : resource.ReadResponse MediaManagement) : resource.ReadResponse MediaManagement :=
  let (diags, management) := req.State.Get
  let resp := { resp with Diagnostics := resp.Diagnostics.Append diags }
  if resp.Diagnostics.HasError then
    resp
  else
    match client.GetMediaManagementContext with
    | .error err =>
      let detail := "Unable to read " ++ mediaManagementResourceName ++ ", got error: "
        ++ err.Error
      { resp with Diagnostics := resp.Diagnostics.AddError tools.ClientError detail }
    | .ok response =>
      let management := management.write response
      let (diags, st) := resp.State.Set management
      { resp with State := st, Diagnostics := resp.Diagnostics.Append diags }

/-- Method `MediaManagementResource.Update`. -/
def MediaManagementResource.Update (tools : Tools) (client : radarr.MediaCalls)
    (_r : MediaManagementResource) (req : resource.UpdateRequest MediaManagement)
    (resp : resource.UpdateResponse MediaManagement) :
    resource.UpdateResponse MediaManagement :=
  let (diags, management) := req.Plan.Get
  let resp := { resp with Diagnostics := resp.Diagnostics.Append diags }
  if resp.Diagnostics.HasError then
    resp
  else
    let data := management.read
    match client.UpdateMediaManagementContext data with
    | .error err =>
      let detail := "Unable to update " ++ mediaManagementResourceName ++ ", got error: "
        ++ err.Error
      { resp with Diagnostics := resp.Diagnostics.AddError tools.ClientError detail }
    | .ok response =>
      let management := management.write response
      let (diags, st) := resp.State.Set management
      { resp with State := st, Diagnostics := resp.Diagnostics.Append diags }

/-- Method `MediaManagementResource.Delete`: as in the other operations `client`
stands for the calls of `r.client`. -/
def MediaManagementResource.Delete (_client : radarr.MediaCalls)
    (_r : MediaManagementResource) (_req : resource.DeleteRequest MediaManagement)
    (resp : resource.DeleteResponse MediaManagement) :
    resource.DeleteResponse MediaManagement :=
  { resp with State := resp.State.RemoveResource }

/-- Method `MediaManagementResource.ImportState`. -/
def MediaManagementResource.ImportState (_r : MediaManagementResource)
    (_req : resource.ImportStateRequest)
    (resp : resource.ImportStateResponse MediaManagement) :
    resource.ImportStateResponse MediaManagement :=
  let (diags, state) := resp.State.SetAttribute "id" 1
  { resp with State := state, Diagnostics := resp.Diagnostics.Append diags }

/-! ## Schemas and struct declarations

A schema is embedded as the value its `GetSchema` or `Schema` method builds; the
Go map of attributes is the list of its entries in the order of the source. The
attribute types of `tfsdk` (field `Type`, or nested attributes) and of
`resource/schema` (`schema.BoolAttribute`, ..., `schema.SetAttribute` with its
`ElementType`) are both written as the field `Type_`. A field that the source
leaves out has its zero value. -/

/-- The type of an attribute: `types.BoolType`, `types.Int64Type`,
`types.Float64Type`, `types.StringType`, or `types.SetType` with its element
type. -/
inductive AttrType where
  | BoolType : AttrType
  | Int64Type : AttrType
  | Float64Type : AttrType
  | StringType : AttrType
  | SetType (ElemType : attr.Type) : AttrType
  deriving DecidableEq, Repr

/-- A validator of an attribute: `tools.StringMatch` with the list it is passed,
`int64validator.OneOf` with the values it is passed. -/
inductive Validator where
  | StringMatch (values : List String) : Validator
  | OneOf (values : List Int) : Validator
  deriving DecidableEq, Repr

/-- A plan modifier of an attribute. -/
inductive PlanModifier where
  | UseStateForUnknown : PlanModifier
  deriving DecidableEq, Repr

/-- An attribute of a schema; `α` is the type of the attributes nested in it by
`tfsdk.SetNestedAttributes`. -/
structure tfsdk.Attribute (α : Type) where
  MarkdownDescription : String := ""
  Type_ : Option AttrType := none
  SetNestedAttributes : Option α := none
  Required : Bool := false
  Optional : Bool := false
  Computed : Bool := false
  Sensitive : Bool := false
  Validators : List Validator := []
  PlanModifiers : List PlanModifier := []
  deriving DecidableEq, Repr

/-- The attributes nested at the second level: they nest nothing. -/
abbrev tfsdk.Nested2 := List (String × tfsdk.Attribute Empty)

/-- The attributes nested at the first level. -/
abbrev tfsdk.Nested1 := List (String × tfsdk.Attribute tfsdk.Nested2)

/-- A schema: its description and its top-level attributes. -/
structure tfsdk.Schema where
  MarkdownDescription : String
  Attributes : List (String × tfsdk.Attribute tfsdk.Nested1)
  deriving Repr

/-- The Go type of a field of a model struct: `types.Set`, `types.String`,
`types.Int64`, `types.Float64` or `types.Bool`. -/
inductive GoFieldType where
  | Set : GoFieldType
  | String : GoFieldType
  | Int64 : GoFieldType
  | Float64 : GoFieldType
  | Bool : GoFieldType
  deriving DecidableEq, Repr

/-- A field of a model struct: its name, its type, its `tfsdk` tag. -/
structure StructField where
  Name : String
  GoType : GoFieldType
  Tag : String
  deriving DecidableEq, Repr

/-- The Go field type that carries an attribute of a schema: the one of its
type, `types.Set` for set nested attributes, and none for an attribute that has
neither a type nor nested attributes. -/
def tfsdk.Attribute.fieldType {α : Type} (a : tfsdk.Attribute α) : Option GoFieldType :=
  match a.Type_ with
  | some AttrType.BoolType => some GoFieldType.Bool
  | some AttrType.Int64Type => some GoFieldType.Int64
  | some AttrType.Float64Type => some GoFieldType.Float64
  | some AttrType.StringType => some GoFieldType.String
  | some (AttrType.SetType _) => some GoFieldType.Set
  | none => if a.SetNestedAttributes.isSome then some GoFieldType.Set else none

/-- The top-level attribute of a schema with the given name, `none` when there is
none. -/
def tfsdk.Schema.attribute (s : tfsdk.Schema) (name : String) :
    Option (tfsdk.Attribute tfsdk.Nested1) :=
  s.Attributes.lookup name

/-- Method `RadarrProvider.GetSchema`: the schema it returns. -/
def RadarrProvider.GetSchema : tfsdk.Schema :=
  { MarkdownDescription :=
      "The Radarr provider is used to interact with any [Radarr](https://radarr.video/) installation. You must configure the provider with the proper credentials before you can use it. Use the left navigation to read about the available resources.",
    Attributes := [
      ("api_key",
        { MarkdownDescription := "API key for Radarr authentication. Can be specified via the `RADARR_API_KEY` environment variable.",
          Optional := true,
          Type_ := some AttrType.StringType,
          Sensitive := true }),
      ("url",
        { MarkdownDescription := "Full Radarr URL with protocol and port (e.g. `https://test.radarr.tv:7878`). You should **NOT** supply any path (`/api`), the SDK will use the appropriate paths. Can be specified via the `RADARR_URL` environment variable.",
          Optional := true,
          Type_ := some AttrType.StringType })] }

/-- The fields of the struct `Radarr`, in the order of the declaration: name, type
and `tfsdk` tag. -/
def Radarr.fields : List StructField :=
  [ ⟨"APIKey", GoFieldType.String, "api_key"⟩,
    ⟨"URL", GoFieldType.String, "url"⟩ ]

/-- Method `IndexerResource.GetSchema`: the schema it returns. -/
def IndexerResource.GetSchema : tfsdk.Schema :=
  { MarkdownDescription :=
      "<!-- subcategory:Indexers -->Indexer resource.\nFor more information refer to [Indexer](https://wiki.servarr.com/radarr/settings#indexers) documentation.",
    Attributes := [
      ("enable_automatic_search",
        { MarkdownDescription := "Enable automatic search flag.",
          Optional := true,
          Computed := true,
          Type_ := some AttrType.BoolType }),
      ("enable_interactive_search",
        { MarkdownDescription := "Enable interactive search flag.",
          Optional := true,
          Computed := true,
          Type_ := some AttrType.BoolType }),
      ("enable_rss",
        { MarkdownDescription := "Enable RSS flag.",
          Optional := true,
          Computed := true,
          Type_ := some AttrType.BoolType }),
      ("priority",
        { MarkdownDescription := "Priority.",
          Optional := true,
          Computed := true,
          Type_ := some AttrType.Int64Type }),
      ("download_client_id",
        { MarkdownDescription := "Download client ID.",
          Optional := true,
          Computed := true,
          Type_ := some AttrType.Int64Type }),
      ("config_contract",
        { MarkdownDescription := "Indexer configuration template.",
          Required := true,
          Type_ := some AttrType.StringType }),
      ("implementation",
        { MarkdownDescription := "Indexer implementation name.",
          Required := true,
          Type_ := some AttrType.StringType }),
      ("name",
        { MarkdownDescription := "Indexer name.",
          Required := true,
          Type_ := some AttrType.StringType }),
      ("protocol",
        { MarkdownDescription := "Protocol. Valid values are 'usenet' and 'torrent'.",
          Required := true,
          Type_ := some AttrType.StringType,
          Validators := [Validator.StringMatch ["usenet", "torrent"]] }),
      ("tags",
        { MarkdownDescription := "List of associated tags.",
          Optional := true,
          Computed := true,
          Type_ := some (AttrType.SetType attr.Type.Int64Type) }),
      ("id",
        { MarkdownDescription := "Indexer ID.",
          Computed := true,
          Type_ := some AttrType.Int64Type,
          PlanModifiers := [PlanModifier.UseStateForUnknown] }),
      ("allow_zero_size",
        { MarkdownDescription := "Allow zero size files.",
          Optional := true,
          Computed := true,
          Type_ := some AttrType.BoolType }),
      ("remove_year",
        { MarkdownDescription := "Remove year.",
          Optional := true,
          Computed := true,
          Type_ := some AttrType.BoolType }),
      ("ranked_only",
        { MarkdownDescription := "Allow ranked only.",
          Optional := true,
          Computed := true,
          Type_ := some AttrType.BoolType }),
      ("delay",
        { MarkdownDescription := "Delay before grabbing.",
          Optional := true,
          Computed := true,
          Type_ := some AttrType.Int64Type }),
      ("minimum_seeders",
        { MarkdownDescription := "Minimum seeders.",
          Optional := true,
          Computed := true,
          Type_ := some AttrType.Int64Type }),
      ("seed_time",
        { MarkdownDescription := "Seed time.",
          Optional := true,
          Computed := true,
          Type_ := some AttrType.Int64Type }),
      ("seed_ratio",
        { MarkdownDescription := "Seed ratio.",
          Optional := true,
          Computed := true,
          Type_ := some AttrType.Float64Type }),
      ("additional_parameters",
        { MarkdownDescription := "Additional parameters.",
          Optional := true,
          Computed := true,
          Type_ := some AttrType.StringType }),
      ("api_key",
        { MarkdownDescription := "API key.",
          Optional := true,
          Computed := true,
          Type_ := some AttrType.StringType }),
      ("api_user",
        { MarkdownDescription := "API User.",
          Optional := true,
          Computed := true,
          Type_ := some AttrType.StringType }),
      ("api_path",
        { MarkdownDescription := "API path.",
          Optional := true,
          Computed := true,
          Type_ := some AttrType.StringType }),
      ("base_url",
        { MarkdownDescription := "Base URL.",
          Optional := true,
          Computed := true,
          Type_ := some AttrType.StringType }),
      ("captcha_token",
        { MarkdownDescription := "Captcha token.",
          Optional := true,
          Computed := true,
          Type_ := some AttrType.StringType }),
      ("cookie",
        { MarkdownDescription := "Cookie.",
          Optional := true,
          Computed := true,
          Type_ := some AttrType.StringType }),
      ("passkey",
        { MarkdownDescription := "Passkey.",
          Optional := true,
          Computed := true,
          Type_ := some AttrType.StringType }),
      ("username",
        { MarkdownDescription := "Username.",
          Optional := true,
          Computed := true,
          Type_ := some AttrType.StringType }),
      ("categories",
        { MarkdownDescription := "Series list.",
          Optional := true,
          Computed := true,
          Type_ := some (AttrType.SetType attr.Type.Int64Type) }),
      ("multi_languages",
        { MarkdownDescription := "Language list.",
          Optional := true,
          Computed := true,
          Type_ := some (AttrType.SetType attr.Type.Int64Type) }),
      ("required_flags",
        { MarkdownDescription := "Required flags.",
          Optional := true,
          Computed := true,
          Type_ := some (AttrType.SetType attr.Type.Int64Type) }),
      ("codecs",
        { MarkdownDescription := "Codecs.",
          Optional := true,
          Computed := true,
          Type_ := some (AttrType.SetType attr.Type.Int64Type) }),
      ("mediums",
        { MarkdownDescription := "Mediumd.",
          Optional := true,
          Computed := true,
          Type_ := some (AttrType.SetType attr.Type.Int64Type) })] }

/-- The fields of the struct `Indexer`, in the order of the declaration: name, type
and `tfsdk` tag. -/
def Indexer.fields : List StructField :=
  [ ⟨"Categories", GoFieldType.Set, "categories"⟩,
    ⟨"Mediums", GoFieldType.Set, "mediums"⟩,
    ⟨"Codecs", GoFieldType.Set, "codecs"⟩,
    ⟨"RequiredFlags", GoFieldType.Set, "required_flags"⟩,
    ⟨"Tags", GoFieldType.Set, "tags"⟩,
    ⟨"MultiLanguages", GoFieldType.Set, "multi_languages"⟩,
    ⟨"Cookie", GoFieldType.String, "cookie"⟩,
    ⟨"APIKey", GoFieldType.String, "api_key"⟩,
    ⟨"ConfigContract", GoFieldType.String, "config_contract"⟩,
    ⟨"Implementation", GoFieldType.String, "implementation"⟩,
    ⟨"Protocol", GoFieldType.String, "protocol"⟩,
    ⟨"Username", GoFieldType.String, "username"⟩,
    ⟨"Passkey", GoFieldType.String, "passkey"⟩,
    ⟨"BaseURL", GoFieldType.String, "base_url"⟩,
    ⟨"CaptchaToken", GoFieldType.String, "captcha_token"⟩,
    ⟨"AdditionalParameters", GoFieldType.String, "additional_parameters"⟩,
    ⟨"APIPath", GoFieldType.String, "api_path"⟩,
    ⟨"APIUser", GoFieldType.String, "api_user"⟩,
    ⟨"Name", GoFieldType.String, "name"⟩,
    ⟨"Priority", GoFieldType.Int64, "priority"⟩,
    ⟨"SeedTime", GoFieldType.Int64, "seed_time"⟩,
    ⟨"MinimumSeeders", GoFieldType.Int64, "minimum_seeders"⟩,
    ⟨"DownloadClientID", GoFieldType.Int64, "download_client_id"⟩,
    ⟨"Delay", GoFieldType.Int64, "delay"⟩,
    ⟨"ID", GoFieldType.Int64, "id"⟩,
    ⟨"SeedRatio", GoFieldType.Float64, "seed_ratio"⟩,
    ⟨"AllowZeroSize", GoFieldType.Bool, "allow_zero_size"⟩,
    ⟨"RankedOnly", GoFieldType.Bool, "ranked_only"⟩,
    ⟨"EnableRss", GoFieldType.Bool, "enable_rss"⟩,
    ⟨"EnableAutomaticSearch", GoFieldType.Bool, "enable_automatic_search"⟩,
    ⟨"EnableInteractiveSearch", GoFieldType.Bool, "enable_interactive_search"⟩,
    ⟨"RemoveYear", GoFieldType.Bool, "remove_year"⟩ ]

/-- Method `IndexerIptorrentsResource.Schema`: the schema it returns. -/
def IndexerIptorrentsResource.Schema : tfsdk.Schema :=
  { MarkdownDescription :=
      "<!-- subcategory:Indexers -->Indexer IP Torrents resource.\nFor more information refer to [Indexer](https://wiki.servarr.com/radarr/settings#indexers) and [IP Torrents](https://wiki.servarr.com/radarr/supported#iptorrents).",
    Attributes := [
      ("enable_rss",
        { Type_ := some AttrType.BoolType,
          MarkdownDescription := "Enable RSS flag.",
          Optional := true,
          Computed := true }),
      ("priority",
        { Type_ := some AttrType.Int64Type,
          MarkdownDescription := "Priority.",
          Optional := true,
          Computed := true }),
      ("download_client_id",
        { Type_ := some AttrType.Int64Type,
          MarkdownDescription := "Download client ID.",
          Optional := true,
          Computed := true }),
      ("name",
        { Type_ := some AttrType.StringType,
          MarkdownDescription := "IndexerIptorrents name.",
          Required := true }),
      ("tags",
        { Type_ := some (AttrType.SetType attr.Type.Int64Type),
          MarkdownDescription := "List of associated tags.",
          Optional := true,
          Computed := true }),
      ("id",
        { Type_ := some AttrType.Int64Type,
          MarkdownDescription := "IndexerIptorrents ID.",
          Computed := true,
          PlanModifiers := [PlanModifier.UseStateForUnknown] }),
      ("minimum_seeders",
        { Type_ := some AttrType.Int64Type,
          MarkdownDescription := "Minimum seeders.",
          Optional := true,
          Computed := true }),
      ("seed_time",
        { Type_ := some AttrType.Int64Type,
          MarkdownDescription := "Seed time.",
          Optional := true,
          Computed := true }),
      ("seed_ratio",
        { Type_ := some AttrType.Float64Type,
          MarkdownDescription := "Seed ratio.",
          Optional := true,
          Computed := true }),
      ("base_url",
        { Type_ := some AttrType.StringType,
          MarkdownDescription := "Base URL.",
          Required := true }),
      ("multi_languages",
        { Type_ := some (AttrType.SetType attr.Type.Int64Type),
          MarkdownDescription := "Languages list.",
          Optional := true,
          Computed := true }),
      ("required_flags",
        { Type_ := some (AttrType.SetType attr.Type.Int64Type),
          MarkdownDescription := "Flag list.",
          Optional := true,
          Computed := true })] }

/-- The fields of the struct `IndexerIptorrents`, in the order of the declaration: name, type
and `tfsdk` tag. -/
def IndexerIptorrents.fields : List StructField :=
  [ ⟨"Tags", GoFieldType.Set, "tags"⟩,
    ⟨"MultiLanguages", GoFieldType.Set, "multi_languages"⟩,
    ⟨"RequiredFlags", GoFieldType.Set, "required_flags"⟩,
    ⟨"Name", GoFieldType.String, "name"⟩,
    ⟨"BaseURL", GoFieldType.String, "base_url"⟩,
    ⟨"Priority", GoFieldType.Int64, "priority"⟩,
    ⟨"ID", GoFieldType.Int64, "id"⟩,
    ⟨"DownloadClientID", GoFieldType.Int64, "download_client_id"⟩,
    ⟨"MinimumSeeders", GoFieldType.Int64, "minimum_seeders"⟩,
    ⟨"SeedTime", GoFieldType.Int64, "seed_time"⟩,
    ⟨"SeedRatio", GoFieldType.Float64, "seed_ratio"⟩,
    ⟨"EnableRss", GoFieldType.Bool, "enable_rss"⟩ ]

/-- Method `IndexerNyaaResource.Schema`: the schema it returns. -/
def IndexerNyaaResource.Schema : tfsdk.Schema :=
  { MarkdownDescription :=
      "<!-- subcategory:Indexers -->Indexer Nyaa resource.\nFor more information refer to [Indexer](https://wiki.servarr.com/radarr/settings#indexers) and [Nyaa](https://wiki.servarr.com/radarr/supported#nyaa).",
    Attributes := [
      ("enable_automatic_search",
        { Type_ := some AttrType.BoolType,
          MarkdownDescription := "Enable automatic search flag.",
          Optional := true,
          Computed := true }),
      ("enable_interactive_search",
        { Type_ := some AttrType.BoolType,
          MarkdownDescription := "Enable interactive search flag.",
          Optional := true,
          Computed := true }),
      ("enable_rss",
        { Type_ := some AttrType.BoolType,
          MarkdownDescription := "Enable RSS flag.",
          Optional := true,
          Computed := true }),
      ("priority",
        { Type_ := some AttrType.Int64Type,
          MarkdownDescription := "Priority.",
          Optional := true,
          Computed := true }),
      ("download_client_id",
        { Type_ := some AttrType.Int64Type,
          MarkdownDescription := "Download client ID.",
          Optional := true,
          Computed := true }),
      ("name",
        { Type_ := some AttrType.StringType,
          MarkdownDescription := "IndexerNyaa name.",
          Required := true }),
      ("tags",
        { Type_ := some (AttrType.SetType attr.Type.Int64Type),
          MarkdownDescription := "List of associated tags.",
          Optional := true,
          Computed := true }),
      ("id",
        { Type_ := some AttrType.Int64Type,
          MarkdownDescription := "IndexerNyaa ID.",
          Computed := true,
          PlanModifiers := [PlanModifier.UseStateForUnknown] }),
      ("minimum_seeders",
        { Type_ := some AttrType.Int64Type,
          MarkdownDescription := "Minimum seeders.",
          Optional := true,
          Computed := true }),
      ("seed_time",
        { Type_ := some AttrType.Int64Type,
          MarkdownDescription := "Seed time.",
          Optional := true,
          Computed := true }),
      ("seed_ratio",
        { Type_ := some AttrType.Float64Type,
          MarkdownDescription := "Seed ratio.",
          Optional := true,
          Computed := true }),
      ("additional_parameters",
        { Type_ := some AttrType.StringType,
          MarkdownDescription := "Additional parameters.",
          Optional := true,
          Computed := true }),
      ("base_url",
        { Type_ := some AttrType.StringType,
          MarkdownDescription := "Base URL.",
          Required := true }),
      ("multi_languages",
        { Type_ := some (AttrType.SetType attr.Type.Int64Type),
          MarkdownDescription := "Languages list.",
          Optional := true,
          Computed := true }),
      ("required_flags",
        { Type_ := some (AttrType.SetType attr.Type.Int64Type),
          MarkdownDescription := "Flag list.",
          Optional := true,
          Computed := true })] }

/-- The fields of the struct `IndexerNyaa`, in the order of the declaration: name, type
and `tfsdk` tag. -/
def IndexerNyaa.fields : List StructField :=
  [ ⟨"Tags", GoFieldType.Set, "tags"⟩,
    ⟨"MultiLanguages", GoFieldType.Set, "multi_languages"⟩,
    ⟨"RequiredFlags", GoFieldType.Set, "required_flags"⟩,
    ⟨"Name", GoFieldType.String, "name"⟩,
    ⟨"BaseURL", GoFieldType.String, "base_url"⟩,
    ⟨"AdditionalParameters", GoFieldType.String, "additional_parameters"⟩,
    ⟨"Priority", GoFieldType.Int64, "priority"⟩,
    ⟨"ID", GoFieldType.Int64, "id"⟩,
    ⟨"DownloadClientID", GoFieldType.Int64, "download_client_id"⟩,
    ⟨"MinimumSeeders", GoFieldType.Int64, "minimum_seeders"⟩,
    ⟨"SeedTime", GoFieldType.Int64, "seed_time"⟩,
    ⟨"SeedRatio", GoFieldType.Float64, "seed_ratio"⟩,
    ⟨"EnableAutomaticSearch", GoFieldType.Bool, "enable_automatic_search"⟩,
    ⟨"EnableRss", GoFieldType.Bool, "enable_rss"⟩,
    ⟨"EnableInteractiveSearch", GoFieldType.Bool, "enable_interactive_search"⟩ ]

/-- Method `MediaManagementResource.GetSchema`: the schema it returns. -/
def MediaManagementResource.GetSchema : tfsdk.Schema :=
  { MarkdownDescription :=
      "<!-- subcategory:Media Management -->Media Management resource.\nFor more information refer to [Naming](https://wiki.servarr.com/radarr/settings#file-management) documentation.",
    Attributes := [
      ("id",
        { MarkdownDescription := "Media Management ID.",
          Computed := true,
          Type_ := some AttrType.Int64Type,
          PlanModifiers := [PlanModifier.UseStateForUnknown] }),
      ("auto_rename_folders",
        { MarkdownDescription := "Auto rename folders.",
          Required := true,
          Type_ := some AttrType.BoolType }),
      ("auto_unmonitor_previously_downloaded_movies",
        { MarkdownDescription := "Auto unmonitor previously downloaded movies.",
          Required := true,
          Type_ := some AttrType.BoolType }),
      ("copy_using_hardlinks",
        { MarkdownDescription := "Use hardlinks instead of copy.",
          Required := true,
          Type_ := some AttrType.BoolType }),
      ("create_empty_movie_folders",
        { MarkdownDescription := "Create empty movies directories.",
          Required := true,
          Type_ := some AttrType.BoolType }),
      ("delete_empty_folders",
        { MarkdownDescription := "Delete empty movies directories.",
          Required := true,
          Type_ := some AttrType.BoolType }),
      ("enable_media_info",
        { MarkdownDescription := "Scan files details.",
          Required := true,
          Type_ := some AttrType.BoolType }),
      ("import_extra_files",
        { MarkdownDescription := "Import extra files. If enabled it will leverage 'extra_file_extensions'.",
          Required := true,
          Type_ := some AttrType.BoolType }),
      ("paths_default_static",
        { MarkdownDescription := "Path default static.",
          Required := true,
          Type_ := some AttrType.BoolType }),
      ("set_permissions_linux",
        { MarkdownDescription := "Set permission for imported files.",
          Required := true,
          Type_ := some AttrType.BoolType }),
      ("skip_free_space_check_when_importing",
        { MarkdownDescription := "Skip free space check before importing.",
          Required := true,
          Type_ := some AttrType.BoolType }),
      ("minimum_free_space_when_importing",
        { MarkdownDescription := "Minimum free space in MB to allow import.",
          Required := true,
          Type_ := some AttrType.Int64Type }),
      ("recycle_bin_cleanup_days",
        { MarkdownDescription := "Recyle bin days of retention.",
          Required := true,
          Type_ := some AttrType.Int64Type }),
      ("chmod_folder",
        { MarkdownDescription := "Permission in linux format.",
          Required := true,
          Type_ := some AttrType.StringType }),
      ("chown_group",
        { MarkdownDescription := "Group used for permission.",
          Required := true,
          Type_ := some AttrType.StringType }),
      ("download_propers_and_repacks",
        { MarkdownDescription := "Download proper and repack policy. valid inputs are: 'preferAndUpgrade', 'doNotUpgrade', and 'doNotPrefer'.",
          Required := true,
          Type_ := some AttrType.StringType,
          Validators := [Validator.StringMatch ["preferAndUpgrade", "doNotUpgrade", "doNotPrefer"]] }),
      ("extra_file_extensions",
        { MarkdownDescription := "Comma separated list of extra files to import (.nfo will be imported as .nfo-orig).",
          Required := true,
          Type_ := some AttrType.StringType }),
      ("file_date",
        { MarkdownDescription := "Define the file date modification. valid inputs are: 'none', 'cinemas, and 'release'.",
          Required := true,
          Type_ := some AttrType.StringType,
          Validators := [Validator.StringMatch ["none", "cinemas", "release"]] }),
      ("recycle_bin",
        { MarkdownDescription := "Recycle bin absolute path.",
          Required := true,
          Type_ := some AttrType.StringType }),
      ("rescan_after_refresh",
        { MarkdownDescription := "Rescan after refresh policy. valid inputs are: 'always', 'afterManual' and 'never'.",
          Required := true,
          Type_ := some AttrType.StringType,
          Validators := [Validator.StringMatch ["always", "afterManual", "never"]] })] }

/-- The fields of the struct `MediaManagement`, in the order of the declaration: name, type
and `tfsdk` tag. -/
def MediaManagement.fields : List StructField :=
  [ ⟨"ChmodFolder", GoFieldType.String, "chmod_folder"⟩,
    ⟨"RescanAfterRefresh", GoFieldType.String, "rescan_after_refresh"⟩,
    ⟨"RecycleBin", GoFieldType.String, "recycle_bin"⟩,
    ⟨"FileDate", GoFieldType.String, "file_date"⟩,
    ⟨"ExtraFileExtensions", GoFieldType.String, "extra_file_extensions"⟩,
    ⟨"DownloadPropersAndRepacks", GoFieldType.String, "download_propers_and_repacks"⟩,
    ⟨"ChownGroup", GoFieldType.String, "chown_group"⟩,
    ⟨"ID", GoFieldType.Int64, "id"⟩,
    ⟨"MinimumFreeSpaceWhenImporting", GoFieldType.Int64, "minimum_free_space_when_importing"⟩,
    ⟨"RecycleBinCleanupDays", GoFieldType.Int64, "recycle_bin_cleanup_days"⟩,
    ⟨"SetPermissionsLinux", GoFieldType.Bool, "set_permissions_linux"⟩,
    ⟨"SkipFreeSpaceCheckWhenImporting", GoFieldType.Bool, "skip_free_space_check_when_importing"⟩,
    ⟨"AutoRenameFolders", GoFieldType.Bool, "auto_rename_folders"⟩,
    ⟨"PathsDefaultStatic", GoFieldType.Bool, "paths_default_static"⟩,
    ⟨"ImportExtraFiles", GoFieldType.Bool, "import_extra_files"⟩,
    ⟨"EnableMediaInfo", GoFieldType.Bool, "enable_media_info"⟩,
    ⟨"DeleteEmptyFolders", GoFieldType.Bool, "delete_empty_folders"⟩,
    ⟨"CreateEmptyMovieFolders", GoFieldType.Bool, "create_empty_movie_folders"⟩,
    ⟨"CopyUsingHardlinks", GoFieldType.Bool, "copy_using_hardlinks"⟩,
    ⟨"AutoUnmonitorPreviouslyDownloadedMovies", GoFieldType.Bool, "auto_unmonitor_previously_downloaded_movies"⟩ ]

/-- Method `MetadataKodiResource.Schema`: the schema it returns. -/
def MetadataKodiResource.Schema : tfsdk.Schema :=
  { MarkdownDescription :=
      "<!-- subcategory:Metadata -->\nMetadata Kodi resource.\nFor more information refer to [Metadata](https://wiki.servarr.com/radarr/settings#metadata) and [KODI](https://wiki.servarr.com/radarr/supported#xbmcmetadata).",
    Attributes := [
      ("enable",
        { Type_ := some AttrType.BoolType,
          MarkdownDescription := "Enable flag.",
          Optional := true,
          Computed := true }),
      ("name",
        { Type_ := some AttrType.StringType,
          MarkdownDescription := "Metadata name.",
          Required := true }),
      ("tags",
        { Type_ := some (AttrType.SetType attr.Type.Int64Type),
          MarkdownDescription := "List of associated tags.",
          Optional := true,
          Computed := true }),
      ("id",
        { Type_ := some AttrType.Int64Type,
          MarkdownDescription := "Metadata ID.",
          Computed := true,
          PlanModifiers := [PlanModifier.UseStateForUnknown] }),
      ("add_collection_name",
        { Type_ := some AttrType.BoolType,
          MarkdownDescription := "Add collection name flag.",
          Required := true }),
      ("use_movie_nfo",
        { Type_ := some AttrType.BoolType,
          MarkdownDescription := "Use movie nfo flag.",
          Required := true }),
      ("movie_images",
        { Type_ := some AttrType.BoolType,
          MarkdownDescription := "Movie images flag.",
          Required := true }),
      ("movie_metadata",
        { Type_ := some AttrType.BoolType,
          MarkdownDescription := "Movie metadata flag.",
          Required := true }),
      ("movie_metadata_url",
        { Type_ := some AttrType.BoolType,
          MarkdownDescription := "Movie metadata URL flag.",
          Required := true }),
      ("movie_metadata_language",
        { Type_ := some AttrType.Int64Type,
          MarkdownDescription := "Movie metadata language.",
          Required := true })] }

/-- The fields of the struct `MetadataKodi`, in the order of the declaration: name, type
and `tfsdk` tag. -/
def MetadataKodi.fields : List StructField :=
  [ ⟨"Tags", GoFieldType.Set, "tags"⟩,
    ⟨"Name", GoFieldType.String, "name"⟩,
    ⟨"ID", GoFieldType.Int64, "id"⟩,
    ⟨"MovieMetadataLanguage", GoFieldType.Int64, "movie_metadata_language"⟩,
    ⟨"Enable", GoFieldType.Bool, "enable"⟩,
    ⟨"MovieMetadata", GoFieldType.Bool, "movie_metadata"⟩,
    ⟨"MovieMetadataURL", GoFieldType.Bool, "movie_metadata_url"⟩,
    ⟨"MovieImages", GoFieldType.Bool, "movie_images"⟩,
    ⟨"UseMovieNfo", GoFieldType.Bool, "use_movie_nfo"⟩,
    ⟨"AddCollectionName", GoFieldType.Bool, "add_collection_name"⟩ ]

/-- Method `NotificationMailgunResource.Schema`: the schema it returns. -/
def NotificationMailgunResource.Schema : tfsdk.Schema :=
  { MarkdownDescription :=
      "<!-- subcategory:Notifications -->\nNotification Mailgun resource.\nFor more information refer to [Notification](https://wiki.servarr.com/radarr/settings#connect) and [Mailgun](https://wiki.servarr.com/radarr/supported#mailgun).",
    Attributes := [
      ("on_grab",
        { Type_ := some AttrType.BoolType,
          MarkdownDescription := "On grab flag.",
          Optional := true,
          Computed := true }),
      ("on_download",
        { Type_ := some AttrType.BoolType,
          MarkdownDescription := "On download flag.",
          Optional := true,
          Computed := true }),
      ("on_upgrade",
        { Type_ := some AttrType.BoolType,
          MarkdownDescription := "On upgrade flag.",
          Optional := true,
          Computed := true }),
      ("on_movie_added",
        { Type_ := some AttrType.BoolType,
          MarkdownDescription := "On movie added flag.",
          Optional := true,
          Computed := true }),
      ("on_movie_delete",
        { Type_ := some AttrType.BoolType,
          MarkdownDescription := "On movie delete flag.",
          Required := true }),
      ("on_movie_file_delete",
        { Type_ := some AttrType.BoolType,
          MarkdownDescription := "On movie file delete flag.",
          Optional := true,
          Computed := true }),
      ("on_movie_file_delete_for_upgrade",
        { Type_ := some AttrType.BoolType,
          MarkdownDescription := "On movie file delete for upgrade flag.",
          Optional := true,
          Computed := true }),
      ("on_health_issue",
        { Type_ := some AttrType.BoolType,
          MarkdownDescription := "On health issue flag.",
          Optional := true,
          Computed := true }),
      ("on_health_restored",
        { Type_ := some AttrType.BoolType,
          MarkdownDescription := "On health restored flag.",
          Optional := true,
          Computed := true }),
      ("on_manual_interaction_required",
        { Type_ := some AttrType.BoolType,
          MarkdownDescription := "On manual interaction required flag.",
          Optional := true,
          Computed := true }),
      ("on_application_update",
        { Type_ := some AttrType.BoolType,
          MarkdownDescription := "On application update flag.",
          Optional := true,
          Computed := true }),
      ("include_health_warnings",
        { Type_ := some AttrType.BoolType,
          MarkdownDescription := "Include health warnings.",
          Optional := true,
          Computed := true }),
      ("name",
        { Type_ := some AttrType.StringType,
          MarkdownDescription := "NotificationMailgun name.",
          Required := true }),
      ("tags",
        { Type_ := some (AttrType.SetType attr.Type.Int64Type),
          MarkdownDescription := "List of associated tags.",
          Optional := true,
          Computed := true }),
      ("id",
        { Type_ := some AttrType.Int64Type,
          MarkdownDescription := "Notification ID.",
          Computed := true,
          PlanModifiers := [PlanModifier.UseStateForUnknown] }),
      ("use_eu_endpoint",
        { Type_ := some AttrType.BoolType,
          MarkdownDescription := "Use EU endpoint flag.",
          Optional := true,
          Computed := true }),
      ("api_key",
        { Type_ := some AttrType.StringType,
          MarkdownDescription := "API key.",
          Optional := true,
          Computed := true,
          Sensitive := true }),
      ("from",
        { Type_ := some AttrType.StringType,
          MarkdownDescription := "From.",
          Required := true }),
      ("sender_domain",
        { Type_ := some AttrType.StringType,
          MarkdownDescription := "Sender domain.",
          Optional := true,
          Computed := true }),
      ("recipients",
        { Type_ := some (AttrType.SetType attr.Type.StringType),
          MarkdownDescription := "Recipients.",
          Required := true })] }

/-- The fields of the struct `NotificationMailgun`, in the order of the declaration: name, type
and `tfsdk` tag. -/
def NotificationMailgun.fields : List StructField :=
  [ ⟨"Tags", GoFieldType.Set, "tags"⟩,
    ⟨"Recipients", GoFieldType.Set, "recipients"⟩,
    ⟨"From", GoFieldType.String, "from"⟩,
    ⟨"SenderDomain", GoFieldType.String, "sender_domain"⟩,
    ⟨"Name", GoFieldType.String, "name"⟩,
    ⟨"APIKey", GoFieldType.String, "api_key"⟩,
    ⟨"ID", GoFieldType.Int64, "id"⟩,
    ⟨"UseEuEndpoint", GoFieldType.Bool, "use_eu_endpoint"⟩,
    ⟨"OnGrab", GoFieldType.Bool, "on_grab"⟩,
    ⟨"OnMovieFileDeleteForUpgrade", GoFieldType.Bool, "on_movie_file_delete_for_upgrade"⟩,
    ⟨"OnMovieFileDelete", GoFieldType.Bool, "on_movie_file_delete"⟩,
    ⟨"OnMovieAdded", GoFieldType.Bool, "on_movie_added"⟩,
    ⟨"IncludeHealthWarnings", GoFieldType.Bool, "include_health_warnings"⟩,
    ⟨"OnApplicationUpdate", GoFieldType.Bool, "on_application_update"⟩,
    ⟨"OnHealthIssue", GoFieldType.Bool, "on_health_issue"⟩,
    ⟨"OnHealthRestored", GoFieldType.Bool, "on_health_restored"⟩,
    ⟨"OnManualInteractionRequired", GoFieldType.Bool, "on_manual_interaction_required"⟩,
    ⟨"OnMovieDelete", GoFieldType.Bool, "on_movie_delete"⟩,
    ⟨"OnUpgrade", GoFieldType.Bool, "on_upgrade"⟩,
    ⟨"OnDownload", GoFieldType.Bool, "on_download"⟩ ]

/-- Method `NotificationPushoverResource.Schema`: the schema it returns. -/
def NotificationPushoverResource.Schema : tfsdk.Schema :=
  { MarkdownDescription :=
      "<!-- subcategory:Notifications -->Notification Pushover resource.\nFor more information refer to [Notification](https://wiki.servarr.com/radarr/settings#connect) and [Pushover](https://wiki.servarr.com/radarr/supported#pushover).",
    Attributes := [
      ("on_grab",
        { Type_ := some AttrType.BoolType,
          MarkdownDescription := "On grab flag.",
          Required := true }),
      ("on_download",
        { Type_ := some AttrType.BoolType,
          MarkdownDescription := "On download flag.",
          Required := true }),
      ("on_upgrade",
        { Type_ := some AttrType.BoolType,
          MarkdownDescription := "On upgrade flag.",
          Required := true }),
      ("on_movie_added",
        { Type_ := some AttrType.BoolType,
          MarkdownDescription := "On movie added flag.",
          Required := true }),
      ("on_movie_delete",
        { Type_ := some AttrType.BoolType,
          MarkdownDescription := "On movie delete flag.",
          Required := true }),
      ("on_movie_file_delete",
        { Type_ := some AttrType.BoolType,
          MarkdownDescription := "On movie file delete flag.",
          Required := true }),
      ("on_movie_file_delete_for_upgrade",
        { Type_ := some AttrType.BoolType,
          MarkdownDescription := "On movie file delete for upgrade flag.",
          Required := true }),
      ("on_health_issue",
        { Type_ := some AttrType.BoolType,
          MarkdownDescription := "On health issue flag.",
          Required := true }),
      ("on_application_update",
        { Type_ := some AttrType.BoolType,
          MarkdownDescription := "On application update flag.",
          Required := true }),
      ("include_health_warnings",
        { Type_ := some AttrType.BoolType,
          MarkdownDescription := "Include health warnings.",
          Required := true }),
      ("name",
        { Type_ := some AttrType.StringType,
          MarkdownDescription := "NotificationPushover name.",
          Required := true }),
      ("tags",
        { Type_ := some (AttrType.SetType attr.Type.Int64Type),
          MarkdownDescription := "List of associated tags.",
          Optional := true,
          Computed := true }),
      ("id",
        { Type_ := some AttrType.Int64Type,
          MarkdownDescription := "Notification ID.",
          Computed := true,
          PlanModifiers := [PlanModifier.UseStateForUnknown] }),
      ("priority",
        { Type_ := some AttrType.Int64Type,
          MarkdownDescription := "Priority. `-2` Silent, `-1` Quiet, `0` Normal, `1` High, `2` Emergency, `8` High.",
          Optional := true,
          Computed := true,
          Validators := [Validator.OneOf [-1, -2, 0, 1, 2]] }),
      ("retry",
        { Type_ := some AttrType.Int64Type,
          MarkdownDescription := "Retry.",
          Optional := true,
          Computed := true }),
      ("expire",
        { Type_ := some AttrType.Int64Type,
          MarkdownDescription := "Expire.",
          Optional := true,
          Computed := true }),
      ("sound",
        { Type_ := some AttrType.StringType,
          MarkdownDescription := "Sound.",
          Optional := true,
          Computed := true }),
      ("api_key",
        { Type_ := some AttrType.StringType,
          MarkdownDescription := "API key.",
          Required := true,
          Sensitive := true }),
      ("user_key",
        { Type_ := some AttrType.StringType,
          MarkdownDescription := "User key.",
          Optional := true,
          Sensitive := true }),
      ("devices",
        { Type_ := some (AttrType.SetType attr.Type.StringType),
          MarkdownDescription := "List of devices.",
          Optional := true,
          Computed := true })] }

/-- The fields of the struct `NotificationPushover`, in the order of the declaration: name, type
and `tfsdk` tag. -/
def NotificationPushover.fields : List StructField :=
  [ ⟨"Tags", GoFieldType.Set, "tags"⟩,
    ⟨"Devices", GoFieldType.Set, "devices"⟩,
    ⟨"Sound", GoFieldType.String, "sound"⟩,
    ⟨"Name", GoFieldType.String, "name"⟩,
    ⟨"APIKey", GoFieldType.String, "api_key"⟩,
    ⟨"UserKey", GoFieldType.String, "user_key"⟩,
    ⟨"Priority", GoFieldType.Int64, "priority"⟩,
    ⟨"ID", GoFieldType.Int64, "id"⟩,
    ⟨"Retry", GoFieldType.Int64, "retry"⟩,
    ⟨"Expire", GoFieldType.Int64, "expire"⟩,
    ⟨"OnGrab", GoFieldType.Bool, "on_grab"⟩,
    ⟨"OnMovieFileDeleteForUpgrade", GoFieldType.Bool, "on_movie_file_delete_for_upgrade"⟩,
    ⟨"OnMovieFileDelete", GoFieldType.Bool, "on_movie_file_delete"⟩,
    ⟨"OnMovieAdded", GoFieldType.Bool, "on_movie_added"⟩,
    ⟨"IncludeHealthWarnings", GoFieldType.Bool, "include_health_warnings"⟩,
    ⟨"OnApplicationUpdate", GoFieldType.Bool, "on_application_update"⟩,
    ⟨"OnHealthIssue", GoFieldType.Bool, "on_health_issue"⟩,
    ⟨"OnMovieDelete", GoFieldType.Bool, "on_movie_delete"⟩,
    ⟨"OnUpgrade", GoFieldType.Bool, "on_upgrade"⟩,
    ⟨"OnDownload", GoFieldType.Bool, "on_download"⟩ ]

/-- Method `NotificationTraktResource.Schema`: the schema it returns. -/
def NotificationTraktResource.Schema : tfsdk.Schema :=
  { MarkdownDescription :=
      "<!-- subcategory:Notifications -->Notification Trakt resource.\nFor more information refer to [Notification](https://wiki.servarr.com/radarr/settings#connect) and [Trakt](https://wiki.servarr.com/radarr/supported#trakt).",
    Attributes := [
      ("on_download",
        { Type_ := some AttrType.BoolType,
          MarkdownDescription := "On download flag.",
          Optional := true,
          Computed := true }),
      ("on_upgrade",
        { Type_ := some AttrType.BoolType,
          MarkdownDescription := "On upgrade flag.",
          Optional := true,
          Computed := true }),
      ("on_movie_added",
        { Type_ := some AttrType.BoolType,
          MarkdownDescription := "On movie added flag.",
          Optional := true,
          Computed := true }),
      ("on_movie_delete",
        { Type_ := some AttrType.BoolType,
          MarkdownDescription := "On movie delete flag.",
          Required := true }),
      ("on_movie_file_delete",
        { Type_ := some AttrType.BoolType,
          MarkdownDescription := "On movie file delete flag.",
          Optional := true,
          Computed := true }),
      ("on_movie_file_delete_for_upgrade",
        { Type_ := some AttrType.BoolType,
          MarkdownDescription := "On movie file delete for upgrade flag.",
          Optional := true,
          Computed := true }),
      ("include_health_warnings",
        { Type_ := some AttrType.BoolType,
          MarkdownDescription := "Include health warnings.",
          Optional := true,
          Computed := true }),
      ("name",
        { Type_ := some AttrType.StringType,
          MarkdownDescription := "NotificationTrakt name.",
          Required := true }),
      ("tags",
        { Type_ := some (AttrType.SetType attr.Type.Int64Type),
          MarkdownDescription := "List of associated tags.",
          Optional := true,
          Computed := true }),
      ("id",
        { Type_ := some AttrType.Int64Type,
          MarkdownDescription := "Notification ID.",
          Computed := true,
          PlanModifiers := [PlanModifier.UseStateForUnknown] }),
      ("access_token",
        { Type_ := some AttrType.StringType,
          MarkdownDescription := "Access Token.",
          Required := true,
          Sensitive := true }),
      ("refresh_token",
        { Type_ := some AttrType.StringType,
          MarkdownDescription := "Access Token.",
          Optional := true,
          Computed := true,
          Sensitive := true }),
      ("auth_user",
        { Type_ := some AttrType.StringType,
          MarkdownDescription := "Auth user.",
          Required := true }),
      ("expires",
        { Type_ := some AttrType.StringType,
          MarkdownDescription := "expires.",
          Computed := true })] }

/-- The fields of the struct `NotificationTrakt`, in the order of the declaration: name, type
and `tfsdk` tag. -/
def NotificationTrakt.fields : List StructField :=
  [ ⟨"Tags", GoFieldType.Set, "tags"⟩,
    ⟨"AuthUser", GoFieldType.String, "auth_user"⟩,
    ⟨"AccessToken", GoFieldType.String, "access_token"⟩,
    ⟨"RefreshToken", GoFieldType.String, "refresh_token"⟩,
    ⟨"Expires", GoFieldType.String, "expires"⟩,
    ⟨"Name", GoFieldType.String, "name"⟩,
    ⟨"ID", GoFieldType.Int64, "id"⟩,
    ⟨"OnMovieFileDeleteForUpgrade", GoFieldType.Bool, "on_movie_file_delete_for_upgrade"⟩,
    ⟨"OnMovieFileDelete", GoFieldType.Bool, "on_movie_file_delete"⟩,
    ⟨"OnMovieAdded", GoFieldType.Bool, "on_movie_added"⟩,
    ⟨"IncludeHealthWarnings", GoFieldType.Bool, "include_health_warnings"⟩,
    ⟨"OnMovieDelete", GoFieldType.Bool, "on_movie_delete"⟩,
    ⟨"OnUpgrade", GoFieldType.Bool, "on_upgrade"⟩,
    ⟨"OnDownload", GoFieldType.Bool, "on_download"⟩ ]

/-- Method `CustomFormatsDataSource.GetSchema`: the schema it returns. -/
def CustomFormatsDataSource.GetSchema : tfsdk.Schema :=
  { MarkdownDescription :=
      "<!-- subcategory:Profiles -->List all available [Custom Formats](../resources/custom_format).",
    Attributes := [
      ("id",
        { Computed := true,
          Type_ := some AttrType.StringType }),
      ("custom_formats",
        { MarkdownDescription := "Download Client list..",
          Computed := true,
          SetNestedAttributes := some [
          ("include_custom_format_when_renaming",
            { MarkdownDescription := "Include custom format when renaming flag.",
              Computed := true,
              Type_ := some AttrType.BoolType }),
          ("name",
            { MarkdownDescription := "Custom Format name.",
              Computed := true,
              Type_ := some AttrType.StringType }),
          ("id",
            { MarkdownDescription := "Custom Format ID.",
              Computed := true,
              Type_ := some AttrType.Int64Type }),
          ("specifications",
            { MarkdownDescription := "Specifications.",
              Computed := true,
              SetNestedAttributes := some [
              ("negate",
                { MarkdownDescription := "Negate flag.",
                  Computed := true,
                  Type_ := some AttrType.BoolType }),
              ("required",
                { MarkdownDescription := "Computed flag.",
                  Computed := true,
                  Type_ := some AttrType.BoolType }),
              ("name",
                { MarkdownDescription := "Specification name.",
                  Computed := true,
                  Type_ := some AttrType.StringType }),
              ("implementation",
                { MarkdownDescription := "Implementation.",
                  Computed := true,
                  Type_ := some AttrType.StringType }),
              ("value",
                { MarkdownDescription := "Value.",
                  Computed := true,
                  Type_ := some AttrType.StringType }),
              ("min",
                { MarkdownDescription := "Min.",
                  Computed := true,
                  Type_ := some AttrType.Int64Type }),
              ("max",
                { MarkdownDescription := "Max.",
                  Computed := true,
                  Type_ := some AttrType.Int64Type })] })] })] }

/-- The fields of the struct `CustomFormats`, in the order of the declaration: name, type
and `tfsdk` tag. -/
def CustomFormats.fields : List StructField :=
  [ ⟨"CustomFormats", GoFieldType.Set, "custom_formats"⟩,
    ⟨"ID", GoFieldType.String, "id"⟩ ]

/-! ## Reading schemas -/

/-- The loop of `namedValues`: `inWord` tells that the characters read last are
an apostrophe and the letters of `word` after it. -/
def namedValues.loop : List Char → Bool → List Char → List String → List String
  | [], _, word, values => if word = [] then values else values ++ [String.mk word]
  | c :: cs, inWord, word, values =>
    if inWord && c.isAlpha then
      namedValues.loop cs true (word ++ [c]) values
    else
      let values := if word = [] then values else values ++ [String.mk word]
      namedValues.loop cs (c = '\'') [] values

/-- The values a description names: the words, maximal runs of letters, that
directly follow an apostrophe, in the order of the description. -/
def namedValues (description : String) : List String :=
  namedValues.loop description.toList false [] []

/-- The parts of a list of characters that `sep` separates. -/
def splitAt (sep : Char) : List Char → List (List Char)
  | [] => [[]]
  | c :: cs =>
    match splitAt sep cs with
    | [] => [[]]
    | part :: parts => if c = sep then [] :: part :: parts else (c :: part) :: parts

/-- The elements of a list at the odd positions 1, 3, 5, ... -/
def oddPositions {α : Type} : List α → List α
  | _ :: x :: xs => x :: oddPositions xs
  | _ => []

/-- The integers a description documents: the decimal integers written between
two backquotes (character 96), in the order of the description. -/
def documentedInts (description : String) : List Int :=
  (oddPositions (splitAt (Char.ofNat 96) description.toList)).filterMap
    fun part => strconv.Atoi (String.mk part)

/-- A validator applied to a known integer: `int64validator.OneOf` accepts the
values it was passed and no other; a validator of strings does not apply. -/
def Validator.ValidateInt64 (v : Validator) (n : Int) : Bool :=
  match v with
  | Validator.OneOf values => values.contains n
  | Validator.StringMatch _ => true

/-- A known integer passes the validators of an attribute: every one of them
accepts it. -/
def tfsdk.Attribute.AcceptsInt64 {α : Type} (a : tfsdk.Attribute α) (n : Int) : Bool :=
  a.Validators.all fun v => v.ValidateInt64 n

/-- Schema and struct agree: the names of the top-level attributes are the
`tfsdk` tags of the fields, no name and no tag occurs twice, and the attribute
and the field of one name have the same type. -/
abbrev SchemaAgrees (s : tfsdk.Schema) (fields : List StructField) : Prop :=
  (∀ n ∈ s.Attributes.map Prod.fst, n ∈ fields.map StructField.Tag) ∧
  (∀ t ∈ fields.map StructField.Tag, t ∈ s.Attributes.map Prod.fst) ∧
  (s.Attributes.map Prod.fst).Nodup ∧
  (fields.map StructField.Tag).Nodup ∧
  (∀ p ∈ s.Attributes, ∀ f ∈ fields, f.Tag = p.1 → p.2.fieldType = some f.GoType)

/-! ## Fields of a model by name

The helpers of the package `tools` reach the fields of a model through the
package `reflect`, by the name of the field. -/

/-- Function `strings.EqualFold` of Go on strings of ASCII characters, which the
names of the tables and of the fields of the structs are: equality once every
upper-case letter is replaced by its lower-case letter. -/
def strings.EqualFold (s t : String) : Bool :=
  s.toList.map Char.toLower == t.toList.map Char.toLower

/-- Modelled from the spec: the lookup by name of the helpers of the package
`tools`, which is not part of the provider package ("a generic field-marshaling
helper that reflects over string/bool/int/float/set fields by name"). The names
are compared ignoring letter case; the lookup finds a field of the struct when
exactly one field carries the name (`reflect.Value.FieldByNameFunc`), and fails
(`none`) otherwise. -/
def FieldByNameFunc (fields : List StructField) (name : String) : Option StructField :=
  match fields.filter fun sf => strings.EqualFold sf.Name name with
  | [sf] => some sf
  | _ => none

/-- The value of a field of a model, as `reflect` hands it out: a value of one of
the five framework types. -/
inductive FieldValue where
  | Set (v : types.Set) : FieldValue
  | String (v : types.String) : FieldValue
  | Int64 (v : types.Int64) : FieldValue
  | Float64 (v : types.Float64) : FieldValue
  | Bool (v : types.Bool) : FieldValue
  deriving DecidableEq, Repr

/-- The field of an `Indexer` with the Go name `name`
(`reflect.Value.FieldByName`), `none` when the struct has no such field. -/
def Indexer.FieldByName (i : Indexer) (name : String) : Option FieldValue :=
  if name = "Categories" then some (FieldValue.Set i.Categories)
  else if name = "Mediums" then some (FieldValue.Set i.Mediums)
  else if name = "Codecs" then some (FieldValue.Set i.Codecs)
  else if name = "RequiredFlags" then some (FieldValue.Set i.RequiredFlags)
  else if name = "Tags" then some (FieldValue.Set i.Tags)
  else if name = "MultiLanguages" then some (FieldValue.Set i.MultiLanguages)
  else if name = "Cookie" then some (FieldValue.String i.Cookie)
  else if name = "APIKey" then some (FieldValue.String i.APIKey)
  else if name = "ConfigContract" then some (FieldValue.String i.ConfigContract)
  else if name = "Implementation" then some (FieldValue.String i.Implementation)
  else if name = "Protocol" then some (FieldValue.String i.Protocol)
  else if name = "Username" then some (FieldValue.String i.Username)
  else if name = "Passkey" then some (FieldValue.String i.Passkey)
  else if name = "BaseURL" then some (FieldValue.String i.BaseURL)
  else if name = "CaptchaToken" then some (FieldValue.String i.CaptchaToken)
  else if name = "AdditionalParameters" then some (FieldValue.String i.AdditionalParameters)
  else if name = "APIPath" then some (FieldValue.String i.APIPath)
  else if name = "APIUser" then some (FieldValue.String i.APIUser)
  else if name = "Name" then some (FieldValue.String i.Name)
  else if name = "Priority" then some (FieldValue.Int64 i.Priority)
  else if name = "SeedTime" then some (FieldValue.Int64 i.SeedTime)
  else if name = "MinimumSeeders" then some (FieldValue.Int64 i.MinimumSeeders)
  else if name = "DownloadClientID" then some (FieldValue.Int64 i.DownloadClientID)
  else if name = "Delay" then some (FieldValue.Int64 i.Delay)
  else if name = "ID" then some (FieldValue.Int64 i.ID)
  else if name = "SeedRatio" then some (FieldValue.Float64 i.SeedRatio)
  else if name = "AllowZeroSize" then some (FieldValue.Bool i.AllowZeroSize)
  else if name = "RankedOnly" then some (FieldValue.Bool i.RankedOnly)
  else if name = "EnableRss" then some (FieldValue.Bool i.EnableRss)
  else if name = "EnableAutomaticSearch" then some (FieldValue.Bool i.EnableAutomaticSearch)
  else if name = "EnableInteractiveSearch" then some (FieldValue.Bool i.EnableInteractiveSearch)
  else if name = "RemoveYear" then some (FieldValue.Bool i.RemoveYear)
  else none

/-- A writer of the package `tools` writes by name: it leaves as it is every
field of the model whose Go name is not the name of the API field, letter case
ignored. -/
def WritesByName (write : starr.FieldOutput → Indexer → Indexer) : Prop :=
  ∀ (f : starr.FieldOutput) (i : Indexer) (name : String),
    strings.EqualFold name f.Name = false → (write f i).FieldByName name = i.FieldByName name

/-- Assignment to the field of an `Indexer` with the Go name `name`
(`reflect.Value.Set`), for a value of the type of the field; the model is left as
it is when the struct has no such field of this type. -/
def Indexer.SetField (i : Indexer) (name : String) (v : FieldValue) : Indexer :=
  match v with
  | FieldValue.Set v =>
    if name = "Categories" then { i with Categories := v }
    else if name = "Mediums" then { i with Mediums := v }
    else if name = "Codecs" then { i with Codecs := v }
    else if name = "RequiredFlags" then { i with RequiredFlags := v }
    else if name = "Tags" then { i with Tags := v }
    else if name = "MultiLanguages" then { i with MultiLanguages := v }
    else i
  | FieldValue.String v =>
    if name = "Cookie" then { i with Cookie := v }
    else if name = "APIKey" then { i with APIKey := v }
    else if name = "ConfigContract" then { i with ConfigContract := v }
    else if name = "Implementation" then { i with Implementation := v }
    else if name = "Protocol" then { i with Protocol := v }
    else if name = "Username" then { i with Username := v }
    else if name = "Passkey" then { i with Passkey := v }
    else if name = "BaseURL" then { i with BaseURL := v }
    else if name = "CaptchaToken" then { i with CaptchaToken := v }
    else if name = "AdditionalParameters" then { i with AdditionalParameters := v }
    else if name = "APIPath" then { i with APIPath := v }
    else if name = "APIUser" then { i with APIUser := v }
    else if name = "Name" then { i with Name := v }
    else i
  | FieldValue.Int64 v =>
    if name = "Priority" then { i with Priority := v }
    else if name = "SeedTime" then { i with SeedTime := v }
    else if name = "MinimumSeeders" then { i with MinimumSeeders := v }
    else if name = "DownloadClientID" then { i with DownloadClientID := v }
    else if name = "Delay" then { i with Delay := v }
    else if name = "ID" then { i with ID := v }
    else i
  | FieldValue.Float64 v =>
    if name = "SeedRatio" then { i with SeedRatio := v }
    else i
  | FieldValue.Bool v =>
    if name = "AllowZeroSize" then { i with AllowZeroSize := v }
    else if name = "RankedOnly" then { i with RankedOnly := v }
    else if name = "EnableRss" then { i with EnableRss := v }
    else if name = "EnableAutomaticSearch" then { i with EnableAutomaticSearch := v }
    else if name = "EnableInteractiveSearch" then { i with EnableInteractiveSearch := v }
    else if name = "RemoveYear" then { i with RemoveYear := v }
    else i

/-- Modelled from the spec: a writer of the package `tools`, which is not part of
the provider package ("reflects over string/bool/int/float/set fields by name").
The field of the model is looked up by the name of the API field; when it is
found and `value` converts the value of the API field, the field is assigned
the result; otherwise the model is left as it is. -/
def writeByName (value : GoValue → Option FieldValue) (f : starr.FieldOutput) (i : Indexer) :
    Indexer :=
  match FieldByNameFunc Indexer.fields f.Name, f.Value.bind value with
  | some sf, some v => i.SetField sf.Name v
  | _, _ => i

/-- The elements of a set of integers for a Go slice of integers; `none` when an
element of the slice is not an integer. -/
def GoValue.int64Elems : List GoValue → Option (List attr.Value)
  | [] => some []
  | GoValue.int64 n :: xs =>
    (GoValue.int64Elems xs).map fun elems => attr.Value.int64 (TFValue.known n) :: elems
  | _ :: _ => none

/-- Modelled from the spec: the package `tools` with writers by name for the five
kinds of fields, each converting a value of its Go kind into the known value of
the framework type; the summaries and the readers are those of `toolsStd`. -/
def toolsByName : Tools :=
  { toolsStd with
    WriteStringField := writeByName fun v =>
      match v with
      | GoValue.string s => some (FieldValue.String (TFValue.known s))
      | _ => none
    WriteBoolField := writeByName fun v =>
      match v with
      | GoValue.bool b => some (FieldValue.Bool (TFValue.known b))
      | _ => none
    WriteIntField := writeByName fun v =>
      match v with
      | GoValue.int64 n => some (FieldValue.Int64 (TFValue.known n))
      | _ => none
    WriteFloatField := writeByName fun v =>
      match v with
      | GoValue.float64 x => some (FieldValue.Float64 (TFValue.known x))
      | _ => none
    WriteIntSliceField := writeByName fun v =>
      match v with
      | GoValue.slice xs =>
        (GoValue.int64Elems xs).map fun elems =>
          FieldValue.Set ⟨some attr.Type.Int64Type, TFValue.known elems⟩
      | _ => none }

/-! ## Values for the runs shown -/

/-- A stand-in for the conversions of the framework on sets of known integers. -/
def convStd : Conversions :=
  { ValueFrom := fun xs _ =>
      ⟨some attr.Type.Int64Type, TFValue.known (xs.map fun n => attr.Value.int64 (TFValue.known n))⟩
    ValueAs := fun set =>
      match set.Elems with
      | TFValue.known elems => elems.filterMap fun e =>
          match e with
          | attr.Value.int64 (TFValue.known n) => some n
          | _ => none
      | _ => []
    SetValueFrom := fun t xs =>
      ⟨some t, TFValue.known (xs.map fun n => attr.Value.int64 (TFValue.known n))⟩ }

/-- A client `*radarr.Radarr` every call of which is refused. -/
def callsUnauthorized : radarr.Calls :=
  { AddIndexerContext := fun _ => Except.error ⟨"401 Unauthorized"⟩
    GetIndexerContext := fun _ => Except.error ⟨"401 Unauthorized"⟩
    UpdateIndexerContext := fun _ => Except.error ⟨"401 Unauthorized"⟩
    DeleteIndexerContext := fun _ => some ⟨"401 Unauthorized"⟩ }

/-- A client `*radarr.APIClient` every call of which is refused. -/
def apiUnauthorized : radarr.IndexerApi :=
  { CreateIndexer := fun _ => Except.error ⟨"401 Unauthorized"⟩
    GetIndexerById := fun _ => Except.error ⟨"401 Unauthorized"⟩
    UpdateIndexer := fun _ _ => Except.error ⟨"401 Unauthorized"⟩
    DeleteIndexer := fun _ => some ⟨"401 Unauthorized"⟩ }

/-- Media management settings as the API returns them, for the runs shown. -/
def mediaManagementStd : radarr.MediaManagement :=
  { AutoRenameFolders := true
    AutoUnmonitorPreviouslyDownloadedMovies := false
    CopyUsingHardlinks := true
    CreateEmptyMovieFolders := false
    DeleteEmptyFolders := false
    EnableMediaInfo := true
    ImportExtraFiles := false
    PathsDefaultStatic := false
    SetPermissionsLinux := false
    SkipFreeSpaceCheckWhenImporting := false
    ID := 1
    MinimumFreeSpaceWhenImporting := 100
    RecycleBinCleanupDays := 7
    ChmodFolder := "755"
    ChownGroup := "arrs"
    DownloadPropersAndRepacks := "preferAndUpgrade"
    ExtraFileExtensions := "srt"
    FileDate := "none"
    RecycleBin := ""
    RescanAfterRefresh := "always" }

/-- The zero value of `MediaManagement`: every attribute is null. -/
def MediaManagementZero : MediaManagement :=
  { ChmodFolder := TFValue.null
    RescanAfterRefresh := TFValue.null
    RecycleBin := TFValue.null
    FileDate := TFValue.null
    ExtraFileExtensions := TFValue.null
    DownloadPropersAndRepacks := TFValue.null
    ChownGroup := TFValue.null
    ID := TFValue.null
    MinimumFreeSpaceWhenImporting := TFValue.null
    RecycleBinCleanupDays := TFValue.null
    SetPermissionsLinux := TFValue.null
    SkipFreeSpaceCheckWhenImporting := TFValue.null
    AutoRenameFolders := TFValue.null
    PathsDefaultStatic := TFValue.null
    ImportExtraFiles := TFValue.null
    EnableMediaInfo := TFValue.null
    DeleteEmptyFolders := TFValue.null
    CreateEmptyMovieFolders := TFValue.null
    CopyUsingHardlinks := TFValue.null
    AutoUnmonitorPreviouslyDownloadedMovies := TFValue.null }

/-- A client `*radarr.Radarr` that refuses every call for the media management
settings. -/
def mediaCallsUnauthorized : radarr.MediaCalls :=
  { GetMediaManagementContext := Except.error ⟨"401 Unauthorized"⟩
    UpdateMediaManagementContext := fun _ => Except.error ⟨"401 Unauthorized"⟩ }

/-- A client `*radarr.Radarr` that answers every call for the media management
settings with the settings it is sent, or the settings of the runs shown. -/
def mediaCallsEcho : radarr.MediaCalls :=
  { GetMediaManagementContext := Except.ok mediaManagementStd
    UpdateMediaManagementContext := fun data => Except.ok data }

/-- An indexer as the API returns it, for the runs shown: three fields of the
tables, one of them nil, and a field of no table. -/
def indexerOutputStd : radarr.IndexerOutput :=
  { EnableAutomaticSearch := true
    EnableInteractiveSearch := false
    EnableRss := true
    Priority := 25
    DownloadClientID := 0
    ID := 7
    ConfigContract := "NewznabSettings"
    Implementation := "Newznab"
    Name := "demo"
    Protocol := "usenet"
    Tags := [3]
    Fields :=
      [⟨"categories", some (GoValue.slice [GoValue.int64 2000, GoValue.int64 2010])⟩,
       ⟨"mediums", none⟩,
       ⟨"apiKey", some (GoValue.string "secret")⟩,
       ⟨"vipExpiration", some (GoValue.string "")⟩,
       ⟨"aPIKey", some (GoValue.string "later")⟩] }

/-- A client `*radarr.Radarr` that answers every call for an indexer with the
indexer of the runs shown. -/
def callsStd : radarr.Calls :=
  { AddIndexerContext := fun _ => Except.ok indexerOutputStd
    GetIndexerContext := fun _ => Except.ok indexerOutputStd
    UpdateIndexerContext := fun _ => Except.ok indexerOutputStd
    DeleteIndexerContext := fun _ => none }

/-! ## Statements: provider.go -/

section ProviderConfigure

/-- C1: `RadarrProvider.Configure` resolves the URL from the `url` attribute and
the environment. Whenever the local `url` is assigned, it is the value of
`RADARR_URL` when the attribute is null and the attribute's string when it is a
known string; and it is assigned so whenever no error is held once the decoding
diagnostics are appended. With a known string the whole result is the same in
any two environments that differ at most in `RADARR_URL`. On success (provider data
handed out, starting from a response without any) the client handed to resources
and to data sources is the client built from this URL. -/
theorem configure_url_resolution (getenv : String → String) (req : provider.ConfigureRequest)
    (resp : provider.ConfigureResponse) :
    (∀ u, (RadarrProvider.Configure.locals getenv req resp).url = some u →
      (req.Config.value.URL = TFValue.null → u = getenv "RADARR_URL") ∧
      (∀ s, req.Config.value.URL = TFValue.known s → u = s)) ∧
    ((resp.Diagnostics.Append req.Config.diags).HasError = false →
      (req.Config.value.URL = TFValue.null →
        (RadarrProvider.Configure.locals getenv req resp).url = some (getenv "RADARR_URL")) ∧
      (∀ s, req.Config.value.URL = TFValue.known s →
        (RadarrProvider.Configure.locals getenv req resp).url = some s)) ∧
    (∀ s, req.Config.value.URL = TFValue.known s →
      ∀ getenv2 : String → String, (∀ k, k ≠ "RADARR_URL" → getenv2 k = getenv k) →
        RadarrProvider.Configure.body getenv2 req resp
          = RadarrProvider.Configure.body getenv req resp) ∧
    (∀ ds c,
      ((RadarrProvider.Configure getenv req (provider.ConfigureResponse.fresh ds)).ResourceData
          = some c ∨
        (RadarrProvider.Configure getenv req (provider.ConfigureResponse.fresh ds)).DataSourceData
          = some c) →
      ∃ u k, (RadarrProvider.Configure.locals getenv req
                (provider.ConfigureResponse.fresh ds)).url = some u ∧
        (RadarrProvider.Configure.locals getenv req
                (provider.ConfigureResponse.fresh ds)).key = some k ∧
        c = Any.radarrClient (some (radarr.New (starr.New k u 0))) ∧
        (req.Config.value.URL = TFValue.null → u = getenv "RADARR_URL") ∧
        (∀ s, req.Config.value.URL = TFValue.known s → u = s)) := by
  obtain ⟨⟨diags, ⟨key, url⟩⟩⟩ := req
  refine ⟨?_, ?_, ?_, ?_⟩
  · intro u hu
    cases url <;>
      simp [RadarrProvider.Configure.locals, RadarrProvider.Configure.body, Readable.Get,
        TFValue.IsNull, TFValue.IsUnknown, TFValue.ValueString] at hu ⊢ <;>
      split_ifs at hu <;> simp_all
  · intro hdec
    replace hdec : (resp.Diagnostics ++ diags).HasError = false := hdec
    cases url <;> cases key <;>
      simp [RadarrProvider.Configure.locals, RadarrProvider.Configure.body, Readable.Get,
        Diagnostics.Append, hdec, TFValue.IsNull, TFValue.IsUnknown, TFValue.ValueString] <;>
      split_ifs <;> simp_all
  · intro s hs getenv2 h
    simp only at hs
    subst hs
    have h2 : getenv2 "RADARR_API_KEY" = getenv "RADARR_API_KEY" := h _ (by decide)
    simp [RadarrProvider.Configure.body, Readable.Get, TFValue.IsNull, TFValue.IsUnknown,
      TFValue.ValueString, h2]
  · intro ds c hc
    cases url <;> cases key <;>
      simp [RadarrProvider.Configure, RadarrProvider.Configure.locals,
        RadarrProvider.Configure.body, Readable.Get, provider.ConfigureResponse.fresh,
        TFValue.IsNull, TFValue.IsUnknown, TFValue.ValueString] at hc ⊢ <;>
      split_ifs at hc ⊢ <;> simp_all

/-- C1, at a run: the attribute is null, the environment gives the URL, and the
client handed out carries it. -/
theorem configure_url_resolution_witness :
    ∃ u k, (RadarrProvider.Configure.locals (envOf "http://radarr:7878" "k")
              ⟨⟨[], ⟨TFValue.known "abc", TFValue.null⟩⟩⟩
              (provider.ConfigureResponse.fresh [])).url = some u ∧
      (RadarrProvider.Configure.locals (envOf "http://radarr:7878" "k")
              ⟨⟨[], ⟨TFValue.known "abc", TFValue.null⟩⟩⟩
              (provider.ConfigureResponse.fresh [])).key = some k ∧
      Any.radarrClient (some (radarr.New (starr.New "abc" "http://radarr:7878" 0)))
        = Any.radarrClient (some (radarr.New (starr.New k u 0))) ∧
      ((⟨TFValue.known "abc", TFValue.null⟩ : Radarr).URL = TFValue.null →
        u = envOf "http://radarr:7878" "k" "RADARR_URL") ∧
      (∀ s, (⟨TFValue.known "abc", TFValue.null⟩ : Radarr).URL = TFValue.known s → u = s) :=
  (configure_url_resolution (envOf "http://radarr:7878" "k")
    ⟨⟨[], ⟨TFValue.known "abc", TFValue.null⟩⟩⟩ (provider.ConfigureResponse.fresh [])).2.2.2 []
    (Any.radarrClient (some (radarr.New (starr.New "abc" "http://radarr:7878" 0))))
    (Or.inl (by decide))

/-- C4 as stated fails: a configuration in which `url` is unknown and whose
decoding reports an error. `RadarrProvider.Configure` returns at the check of
line 67: the response holds the decoding error alone, no warning is added. -/
theorem configure_unknown_counterexample :
    (⟨TFValue.null, TFValue.unknown⟩ : Radarr).URL = TFValue.unknown ∧
    (RadarrProvider.Configure (envOf "http://radarr:7878" "k")
        ⟨⟨[⟨Severity.error, "Value Conversion Error", ""⟩], ⟨TFValue.null, TFValue.unknown⟩⟩⟩
        (provider.ConfigureResponse.fresh [])).Diagnostics
      = [⟨Severity.error, "Value Conversion Error", ""⟩] ∧
    ¬ ∃ w, w ∈ (RadarrProvider.Configure (envOf "http://radarr:7878" "k")
        ⟨⟨[⟨Severity.error, "Value Conversion Error", ""⟩], ⟨TFValue.null, TFValue.unknown⟩⟩⟩
        (provider.ConfigureResponse.fresh [])).Diagnostics ∧ w.severity = Severity.warning := by
  refine ⟨rfl, by decide, ?_⟩
  rintro ⟨w, hw, hs⟩
  have h : (RadarrProvider.Configure (envOf "http://radarr:7878" "k")
        ⟨⟨[⟨Severity.error, "Value Conversion Error", ""⟩], ⟨TFValue.null, TFValue.unknown⟩⟩⟩
        (provider.ConfigureResponse.fresh [])).Diagnostics
      = [⟨Severity.error, "Value Conversion Error", ""⟩] := by decide
  rw [h] at hw
  simp at hw
  subst hw
  exact absurd hs (by decide)

/-- C4, amended: an unknown value cannot be used to connect. When no error is
held once the decoding diagnostics are appended, and `url` is unknown, or the
local `url` is assigned a string that is not empty and `api_key` is unknown,
`RadarrProvider.Configure` adds after the decoding diagnostics exactly one
diagnostic, a warning with summary "Unable to create client"; none of the
diagnostics it adds is an error; the provider data is left as it was. -/
theorem configure_unknown_warns (getenv : String → String) (req : provider.ConfigureRequest)
    (resp : provider.ConfigureResponse)
    (hdec : (resp.Diagnostics.Append req.Config.diags).HasError = false)
    (hunk : req.Config.value.URL = TFValue.unknown ∨
      ((∃ u, (RadarrProvider.Configure.locals getenv req resp).url = some u ∧ u ≠ "") ∧
        req.Config.value.APIKey = TFValue.unknown)) :
    (∃ detail, (RadarrProvider.Configure getenv req resp).Diagnostics
        = resp.Diagnostics ++ req.Config.diags
          ++ [⟨Severity.warning, "Unable to create client", detail⟩]) ∧
    (∀ d, d ∈ (RadarrProvider.Configure getenv req resp).Diagnostics →
      d ∉ resp.Diagnostics → d.severity ≠ Severity.error) ∧
    (RadarrProvider.Configure getenv req resp).ResourceData = resp.ResourceData ∧
    (RadarrProvider.Configure getenv req resp).DataSourceData = resp.DataSourceData := by
  obtain ⟨⟨diags, ⟨key, url⟩⟩⟩ := req
  replace hdec : (resp.Diagnostics ++ diags).HasError = false := hdec
  have hall : ∀ d, d ∈ resp.Diagnostics ++ diags → d.severity ≠ Severity.error := by
    intro d hd
    have h := hdec
    simp only [Diagnostics.HasError, List.any_eq_false] at h
    simpa using h d hd
  have key_fact : ∀ detail, (RadarrProvider.Configure getenv ⟨⟨diags, ⟨key, url⟩⟩⟩ resp)
        = { resp with Diagnostics := resp.Diagnostics ++ diags
              ++ [⟨Severity.warning, "Unable to create client", detail⟩] } →
      (∃ detail, (RadarrProvider.Configure getenv ⟨⟨diags, ⟨key, url⟩⟩⟩ resp).Diagnostics
        = resp.Diagnostics ++ diags
          ++ [⟨Severity.warning, "Unable to create client", detail⟩]) ∧
      (∀ d, d ∈ (RadarrProvider.Configure getenv ⟨⟨diags, ⟨key, url⟩⟩⟩ resp).Diagnostics →
        d ∉ resp.Diagnostics → d.severity ≠ Severity.error) ∧
      (RadarrProvider.Configure getenv ⟨⟨diags, ⟨key, url⟩⟩⟩ resp).ResourceData
        = resp.ResourceData ∧
      (RadarrProvider.Configure getenv ⟨⟨diags, ⟨key, url⟩⟩⟩ resp).DataSourceData
        = resp.DataSourceData := by
    intro detail h
    rw [h]
    refine ⟨⟨detail, rfl⟩, ?_, rfl, rfl⟩
    intro d hd _
    simp only [List.mem_append, List.mem_singleton] at hd
    rcases hd with hd | hd
    · exact hall d (List.mem_append.mpr hd)
    · subst hd
      simp
  rcases hunk with hu | ⟨⟨u, hu, hne⟩, hk⟩
  · simp only at hu
    subst hu
    apply key_fact "Cannot use unknown value as url"
    simp [RadarrProvider.Configure, RadarrProvider.Configure.body, Readable.Get, hdec,
      TFValue.IsUnknown, Diagnostics.AddWarning, Diagnostics.Append]
  · simp only at hk
    subst hk
    apply key_fact "Cannot use unknown value as api_key"
    cases url <;>
      simp [RadarrProvider.Configure, RadarrProvider.Configure.locals,
        RadarrProvider.Configure.body, Readable.Get, hdec, TFValue.IsNull,
        TFValue.IsUnknown, TFValue.ValueString, Diagnostics.AddWarning,
        Diagnostics.Append] at hu ⊢ <;>
      split_ifs at hu ⊢ <;> simp_all

/-- C4 amended, at a run: the configuration decodes without error and `url` is
unknown. -/
theorem configure_unknown_warns_witness :
    (∃ detail, (RadarrProvider.Configure (envOf "http://radarr:7878" "k")
          ⟨⟨[], ⟨TFValue.null, TFValue.unknown⟩⟩⟩ (provider.ConfigureResponse.fresh [])).Diagnostics
        = (provider.ConfigureResponse.fresh []).Diagnostics ++ []
          ++ [⟨Severity.warning, "Unable to create client", detail⟩]) ∧
    (∀ d, d ∈ (RadarrProvider.Configure (envOf "http://radarr:7878" "k")
          ⟨⟨[], ⟨TFValue.null, TFValue.unknown⟩⟩⟩ (provider.ConfigureResponse.fresh [])).Diagnostics →
      d ∉ (provider.ConfigureResponse.fresh []).Diagnostics → d.severity ≠ Severity.error) ∧
    (RadarrProvider.Configure (envOf "http://radarr:7878" "k")
          ⟨⟨[], ⟨TFValue.null, TFValue.unknown⟩⟩⟩ (provider.ConfigureResponse.fresh [])).ResourceData
        = (provider.ConfigureResponse.fresh []).ResourceData ∧
    (RadarrProvider.Configure (envOf "http://radarr:7878" "k")
          ⟨⟨[], ⟨TFValue.null, TFValue.unknown⟩⟩⟩ (provider.ConfigureResponse.fresh [])).DataSourceData
        = (provider.ConfigureResponse.fresh []).DataSourceData :=
  configure_unknown_warns (envOf "http://radarr:7878" "k")
    ⟨⟨[], ⟨TFValue.null, TFValue.unknown⟩⟩⟩ (provider.ConfigureResponse.fresh [])
    (by decide) (Or.inl rfl)

end ProviderConfigure


/-! ## Statements: Configure of resources and data sources -/

section ResourceConfigure

/-- C5: the `Configure` method of each of the nine resources and data sources
that have it inline never fails on an unconfigured provider. With `ProviderData`
nil it adds no diagnostic and leaves the resource as it was; with `ProviderData`
a value that is not of the expected client type it adds exactly one diagnostic,
an error, and leaves the resource as it was; with `ProviderData` of the expected
client type it stores that very client and adds no diagnostic. -/
theorem configure_provider_data (tools : Tools) (ds : Diagnostics) (data : Any)
    (cr : Option radarr.Radarr) (ca : Option radarr.APIClient) :
    ((∀ r, IndexerResource.Configure tools r ⟨none⟩ ⟨ds⟩ = (r, ⟨ds⟩)) ∧
      (∀ r, data.isRadarr = false → ∃ d, d.severity = Severity.error ∧
        d.summary = tools.UnexpectedResourceConfigureType ∧
        IndexerResource.Configure tools r ⟨some data⟩ ⟨ds⟩ = (r, ⟨ds ++ [d]⟩)) ∧
      (∀ r, IndexerResource.Configure tools r ⟨some (Any.radarrClient cr)⟩ ⟨ds⟩ = (⟨cr⟩, ⟨ds⟩))) ∧
    ((∀ r, IndexerNyaaResource.Configure tools r ⟨none⟩ ⟨ds⟩ = (r, ⟨ds⟩)) ∧
      (∀ r, data.isRadarr = false → ∃ d, d.severity = Severity.error ∧
        d.summary = tools.UnexpectedResourceConfigureType ∧
        IndexerNyaaResource.Configure tools r ⟨some data⟩ ⟨ds⟩ = (r, ⟨ds ++ [d]⟩)) ∧
      (∀ r, IndexerNyaaResource.Configure tools r ⟨some (Any.radarrClient cr)⟩ ⟨ds⟩ = (⟨cr⟩, ⟨ds⟩))) ∧
    ((∀ r, IndexerIptorrentsResource.Configure tools r ⟨none⟩ ⟨ds⟩ = (r, ⟨ds⟩)) ∧
      (∀ r, data.isAPIClient = false → ∃ d, d.severity = Severity.error ∧
        d.summary = tools.UnexpectedResourceConfigureType ∧
        IndexerIptorrentsResource.Configure tools r ⟨some data⟩ ⟨ds⟩ = (r, ⟨ds ++ [d]⟩)) ∧
      (∀ r, IndexerIptorrentsResource.Configure tools r ⟨some (Any.apiClient ca)⟩ ⟨ds⟩ = (⟨ca⟩, ⟨ds⟩))) ∧
    ((∀ r, MediaManagementResource.Configure tools r ⟨none⟩ ⟨ds⟩ = (r, ⟨ds⟩)) ∧
      (∀ r, data.isRadarr = false → ∃ d, d.severity = Severity.error ∧
        d.summary = tools.UnexpectedResourceConfigureType ∧
        MediaManagementResource.Configure tools r ⟨some data⟩ ⟨ds⟩ = (r, ⟨ds ++ [d]⟩)) ∧
      (∀ r, MediaManagementResource.Configure tools r ⟨some (Any.radarrClient cr)⟩ ⟨ds⟩ = (⟨cr⟩, ⟨ds⟩))) ∧
    ((∀ r, NotificationPushoverResource.Configure tools r ⟨none⟩ ⟨ds⟩ = (r, ⟨ds⟩)) ∧
      (∀ r, data.isRadarr = false → ∃ d, d.severity = Severity.error ∧
        d.summary = tools.UnexpectedResourceConfigureType ∧
        NotificationPushoverResource.Configure tools r ⟨some data⟩ ⟨ds⟩ = (r, ⟨ds ++ [d]⟩)) ∧
      (∀ r, NotificationPushoverResource.Configure tools r ⟨some (Any.radarrClient cr)⟩ ⟨ds⟩ = (⟨cr⟩, ⟨ds⟩))) ∧
    ((∀ r, NotificationTraktResource.Configure tools r ⟨none⟩ ⟨ds⟩ = (r, ⟨ds⟩)) ∧
      (∀ r, data.isAPIClient = false → ∃ d, d.severity = Severity.error ∧
        d.summary = tools.UnexpectedResourceConfigureType ∧
        NotificationTraktResource.Configure tools r ⟨some data⟩ ⟨ds⟩ = (r, ⟨ds ++ [d]⟩)) ∧
      (∀ r, NotificationTraktResource.Configure tools r ⟨some (Any.apiClient ca)⟩ ⟨ds⟩ = (⟨ca⟩, ⟨ds⟩))) ∧
    ((∀ r, RestrictionDataSource.Configure tools r ⟨none⟩ ⟨ds⟩ = (r, ⟨ds⟩)) ∧
      (∀ r, data.isRadarr = false → ∃ d, d.severity = Severity.error ∧
        d.summary = tools.UnexpectedDataSourceConfigureType ∧
        RestrictionDataSource.Configure tools r ⟨some data⟩ ⟨ds⟩ = (r, ⟨ds ++ [d]⟩)) ∧
      (∀ r, RestrictionDataSource.Configure tools r ⟨some (Any.radarrClient cr)⟩ ⟨ds⟩ = (⟨cr⟩, ⟨ds⟩))) ∧
    ((∀ r, QualityProfileDataSource.Configure tools r ⟨none⟩ ⟨ds⟩ = (r, ⟨ds⟩)) ∧
      (∀ r, data.isRadarr = false → ∃ d, d.severity = Severity.error ∧
        d.summary = tools.UnexpectedDataSourceConfigureType ∧
        QualityProfileDataSource.Configure tools r ⟨some data⟩ ⟨ds⟩ = (r, ⟨ds ++ [d]⟩)) ∧
      (∀ r, QualityProfileDataSource.Configure tools r ⟨some (Any.radarrClient cr)⟩ ⟨ds⟩ = (⟨cr⟩, ⟨ds⟩))) ∧
    ((∀ r, CustomFormatsDataSource.Configure tools r ⟨none⟩ ⟨ds⟩ = (r, ⟨ds⟩)) ∧
      (∀ r, data.isRadarr = false → ∃ d, d.severity = Severity.error ∧
        d.summary = tools.UnexpectedDataSourceConfigureType ∧
        CustomFormatsDataSource.Configure tools r ⟨some data⟩ ⟨ds⟩ = (r, ⟨ds ++ [d]⟩)) ∧
      (∀ r, CustomFormatsDataSource.Configure tools r ⟨some (Any.radarrClient cr)⟩ ⟨ds⟩ = (⟨cr⟩, ⟨ds⟩))) := by
  refine ⟨?_, ?_, ?_, ?_, ?_, ?_, ?_, ?_, ?_⟩
  · refine ⟨fun r => rfl, fun r h => ?_, fun r => rfl⟩
    cases data <;>
      simp [IndexerResource.Configure, Diagnostics.AddError, Any.isRadarr] at h ⊢
  · refine ⟨fun r => rfl, fun r h => ?_, fun r => rfl⟩
    cases data <;>
      simp [IndexerNyaaResource.Configure, Diagnostics.AddError, Any.isRadarr] at h ⊢
  · refine ⟨fun r => rfl, fun r h => ?_, fun r => rfl⟩
    cases data <;>
      simp [IndexerIptorrentsResource.Configure, Diagnostics.AddError, Any.isAPIClient] at h ⊢
  · refine ⟨fun r => rfl, fun r h => ?_, fun r => rfl⟩
    cases data <;>
      simp [MediaManagementResource.Configure, Diagnostics.AddError, Any.isRadarr] at h ⊢
  · refine ⟨fun r => rfl, fun r h => ?_, fun r => rfl⟩
    cases data <;>
      simp [NotificationPushoverResource.Configure, Diagnostics.AddError, Any.isRadarr] at h ⊢
  · refine ⟨fun r => rfl, fun r h => ?_, fun r => rfl⟩
    cases data <;>
      simp [NotificationTraktResource.Configure, Diagnostics.AddError, Any.isAPIClient] at h ⊢
  · refine ⟨fun r => rfl, fun r h => ?_, fun r => rfl⟩
    cases data <;>
      simp [RestrictionDataSource.Configure, Diagnostics.AddError, Any.isRadarr] at h ⊢
  · refine ⟨fun r => rfl, fun r h => ?_, fun r => rfl⟩
    cases data <;>
      simp [QualityProfileDataSource.Configure, Diagnostics.AddError, Any.isRadarr] at h ⊢
  · refine ⟨fun r => rfl, fun r h => ?_, fun r => rfl⟩
    cases data <;>
      simp [CustomFormatsDataSource.Configure, Diagnostics.AddError, Any.isRadarr] at h ⊢

/-- C5, at a run: the Iptorrents indexer resource is handed the client
`*radarr.Radarr`, which is not the client type it expects. -/
theorem configure_provider_data_witness :
    ∃ d, d.severity = Severity.error ∧
      d.summary = toolsStd.UnexpectedResourceConfigureType ∧
      IndexerIptorrentsResource.Configure toolsStd ⟨none⟩
          ⟨some (Any.radarrClient (some (radarr.New (starr.New "k" "u" 0))))⟩ ⟨[]⟩
        = (⟨none⟩, ⟨[] ++ [d]⟩) :=
  (configure_provider_data toolsStd [] (Any.radarrClient (some (radarr.New (starr.New "k" "u" 0))))
    none none).2.2.1.2.1 ⟨none⟩ rfl

end ResourceConfigure

/-! ## Statements: ImportState -/

section ImportState

/-- C7: `ImportState` of the generic, Nyaa and Iptorrents indexer resources and
of the Pushover and Trakt notification resources imports by numeric ID. For
every import identifier `s`: if `strconv.Atoi` parses `s` as the integer `n`, the
one write made to the state sets the attribute `id` to `n`, and no diagnostic is
added; otherwise exactly one diagnostic is added, an error with the summary
`UnexpectedImportIdentifier` whose detail ends with `s` quoted, and the state is
left as it was. -/
theorem import_state_by_numeric_id (tools : Tools) (quote : String → String) (s : String) :
    (∀ (r : IndexerResource) (resp : resource.ImportStateResponse Indexer),
      (∀ n, strconv.Atoi s = some n →
        (IndexerResource.ImportState tools quote r ⟨s⟩ resp).State.writes
            = resp.State.writes ++ [StateWrite.SetAttribute "id" n] ∧
        (IndexerResource.ImportState tools quote r ⟨s⟩ resp).Diagnostics = resp.Diagnostics) ∧
      (strconv.Atoi s = none →
        (IndexerResource.ImportState tools quote r ⟨s⟩ resp).Diagnostics
            = resp.Diagnostics ++ [⟨Severity.error, tools.UnexpectedImportIdentifier,
                "Expected import identifier with format: ID. Got: " ++ quote s⟩] ∧
        (IndexerResource.ImportState tools quote r ⟨s⟩ resp).State = resp.State)) ∧
    (∀ (r : IndexerNyaaResource) (resp : resource.ImportStateResponse IndexerNyaa),
      (∀ n, strconv.Atoi s = some n →
        (IndexerNyaaResource.ImportState tools quote r ⟨s⟩ resp).State.writes
            = resp.State.writes ++ [StateWrite.SetAttribute "id" n] ∧
        (IndexerNyaaResource.ImportState tools quote r ⟨s⟩ resp).Diagnostics = resp.Diagnostics) ∧
      (strconv.Atoi s = none →
        (IndexerNyaaResource.ImportState tools quote r ⟨s⟩ resp).Diagnostics
            = resp.Diagnostics ++ [⟨Severity.error, tools.UnexpectedImportIdentifier,
                "Expected import identifier with format: ID. Got: " ++ quote s⟩] ∧
        (IndexerNyaaResource.ImportState tools quote r ⟨s⟩ resp).State = resp.State)) ∧
    (∀ (r : IndexerIptorrentsResource) (resp : resource.ImportStateResponse IndexerIptorrents),
      (∀ n, strconv.Atoi s = some n →
        (IndexerIptorrentsResource.ImportState tools quote r ⟨s⟩ resp).State.writes
            = resp.State.writes ++ [StateWrite.SetAttribute "id" n] ∧
        (IndexerIptorrentsResource.ImportState tools quote r ⟨s⟩ resp).Diagnostics = resp.Diagnostics) ∧
      (strconv.Atoi s = none →
        (IndexerIptorrentsResource.ImportState tools quote r ⟨s⟩ resp).Diagnostics
            = resp.Diagnostics ++ [⟨Severity.error, tools.UnexpectedImportIdentifier,
                "Expected import identifier with format: ID. Got: " ++ quote s⟩] ∧
        (IndexerIptorrentsResource.ImportState tools quote r ⟨s⟩ resp).State = resp.State)) ∧
    (∀ (r : NotificationPushoverResource) (resp : resource.ImportStateResponse NotificationPushover),
      (∀ n, strconv.Atoi s = some n →
        (NotificationPushoverResource.ImportState tools quote r ⟨s⟩ resp).State.writes
            = resp.State.writes ++ [StateWrite.SetAttribute "id" n] ∧
        (NotificationPushoverResource.ImportState tools quote r ⟨s⟩ resp).Diagnostics = resp.Diagnostics) ∧
      (strconv.Atoi s = none →
        (NotificationPushoverResource.ImportState tools quote r ⟨s⟩ resp).Diagnostics
            = resp.Diagnostics ++ [⟨Severity.error, tools.UnexpectedImportIdentifier,
                "Expected import identifier with format: ID. Got: " ++ quote s⟩] ∧
        (NotificationPushoverResource.ImportState tools quote r ⟨s⟩ resp).State = resp.State)) ∧
    (∀ (r : NotificationTraktResource) (resp : resource.ImportStateResponse NotificationTrakt),
      (∀ n, strconv.Atoi s = some n →
        (NotificationTraktResource.ImportState tools quote r ⟨s⟩ resp).State.writes
            = resp.State.writes ++ [StateWrite.SetAttribute "id" n] ∧
        (NotificationTraktResource.ImportState tools quote r ⟨s⟩ resp).Diagnostics = resp.Diagnostics) ∧
      (strconv.Atoi s = none →
        (NotificationTraktResource.ImportState tools quote r ⟨s⟩ resp).Diagnostics
            = resp.Diagnostics ++ [⟨Severity.error, tools.UnexpectedImportIdentifier,
                "Expected import identifier with format: ID. Got: " ++ quote s⟩] ∧
        (NotificationTraktResource.ImportState tools quote r ⟨s⟩ resp).State = resp.State)) := by
  refine ⟨?_, ?_, ?_, ?_, ?_⟩
  · intro r resp
    refine ⟨fun n h => ?_, fun h => ?_⟩ <;>
      simp [IndexerResource.ImportState, h, tfsdk.State.SetAttribute, Diagnostics.Append,
        Diagnostics.AddError]
  · intro r resp
    refine ⟨fun n h => ?_, fun h => ?_⟩ <;>
      simp [IndexerNyaaResource.ImportState, h, tfsdk.State.SetAttribute, Diagnostics.Append,
        Diagnostics.AddError]
  · intro r resp
    refine ⟨fun n h => ?_, fun h => ?_⟩ <;>
      simp [IndexerIptorrentsResource.ImportState, h, tfsdk.State.SetAttribute, Diagnostics.Append,
        Diagnostics.AddError]
  · intro r resp
    refine ⟨fun n h => ?_, fun h => ?_⟩ <;>
      simp [NotificationPushoverResource.ImportState, h, tfsdk.State.SetAttribute, Diagnostics.Append,
        Diagnostics.AddError]
  · intro r resp
    refine ⟨fun n h => ?_, fun h => ?_⟩ <;>
      simp [NotificationTraktResource.ImportState, h, tfsdk.State.SetAttribute, Diagnostics.Append,
        Diagnostics.AddError]

/-- C7, at two runs: the identifier "42" is imported as 42, the identifier
"abc" is refused. -/
theorem import_state_by_numeric_id_witness :
    ((IndexerResource.ImportState toolsStd quoteStd ⟨none⟩ ⟨"42"⟩
        ⟨⟨⟨[], IndexerZero⟩, []⟩, []⟩).State.writes
          = [] ++ [StateWrite.SetAttribute "id" 42] ∧
      (IndexerResource.ImportState toolsStd quoteStd ⟨none⟩ ⟨"42"⟩
        ⟨⟨⟨[], IndexerZero⟩, []⟩, []⟩).Diagnostics = []) ∧
    ((IndexerResource.ImportState toolsStd quoteStd ⟨none⟩ ⟨"abc"⟩
        ⟨⟨⟨[], IndexerZero⟩, []⟩, []⟩).Diagnostics
          = [] ++ [⟨Severity.error, toolsStd.UnexpectedImportIdentifier,
              "Expected import identifier with format: ID. Got: " ++ quoteStd "abc"⟩] ∧
      (IndexerResource.ImportState toolsStd quoteStd ⟨none⟩ ⟨"abc"⟩
        ⟨⟨⟨[], IndexerZero⟩, []⟩, []⟩).State = ⟨⟨[], IndexerZero⟩, []⟩) :=
  ⟨((import_state_by_numeric_id toolsStd quoteStd "42").1 ⟨none⟩
      ⟨⟨⟨[], IndexerZero⟩, []⟩, []⟩).1 42 (by decide),
   ((import_state_by_numeric_id toolsStd quoteStd "abc").1 ⟨none⟩
      ⟨⟨⟨[], IndexerZero⟩, []⟩, []⟩).2 (by decide)⟩

end ImportState

/-! ## Statements: data source lookups -/

section Lookups

/-- C8: `findRestriction` looks a restriction up by ID. If some element of the
list has the ID, it returns no error and the first such element in list order
(every element before it has another ID). If no element has the ID, it returns a
nil restriction and a non-nil error, the one `ErrDataNotFoundError` builds. It
never returns both a restriction and an error. -/
theorem find_restriction_by_id (tools : Tools) (id : Int)
    (restrictions : List radarr.Restriction) :
    ((∃ m, m ∈ restrictions ∧ m.ID = id) →
      ∃ pre m post, restrictions = pre ++ m :: post ∧ (∀ x, x ∈ pre → x.ID ≠ id) ∧
        m.ID = id ∧ findRestriction tools id restrictions = (some m, none)) ∧
    ((∀ m, m ∈ restrictions → m.ID ≠ id) →
      findRestriction tools id restrictions
        = (none, some (tools.ErrDataNotFoundError restrictionDataSourceName "id"
            (strconv.Itoa id)))) ∧
    ¬ ((findRestriction tools id restrictions).1 ≠ none ∧
        (findRestriction tools id restrictions).2 ≠ none) := by
  induction restrictions with
  | nil => simp [findRestriction]
  | cons r rest ih =>
    obtain ⟨ih1, ih2, ih3⟩ := ih
    by_cases h : r.ID = id
    · refine ⟨fun _ => ⟨[], r, rest, rfl, by simp, h, by simp [findRestriction, h]⟩, ?_, ?_⟩
      · intro hall
        exact absurd h (hall r (List.mem_cons_self _ _))
      · simp [findRestriction, h]
    · have hstep : findRestriction tools id (r :: rest) = findRestriction tools id rest := by
        simp [findRestriction, h]
      rw [hstep]
      refine ⟨?_, ?_, ih3⟩
      · rintro ⟨m, hm, hid⟩
        rcases List.mem_cons.mp hm with rfl | hm
        · exact absurd hid h
        · obtain ⟨pre, m2, post, hsplit, hpre, hid2, hres⟩ := ih1 ⟨m, hm, hid⟩
          refine ⟨r :: pre, m2, post, by simp [hsplit], ?_, hid2, hres⟩
          intro x hx
          rcases List.mem_cons.mp hx with rfl | hx
          · exact h
          · exact hpre x hx
      · intro hall
        exact ih2 (fun m hm => hall m (List.mem_cons_of_mem _ hm))

/-- C8, at a run: two restrictions carry the ID 7, the first of them is
returned. -/
theorem find_restriction_by_id_witness :
    ∃ pre m post,
      ([⟨[], "a", "b", 3⟩, ⟨[], "c", "d", 7⟩, ⟨[1], "e", "f", 7⟩] : List radarr.Restriction)
        = pre ++ m :: post ∧
      (∀ x, x ∈ pre → x.ID ≠ 7) ∧ m.ID = 7 ∧
      findRestriction toolsStd 7 [⟨[], "a", "b", 3⟩, ⟨[], "c", "d", 7⟩, ⟨[1], "e", "f", 7⟩]
        = (some m, none) :=
  (find_restriction_by_id toolsStd 7
    [⟨[], "a", "b", 3⟩, ⟨[], "c", "d", 7⟩, ⟨[1], "e", "f", 7⟩]).1
    ⟨⟨[], "c", "d", 7⟩, by decide, rfl⟩

/-- C9: a by-name lookup that matches nothing is an error. `findQualityProfile`
returns the first profile of the list whose `Name` is equal, as a string, to the
name (every profile before it has another name) when there is one, and otherwise
a nil profile and the error `ErrDataNotFoundError` builds. When its lookup ends
in that error (the state was read without error, the client returned the
profiles, none has the name), `QualityProfileDataSource.Read` adds after the
diagnostics of reading exactly one diagnostic, an error whose detail begins
"Unable to find quality_profile", and makes no write to the state. -/
theorem find_quality_profile_by_name {α : Type} (tools : Tools) (name : String)
    (profiles : List radarr.QualityProfile)
    (call : Except GoError (List radarr.QualityProfile))
    (Name : α → types.String) (write : α → Option radarr.QualityProfile → α)
    (d : QualityProfileDataSource) (req : datasource.ReadRequest α)
    (resp : datasource.ReadResponse α) :
    ((∃ p, p ∈ profiles ∧ p.Name = name) →
      ∃ pre p post, profiles = pre ++ p :: post ∧ (∀ x, x ∈ pre → x.Name ≠ name) ∧
        p.Name = name ∧ findQualityProfile tools name profiles = (some p, none)) ∧
    ((∀ p, p ∈ profiles → p.Name ≠ name) →
      findQualityProfile tools name profiles
        = (none, some (tools.ErrDataNotFoundError qualityProfileDataSourceName "name" name))) ∧
    ((resp.Diagnostics.Append resp.State.content.diags).HasError = false →
      call = Except.ok profiles →
      ∀ err, (findQualityProfile tools (Name resp.State.content.value).ValueString profiles).2
          = some err →
        (QualityProfileDataSource.Read tools call Name write d req resp).Diagnostics
          = resp.Diagnostics ++ resp.State.content.diags
            ++ [⟨Severity.error, tools.DataSourceError,
                "Unable to find quality_profile" ++ (", got error: " ++ err.Error)⟩] ∧
        (QualityProfileDataSource.Read tools call Name write d req resp).State
          = resp.State) := by
  refine ⟨?_, ?_, ?_⟩
  · induction profiles with
    | nil => simp
    | cons q rest ih =>
      rintro ⟨p, hp, hname⟩
      by_cases h : q.Name = name
      · exact ⟨[], q, rest, rfl, by simp, h, by simp [findQualityProfile, h]⟩
      · rcases List.mem_cons.mp hp with rfl | hp
        · exact absurd hname h
        · obtain ⟨pre, p2, post, hsplit, hpre, hname2, hres⟩ := ih ⟨p, hp, hname⟩
          refine ⟨q :: pre, p2, post, by simp [hsplit], ?_, hname2, ?_⟩
          · intro x hx
            rcases List.mem_cons.mp hx with rfl | hx
            · exact h
            · exact hpre x hx
          · simpa [findQualityProfile, h] using hres
  · induction profiles with
    | nil => simp [findQualityProfile]
    | cons q rest ih =>
      intro hall
      have h : q.Name ≠ name := hall q (List.mem_cons_self _ _)
      simpa [findQualityProfile, h] using
        ih (fun p hp => hall p (List.mem_cons_of_mem _ hp))
  · intro hdec hcall err herr
    subst hcall
    replace hdec : (resp.Diagnostics ++ resp.State.content.diags).HasError = false := hdec
    cases hfind : findQualityProfile tools (Name resp.State.content.value).ValueString
      profiles with
    | mk profile e =>
      rw [hfind] at herr
      simp only at herr
      subst herr
      simp [QualityProfileDataSource.Read, tfsdk.State.Get, Readable.Get, hdec, hfind,
        Diagnostics.Append, Diagnostics.AddError, qualityProfileDataSourceName]
      rw [← String.append_assoc]
      rfl

/-- C9, at a run: the profile is searched under the name "hd-1080p" while the
one profile at hand is named "HD-1080p"; the lookup ends in the error and `Read`
reports it. -/
theorem find_quality_profile_by_name_witness :
    (QualityProfileDataSource.Read toolsStd (Except.ok [⟨1, "HD-1080p"⟩])
        (fun m : types.String => m) (fun m _ => m) ⟨none⟩ ⟨⟨[], TFValue.null⟩⟩
        ⟨⟨⟨[], TFValue.known "hd-1080p"⟩, []⟩, []⟩).Diagnostics
      = [] ++ [] ++ [⟨Severity.error, toolsStd.DataSourceError,
          "Unable to find quality_profile" ++ (", got error: "
            ++ (toolsStd.ErrDataNotFoundError qualityProfileDataSourceName "name"
                "hd-1080p").Error)⟩] ∧
    (QualityProfileDataSource.Read toolsStd (Except.ok [⟨1, "HD-1080p"⟩])
        (fun m : types.String => m) (fun m _ => m) ⟨none⟩ ⟨⟨[], TFValue.null⟩⟩
        ⟨⟨⟨[], TFValue.known "hd-1080p"⟩, []⟩, []⟩).State
      = ⟨⟨[], TFValue.known "hd-1080p"⟩, []⟩ :=
  (find_quality_profile_by_name toolsStd "hd-1080p" [⟨1, "HD-1080p"⟩]
    (Except.ok [⟨1, "HD-1080p"⟩]) (fun m : types.String => m) (fun m _ => m) ⟨none⟩
    ⟨⟨[], TFValue.null⟩⟩ ⟨⟨⟨[], TFValue.known "hd-1080p"⟩, []⟩, []⟩).2.2
    (by decide) rfl _ (by decide)

end Lookups

/-! ## Statements: Metadata -/

section Metadata

/-- C10: every `Metadata` method of a resource or data source of the provider
package sets `TypeName` to the provider type name, an underscore, and the name
constant of the entity. With the type name `RadarrProvider.Metadata` reports,
"radarr", the restriction data source is named "radarr_restriction". The name
constants are the eight resource names and the three data source names listed,
pairwise distinct among resources and pairwise distinct among data sources. -/
theorem metadata_type_names (rreq : resource.MetadataRequest)
    (rresp : resource.MetadataResponse) (dreq : datasource.MetadataRequest)
    (dresp : datasource.MetadataResponse) (p : RadarrProvider)
    (presp : provider.MetadataResponse) :
    (IndexerResource.Metadata rreq rresp).TypeName
      = rreq.ProviderTypeName ++ "_" ++ indexerResourceName ∧
    (IndexerIptorrentsResource.Metadata rreq rresp).TypeName
      = rreq.ProviderTypeName ++ "_" ++ indexerIptorrentsResourceName ∧
    (IndexerNyaaResource.Metadata rreq rresp).TypeName
      = rreq.ProviderTypeName ++ "_" ++ indexerNyaaResourceName ∧
    (MediaManagementResource.Metadata rreq rresp).TypeName
      = rreq.ProviderTypeName ++ "_" ++ mediaManagementResourceName ∧
    (MetadataKodiResource.Metadata rreq rresp).TypeName
      = rreq.ProviderTypeName ++ "_" ++ metadataKodiResourceName ∧
    (NotificationMailgunResource.Metadata rreq rresp).TypeName
      = rreq.ProviderTypeName ++ "_" ++ notificationMailgunResourceName ∧
    (NotificationPushoverResource.Metadata rreq rresp).TypeName
      = rreq.ProviderTypeName ++ "_" ++ notificationPushoverResourceName ∧
    (NotificationTraktResource.Metadata rreq rresp).TypeName
      = rreq.ProviderTypeName ++ "_" ++ notificationTraktResourceName ∧
    (CustomFormatsDataSource.Metadata dreq dresp).TypeName
      = dreq.ProviderTypeName ++ "_" ++ customFormatsDataSourceName ∧
    (QualityProfileDataSource.Metadata dreq dresp).TypeName
      = dreq.ProviderTypeName ++ "_" ++ qualityProfileDataSourceName ∧
    (RestrictionDataSource.Metadata dreq dresp).TypeName
      = dreq.ProviderTypeName ++ "_" ++ restrictionDataSourceName ∧
    (RadarrProvider.Metadata p presp).TypeName = "radarr" ∧
    (RestrictionDataSource.Metadata ⟨(RadarrProvider.Metadata p presp).TypeName⟩ dresp).TypeName
      = "radarr_restriction" ∧
    resourceNames = ["indexer", "indexer_iptorrents", "indexer_nyaa", "media_management",
      "metadata_kodi", "notification_mailgun", "notification_pushover",
      "notification_trakt"] ∧
    dataSourceNames = ["custom_formats", "quality_profile", "restriction"] ∧
    resourceNames.Nodup ∧ dataSourceNames.Nodup := by
  refine ⟨rfl, rfl, rfl, rfl, rfl, rfl, rfl, rfl, rfl, rfl, rfl, rfl, ?_, rfl, rfl, ?_, ?_⟩
  · show "radarr" ++ "_" ++ restrictionDataSourceName = "radarr_restriction"
    decide
  · decide
  · decide

end Metadata

/-! ## Statements: failing client calls -/

section ClientErrors

/-- C6: a failing client call surfaces as a "Client Error" and changes nothing.
In the generic, the Nyaa and the Iptorrents indexer resource, for each of
`Create`, `Read`, `Update` and `Delete`: when the operation makes its client call
(no error is held once the diagnostics of reading the plan or state are
appended) and the call returns an error, the operation adds after the
diagnostics of reading exactly one diagnostic, an error whose summary is the
constant `ClientError`, and makes no write to the state of the response. -/
theorem client_error_changes_nothing (tools : Tools) (conv : Conversions)
    (client : radarr.Calls) (api : radarr.IndexerApi)
    (writeFields : Indexer → List radarr.Field → Indexer)
    (readFields : Indexer → List radarr.Field) (err : GoError) :
    (∀ (r : IndexerResource) (req : resource.CreateRequest Indexer) (resp : resource.CreateResponse Indexer),
      (resp.Diagnostics.Append req.Plan.diags).HasError = false →
      client.AddIndexerContext (Indexer.read tools conv req.Plan.value) = Except.error err →
      (∃ detail, (IndexerResource.Create tools conv client r req resp).Diagnostics
          = resp.Diagnostics ++ req.Plan.diags
            ++ [⟨Severity.error, tools.ClientError, detail⟩]) ∧
      (IndexerResource.Create tools conv client r req resp).State = resp.State) ∧
    (∀ (r : IndexerResource) (req : resource.ReadRequest Indexer) (resp : resource.ReadResponse Indexer),
      (resp.Diagnostics.Append req.State.diags).HasError = false →
      client.GetIndexerContext req.State.value.ID.ValueInt64 = Except.error err →
      (∃ detail, (IndexerResource.Read tools conv client r req resp).Diagnostics
          = resp.Diagnostics ++ req.State.diags
            ++ [⟨Severity.error, tools.ClientError, detail⟩]) ∧
      (IndexerResource.Read tools conv client r req resp).State = resp.State) ∧
    (∀ (r : IndexerResource) (req : resource.UpdateRequest Indexer) (resp : resource.UpdateResponse Indexer),
      (resp.Diagnostics.Append req.Plan.diags).HasError = false →
      client.UpdateIndexerContext (Indexer.read tools conv req.Plan.value) = Except.error err →
      (∃ detail, (IndexerResource.Update tools conv client r req resp).Diagnostics
          = resp.Diagnostics ++ req.Plan.diags
            ++ [⟨Severity.error, tools.ClientError, detail⟩]) ∧
      (IndexerResource.Update tools conv client r req resp).State = resp.State) ∧
    (∀ (r : IndexerResource) (req : resource.DeleteRequest Indexer) (resp : resource.DeleteResponse Indexer),
      (resp.Diagnostics.Append req.State.diags).HasError = false →
      client.DeleteIndexerContext req.State.value.ID.ValueInt64 = some err →
      (∃ detail, (IndexerResource.Delete tools client r req resp).Diagnostics
          = resp.Diagnostics ++ req.State.diags
            ++ [⟨Severity.error, tools.ClientError, detail⟩]) ∧
      (IndexerResource.Delete tools client r req resp).State = resp.State) ∧
    (∀ (r : IndexerNyaaResource) (req : resource.CreateRequest IndexerNyaa) (resp : resource.CreateResponse IndexerNyaa),
      (resp.Diagnostics.Append req.Plan.diags).HasError = false →
      client.AddIndexerContext (IndexerNyaa.read tools conv req.Plan.value) = Except.error err →
      (∃ detail, (IndexerNyaaResource.Create tools conv client r req resp).Diagnostics
          = resp.Diagnostics ++ req.Plan.diags
            ++ [⟨Severity.error, tools.ClientError, detail⟩]) ∧
      (IndexerNyaaResource.Create tools conv client r req resp).State = resp.State) ∧
    (∀ (r : IndexerNyaaResource) (req : resource.ReadRequest IndexerNyaa) (resp : resource.ReadResponse IndexerNyaa),
      (resp.Diagnostics.Append req.State.diags).HasError = false →
      client.GetIndexerContext req.State.value.ID.ValueInt64 = Except.error err →
      (∃ detail, (IndexerNyaaResource.Read tools conv client r req resp).Diagnostics
          = resp.Diagnostics ++ req.State.diags
            ++ [⟨Severity.error, tools.ClientError, detail⟩]) ∧
      (IndexerNyaaResource.Read tools conv client r req resp).State = resp.State) ∧
    (∀ (r : IndexerNyaaResource) (req : resource.UpdateRequest IndexerNyaa) (resp : resource.UpdateResponse IndexerNyaa),
      (resp.Diagnostics.Append req.Plan.diags).HasError = false →
      client.UpdateIndexerContext (IndexerNyaa.read tools conv req.Plan.value) = Except.error err →
      (∃ detail, (IndexerNyaaResource.Update tools conv client r req resp).Diagnostics
          = resp.Diagnostics ++ req.Plan.diags
            ++ [⟨Severity.error, tools.ClientError, detail⟩]) ∧
      (IndexerNyaaResource.Update tools conv client r req resp).State = resp.State) ∧
    (∀ (r : IndexerNyaaResource) (req : resource.DeleteRequest IndexerNyaa) (resp : resource.DeleteResponse IndexerNyaa),
      (resp.Diagnostics.Append req.State.diags).HasError = false →
      client.DeleteIndexerContext req.State.value.ID.ValueInt64 = some err →
      (∃ detail, (IndexerNyaaResource.Delete tools client r req resp).Diagnostics
          = resp.Diagnostics ++ req.State.diags
            ++ [⟨Severity.error, tools.ClientError, detail⟩]) ∧
      (IndexerNyaaResource.Delete tools client r req resp).State = resp.State) ∧
    (∀ (r : IndexerIptorrentsResource) (req : resource.CreateRequest IndexerIptorrents) (resp : resource.CreateResponse IndexerIptorrents),
      (resp.Diagnostics.Append req.Plan.diags).HasError = false →
      api.CreateIndexer (IndexerIptorrents.read conv readFields req.Plan.value) = Except.error err →
      (∃ detail, (IndexerIptorrentsResource.Create tools conv writeFields readFields api r req resp).Diagnostics
          = resp.Diagnostics ++ req.Plan.diags
            ++ [⟨Severity.error, tools.ClientError, detail⟩]) ∧
      (IndexerIptorrentsResource.Create tools conv writeFields readFields api r req resp).State = resp.State) ∧
    (∀ (r : IndexerIptorrentsResource) (req : resource.ReadRequest IndexerIptorrents) (resp : resource.ReadResponse IndexerIptorrents),
      (resp.Diagnostics.Append req.State.diags).HasError = false →
      api.GetIndexerById (int32 req.State.value.ID.ValueInt64) = Except.error err →
      (∃ detail, (IndexerIptorrentsResource.Read tools conv writeFields api r req resp).Diagnostics
          = resp.Diagnostics ++ req.State.diags
            ++ [⟨Severity.error, tools.ClientError, detail⟩]) ∧
      (IndexerIptorrentsResource.Read tools conv writeFields api r req resp).State = resp.State) ∧
    (∀ (r : IndexerIptorrentsResource) (req : resource.UpdateRequest IndexerIptorrents) (resp : resource.UpdateResponse IndexerIptorrents),
      (resp.Diagnostics.Append req.Plan.diags).HasError = false →
      api.UpdateIndexer (strconv.Itoa (IndexerIptorrents.read conv readFields req.Plan.value).GetId)
          (IndexerIptorrents.read conv readFields req.Plan.value) = Except.error err →
      (∃ detail, (IndexerIptorrentsResource.Update tools conv writeFields readFields api r req resp).Diagnostics
          = resp.Diagnostics ++ req.Plan.diags
            ++ [⟨Severity.error, tools.ClientError, detail⟩]) ∧
      (IndexerIptorrentsResource.Update tools conv writeFields readFields api r req resp).State = resp.State) ∧
    (∀ (r : IndexerIptorrentsResource) (req : resource.DeleteRequest IndexerIptorrents) (resp : resource.DeleteResponse IndexerIptorrents),
      (resp.Diagnostics.Append req.State.diags).HasError = false →
      api.DeleteIndexer (int32 req.State.value.ID.ValueInt64) = some err →
      (∃ detail, (IndexerIptorrentsResource.Delete tools api r req resp).Diagnostics
          = resp.Diagnostics ++ req.State.diags
            ++ [⟨Severity.error, tools.ClientError, detail⟩]) ∧
      (IndexerIptorrentsResource.Delete tools api r req resp).State = resp.State) := by
  refine ⟨?_, ?_, ?_, ?_, ?_, ?_, ?_, ?_, ?_, ?_, ?_, ?_⟩
  · intro r req resp hdec hcall
    replace hdec : (resp.Diagnostics ++ req.Plan.diags).HasError = false := hdec
    simp [IndexerResource.Create, Readable.Get, hdec, hcall, Diagnostics.Append, Diagnostics.AddError]
  · intro r req resp hdec hcall
    replace hdec : (resp.Diagnostics ++ req.State.diags).HasError = false := hdec
    simp [IndexerResource.Read, Readable.Get, hdec, hcall, Diagnostics.Append, Diagnostics.AddError]
  · intro r req resp hdec hcall
    replace hdec : (resp.Diagnostics ++ req.Plan.diags).HasError = false := hdec
    simp [IndexerResource.Update, Readable.Get, hdec, hcall, Diagnostics.Append, Diagnostics.AddError]
  · intro r req resp hdec hcall
    replace hdec : (resp.Diagnostics ++ req.State.diags).HasError = false := hdec
    simp [IndexerResource.Delete, Readable.Get, hdec, hcall, Diagnostics.Append, Diagnostics.AddError]
  · intro r req resp hdec hcall
    replace hdec : (resp.Diagnostics ++ req.Plan.diags).HasError = false := hdec
    simp [IndexerNyaaResource.Create, Readable.Get, hdec, hcall, Diagnostics.Append, Diagnostics.AddError]
  · intro r req resp hdec hcall
    replace hdec : (resp.Diagnostics ++ req.State.diags).HasError = false := hdec
    simp [IndexerNyaaResource.Read, Readable.Get, hdec, hcall, Diagnostics.Append, Diagnostics.AddError]
  · intro r req resp hdec hcall
    replace hdec : (resp.Diagnostics ++ req.Plan.diags).HasError = false := hdec
    simp [IndexerNyaaResource.Update, Readable.Get, hdec, hcall, Diagnostics.Append, Diagnostics.AddError]
  · intro r req resp hdec hcall
    replace hdec : (resp.Diagnostics ++ req.State.diags).HasError = false := hdec
    simp [IndexerNyaaResource.Delete, Readable.Get, hdec, hcall, Diagnostics.Append, Diagnostics.AddError]
  · intro r req resp hdec hcall
    replace hdec : (resp.Diagnostics ++ req.Plan.diags).HasError = false := hdec
    simp [IndexerIptorrentsResource.Create, Readable.Get, hdec, hcall, Diagnostics.Append, Diagnostics.AddError]
  · intro r req resp hdec hcall
    replace hdec : (resp.Diagnostics ++ req.State.diags).HasError = false := hdec
    simp [IndexerIptorrentsResource.Read, Readable.Get, hdec, hcall, Diagnostics.Append, Diagnostics.AddError]
  · intro r req resp hdec hcall
    replace hdec : (resp.Diagnostics ++ req.Plan.diags).HasError = false := hdec
    simp [IndexerIptorrentsResource.Update, Readable.Get, hdec, hcall, Diagnostics.Append, Diagnostics.AddError]
  · intro r req resp hdec hcall
    replace hdec : (resp.Diagnostics ++ req.State.diags).HasError = false := hdec
    simp [IndexerIptorrentsResource.Delete, Readable.Get, hdec, hcall, Diagnostics.Append, Diagnostics.AddError]

/-- C6, at a run: the creation of a generic indexer on a client that refuses
every call. -/
theorem client_error_changes_nothing_witness :
    (∃ detail, (IndexerResource.Create toolsStd convStd callsUnauthorized ⟨none⟩
          ⟨⟨[], IndexerZero⟩⟩ ⟨⟨⟨[], IndexerZero⟩, []⟩, []⟩).Diagnostics
        = [] ++ [] ++ [⟨Severity.error, toolsStd.ClientError, detail⟩]) ∧
    (IndexerResource.Create toolsStd convStd callsUnauthorized ⟨none⟩
          ⟨⟨[], IndexerZero⟩⟩ ⟨⟨⟨[], IndexerZero⟩, []⟩, []⟩).State
      = ⟨⟨[], IndexerZero⟩, []⟩ :=
  (client_error_changes_nothing toolsStd convStd callsUnauthorized apiUnauthorized
    (fun i _ => i) (fun _ => []) ⟨"401 Unauthorized"⟩).1 ⟨none⟩
    ⟨⟨[], IndexerZero⟩⟩ ⟨⟨⟨[], IndexerZero⟩, []⟩, []⟩ (by decide) rfl

end ClientErrors

/-! ## Statements: media management -/

section MediaManagement

/-- A framework string that is neither null nor unknown is the known value of
what `ValueString` returns. -/
theorem TFValue.known_ValueString (v : types.String)
    (h : (!v.IsNull && !v.IsUnknown) = true) : TFValue.known v.ValueString = v := by
  cases v <;> simp_all [TFValue.IsNull, TFValue.IsUnknown, TFValue.ValueString]

/-- A framework integer that is neither null nor unknown is the known value of
what `ValueInt64` returns. -/
theorem TFValue.known_ValueInt64 (v : types.Int64)
    (h : (!v.IsNull && !v.IsUnknown) = true) : TFValue.known v.ValueInt64 = v := by
  cases v <;> simp_all [TFValue.IsNull, TFValue.IsUnknown, TFValue.ValueInt64]

/-- A framework boolean that is neither null nor unknown is the known value of
what `ValueBool` returns. -/
theorem TFValue.known_ValueBool (v : types.Bool)
    (h : (!v.IsNull && !v.IsUnknown) = true) : TFValue.known v.ValueBool = v := by
  cases v <;> simp_all [TFValue.IsNull, TFValue.IsUnknown, TFValue.ValueBool]

/-- C11: `MediaManagement.read` and `MediaManagement.write` are mutually inverse
on the twenty mapped fields. For every API value `x` and every model `m`, writing
`x` into `m` and reading the model back gives `x`. For every model `m` whose
twenty attributes are all known, reading `m` and writing the result into any
model `m2` gives `m`. -/
theorem media_management_read_write_inverse (x : radarr.MediaManagement)
    (m m2 : MediaManagement) :
    MediaManagement.read (MediaManagement.write m x) = x ∧
    (m.allKnown = true → MediaManagement.write m2 (MediaManagement.read m) = m) := by
  refine ⟨rfl, fun h => ?_⟩
  simp only [MediaManagement.allKnown, Bool.and_eq_true] at h
  obtain ⟨⟨⟨⟨⟨⟨⟨⟨⟨⟨⟨⟨⟨⟨⟨⟨⟨⟨⟨h1, h2⟩, h3⟩, h4⟩, h5⟩, h6⟩, h7⟩, h8⟩, h9⟩, h10⟩, h11⟩, h12⟩, h13⟩,
    h14⟩, h15⟩, h16⟩, h17⟩, h18⟩, h19⟩, h20⟩ := h
  cases m
  simp only [MediaManagement.write, MediaManagement.read, MediaManagement.mk.injEq]
  simp only at h1 h2 h3 h4 h5 h6 h7 h8 h9 h10 h11 h12 h13 h14 h15 h16 h17 h18 h19 h20
  refine ⟨?_, ?_, ?_, ?_, ?_, ?_, ?_, ?_, ?_, ?_, ?_, ?_, ?_, ?_, ?_, ?_, ?_, ?_, ?_, ?_⟩ <;>
    first
      | exact TFValue.known_ValueString _ (by simp_all)
      | exact TFValue.known_ValueInt64 _ (by simp_all)
      | exact TFValue.known_ValueBool _ (by simp_all)

/-- C11, at a run: the settings of the runs shown, written into the zero model,
form a model with all attributes known, which survives reading and writing
back. -/
theorem media_management_read_write_inverse_witness :
    MediaManagement.write MediaManagementZero
        (MediaManagement.read (MediaManagement.write MediaManagementZero mediaManagementStd))
      = MediaManagement.write MediaManagementZero mediaManagementStd :=
  (media_management_read_write_inverse mediaManagementStd
    (MediaManagement.write MediaManagementZero mediaManagementStd) MediaManagementZero).2
    (by decide)

/-- C12: media management cannot really be deleted, only decoupled. For every
request, `MediaManagementResource.Delete` gives the same response whatever the
calls of the client would return (it makes none), adds no diagnostic, and its one
write to the state removes the resource. -/
theorem media_management_delete_decouples (client client2 : radarr.MediaCalls)
    (r : MediaManagementResource) (req : resource.DeleteRequest MediaManagement)
    (resp : resource.DeleteResponse MediaManagement) :
    MediaManagementResource.Delete client r req resp
      = MediaManagementResource.Delete client2 r req resp ∧
    (MediaManagementResource.Delete client r req resp).Diagnostics = resp.Diagnostics ∧
    (MediaManagementResource.Delete client r req resp).State.writes
      = resp.State.writes ++ [StateWrite.RemoveResource] ∧
    (MediaManagementResource.Delete client r req resp).State.content = resp.State.content :=
  ⟨rfl, rfl, rfl, rfl⟩

end MediaManagement

/-! ## Statements: schemas -/

section Schemas

/-- C13: for each string attribute whose description enumerates its valid values
(`protocol` of the indexer resource; `download_propers_and_repacks`, `file_date`
and `rescan_after_refresh` of the media management resource) the one validator
of the attribute is `StringMatch`, and the list it is passed is the list of the
values the description names, which are the values given here. -/
theorem string_match_lists_named_values :
    (∃ a, IndexerResource.GetSchema.attribute "protocol" = some a ∧
      a.Validators = [Validator.StringMatch (namedValues a.MarkdownDescription)] ∧
      namedValues a.MarkdownDescription = ["usenet", "torrent"]) ∧
    (∃ a, MediaManagementResource.GetSchema.attribute "download_propers_and_repacks" = some a ∧
      a.Validators = [Validator.StringMatch (namedValues a.MarkdownDescription)] ∧
      namedValues a.MarkdownDescription = ["preferAndUpgrade", "doNotUpgrade", "doNotPrefer"]) ∧
    (∃ a, MediaManagementResource.GetSchema.attribute "file_date" = some a ∧
      a.Validators = [Validator.StringMatch (namedValues a.MarkdownDescription)] ∧
      namedValues a.MarkdownDescription = ["none", "cinemas", "release"]) ∧
    (∃ a, MediaManagementResource.GetSchema.attribute "rescan_after_refresh" = some a ∧
      a.Validators = [Validator.StringMatch (namedValues a.MarkdownDescription)] ∧
      namedValues a.MarkdownDescription = ["always", "afterManual", "never"]) := by
  refine ⟨⟨_, rfl, ?_, ?_⟩, ⟨_, rfl, ?_, ?_⟩, ⟨_, rfl, ?_, ?_⟩, ⟨_, rfl, ?_, ?_⟩⟩ <;> decide

/-- C14, what the code does: the description of the attribute `priority` of the
Pushover notification resource documents the values -2, -1, 0, 1, 2 and 8; the
validator of the attribute accepts -2, -1, 0, 1 and 2 and rejects 8; every
integer it accepts is a documented value. -/
theorem pushover_priority_rejects_documented_8 :
    ∃ a, NotificationPushoverResource.Schema.attribute "priority" = some a ∧
      documentedInts a.MarkdownDescription = [-2, -1, 0, 1, 2, 8] ∧
      a.Validators = [Validator.OneOf [-1, -2, 0, 1, 2]] ∧
      a.AcceptsInt64 8 = false ∧
      (∀ n ∈ [(-2 : Int), -1, 0, 1, 2], a.AcceptsInt64 n = true) ∧
      (∀ n : Int, a.AcceptsInt64 n = true → n ∈ documentedInts a.MarkdownDescription) := by
  refine ⟨_, rfl, by decide, by decide, by decide, by decide, ?_⟩
  intro n h
  have hd : documentedInts
      (tfsdk.Attribute.MarkdownDescription
        (α := tfsdk.Nested1)
        { Type_ := some AttrType.Int64Type,
          MarkdownDescription := "Priority. `-2` Silent, `-1` Quiet, `0` Normal, `1` High, `2` Emergency, `8` High.",
          Optional := true,
          Computed := true,
          Validators := [Validator.OneOf [-1, -2, 0, 1, 2]] }) = [-2, -1, 0, 1, 2, 8] := by
    decide
  rw [hd]
  simp [tfsdk.Attribute.AcceptsInt64, Validator.ValidateInt64] at h
  simp
  omega

/-- C15: schema and data model agree for every entity of the provider package.
For the provider and for each of the nine models the names of the top-level
attributes of the schema are the `tfsdk` tags of the struct, the tags of the
struct are pairwise distinct, and the type of each attribute (bool, int64,
float64, string, set) is the Go type of the field that carries its name as
tag. -/
theorem schema_agrees_with_model :
    SchemaAgrees RadarrProvider.GetSchema Radarr.fields ∧
    SchemaAgrees IndexerResource.GetSchema Indexer.fields ∧
    SchemaAgrees IndexerIptorrentsResource.Schema IndexerIptorrents.fields ∧
    SchemaAgrees IndexerNyaaResource.Schema IndexerNyaa.fields ∧
    SchemaAgrees MediaManagementResource.GetSchema MediaManagement.fields ∧
    SchemaAgrees MetadataKodiResource.Schema MetadataKodi.fields ∧
    SchemaAgrees NotificationMailgunResource.Schema NotificationMailgun.fields ∧
    SchemaAgrees NotificationPushoverResource.Schema NotificationPushover.fields ∧
    SchemaAgrees NotificationTraktResource.Schema NotificationTrakt.fields ∧
    SchemaAgrees CustomFormatsDataSource.GetSchema CustomFormats.fields := by
  refine ⟨?_, ?_, ?_, ?_, ?_, ?_, ?_, ?_, ?_, ?_⟩ <;> decide

end Schemas

/-! ## Statements: the fields of the generic indexer -/

section IndexerFields

/-- The loops of `Indexer.readFields` append to the output the fields the reader
returns for the names of the table. -/
theorem Indexer.readFields.loop_eq (reader : String → Indexer → Option starr.FieldInput)
    (i : Indexer) (names : List String) (output : List starr.FieldInput) :
    Indexer.readFields.loop reader i output names
      = output ++ names.filterMap fun name => reader name i := by
  induction names generalizing output with
  | nil => simp [Indexer.readFields.loop]
  | cons name names ih =>
    unfold Indexer.readFields.loop
    cases h : reader name i with
    | none => simp [ih, h]
    | some field => simp [ih, h]

/-- `Indexer.writeFields` processes a list of fields part by part. -/
theorem Indexer.writeFields_append (tools : Tools) (xs ys : List starr.FieldOutput)
    (i : Indexer) :
    Indexer.writeFields tools i (xs ++ ys)
      = Indexer.writeFields tools (Indexer.writeFields tools i xs) ys := by
  induction xs generalizing i with
  | nil => rfl
  | cons f xs ih =>
    simp only [List.cons_append, Indexer.writeFields]
    split_ifs <;> exact ih _

/-- A projection of the model that no field of a list changes is the same after
`Indexer.writeFields`. -/
theorem Indexer.writeFields_get {β : Type} (tools : Tools) (get : Indexer → β)
    (fs : List starr.FieldOutput)
    (h : ∀ g ∈ fs, ∀ j, get (Indexer.writeFields tools j [g]) = get j) (i : Indexer) :
    get (Indexer.writeFields tools i fs) = get i := by
  induction fs generalizing i with
  | nil => rfl
  | cons f fs ih =>
    have hcons : Indexer.writeFields tools i (f :: fs)
        = Indexer.writeFields tools (Indexer.writeFields tools i [f]) fs :=
      Indexer.writeFields_append tools [f] fs i
    rw [hcons, ih (fun g hg => h g (List.mem_cons_of_mem _ hg)), h f (List.mem_cons_self _ _)]

/-- C16: `Indexer.writeFields` dispatches each API field by name to exactly one
typed writer. Whatever the writers are: the empty list leaves the model as it
is, and a list is processed in list order, a field `f` after the fields `pre`
before it and before the fields `fs` after it. A field whose value is nil leaves
the model it meets unchanged; a field with a non-nil value whose name is in the
string, bool, int, float or int-slice table is passed once, with the model it
meets, to the string, bool, int, float or int-slice writer, whose result is the
model the later fields meet; a field whose name is in none of the five tables
leaves the model unchanged. No name is in two tables. When the field `f` sets a
projection of the model to `v` whatever the model, and no later field changes
this projection, the projection is `v` at the end, whatever the earlier fields
did. -/
theorem write_fields_dispatch (tools : Tools) (i : Indexer)
    (pre fs : List starr.FieldOutput) (f : starr.FieldOutput) :
    Indexer.writeFields tools i [] = i ∧
    Indexer.writeFields tools i (pre ++ f :: fs)
      = Indexer.writeFields tools
          (Indexer.writeFields tools (Indexer.writeFields tools i pre) [f]) fs ∧
    (f.Value = none → ∀ j, Indexer.writeFields tools j [f] = j) ∧
    (f.Value ≠ none → f.Name ∈ indexerStringFields →
      ∀ j, Indexer.writeFields tools j [f] = tools.WriteStringField f j) ∧
    (f.Value ≠ none → f.Name ∈ indexerBoolFields →
      ∀ j, Indexer.writeFields tools j [f] = tools.WriteBoolField f j) ∧
    (f.Value ≠ none → f.Name ∈ indexerIntFields →
      ∀ j, Indexer.writeFields tools j [f] = tools.WriteIntField f j) ∧
    (f.Value ≠ none → f.Name ∈ indexerFloatFields →
      ∀ j, Indexer.writeFields tools j [f] = tools.WriteFloatField f j) ∧
    (f.Value ≠ none → f.Name ∈ indexerIntSliceFields →
      ∀ j, Indexer.writeFields tools j [f] = tools.WriteIntSliceField f j) ∧
    (f.Name ∉ indexerStringFields ++ indexerBoolFields ++ indexerIntFields
        ++ indexerFloatFields ++ indexerIntSliceFields →
      ∀ j, Indexer.writeFields tools j [f] = j) ∧
    (indexerStringFields ++ indexerBoolFields ++ indexerIntFields
        ++ indexerFloatFields ++ indexerIntSliceFields).Nodup ∧
    (∀ (β : Type) (get : Indexer → β) (v : β),
      (∀ j, get (Indexer.writeFields tools j [f]) = v) →
      (∀ g ∈ fs, ∀ j, get (Indexer.writeFields tools j [g]) = get j) →
      get (Indexer.writeFields tools i (pre ++ f :: fs)) = v) := by
  have hsplit : Indexer.writeFields tools i (pre ++ f :: fs)
      = Indexer.writeFields tools
          (Indexer.writeFields tools (Indexer.writeFields tools i pre) [f]) fs := by
    rw [Indexer.writeFields_append tools pre (f :: fs) i]
    exact Indexer.writeFields_append tools [f] fs _
  have hnodup : (indexerStringFields ++ indexerBoolFields ++ indexerIntFields
      ++ indexerFloatFields ++ indexerIntSliceFields).Nodup := by decide
  refine ⟨rfl, hsplit, ?_, ?_, ?_, ?_, ?_, ?_, ?_, hnodup, ?_⟩
  · intro h j
    simp [Indexer.writeFields, h]
  · intro h hn j
    simp [Indexer.writeFields, h, hn]
  · intro h hn j
    have hd : ∀ n ∈ indexerBoolFields, n ∉ indexerStringFields := by decide
    simp [Indexer.writeFields, h, hn, hd _ hn]
  · intro h hn j
    have hd : ∀ n ∈ indexerIntFields, n ∉ indexerStringFields ∧ n ∉ indexerBoolFields := by
      decide
    simp [Indexer.writeFields, h, hn, hd _ hn]
  · intro h hn j
    have hd : ∀ n ∈ indexerFloatFields,
        n ∉ indexerStringFields ∧ n ∉ indexerBoolFields ∧ n ∉ indexerIntFields := by decide
    simp [Indexer.writeFields, h, hn, hd _ hn]
  · intro h hn j
    have hd : ∀ n ∈ indexerIntSliceFields,
        n ∉ indexerStringFields ∧ n ∉ indexerBoolFields ∧ n ∉ indexerIntFields
          ∧ n ∉ indexerFloatFields := by decide
    simp [Indexer.writeFields, h, hn, hd _ hn]
  · intro hn j
    simp only [List.mem_append, not_or] at hn
    simp [Indexer.writeFields, hn]
  · intro β get v hf hfs
    rw [hsplit, Indexer.writeFields_get tools get fs hfs, hf]

/-- C16, at runs with the modelled writers on the zero-valued model: a nil field,
one field of each table, a field of no table, and two fields for `api_key` of
which the later one, followed by a field for `cookie`, determines the
attribute. -/
theorem write_fields_dispatch_witness :
    Indexer.writeFields toolsByName IndexerZero [⟨"mediums", none⟩] = IndexerZero ∧
    Indexer.writeFields toolsByName IndexerZero [⟨"aPIKey", some (GoValue.string "later")⟩]
      = toolsByName.WriteStringField ⟨"aPIKey", some (GoValue.string "later")⟩ IndexerZero ∧
    Indexer.writeFields toolsByName IndexerZero [⟨"removeYear", some (GoValue.bool true)⟩]
      = toolsByName.WriteBoolField ⟨"removeYear", some (GoValue.bool true)⟩ IndexerZero ∧
    Indexer.writeFields toolsByName IndexerZero [⟨"seedTime", some (GoValue.int64 30)⟩]
      = toolsByName.WriteIntField ⟨"seedTime", some (GoValue.int64 30)⟩ IndexerZero ∧
    Indexer.writeFields toolsByName IndexerZero [⟨"seedRatio", some (GoValue.float64 2)⟩]
      = toolsByName.WriteFloatField ⟨"seedRatio", some (GoValue.float64 2)⟩ IndexerZero ∧
    Indexer.writeFields toolsByName IndexerZero
        [⟨"categories", some (GoValue.slice [GoValue.int64 2000])⟩]
      = toolsByName.WriteIntSliceField
          ⟨"categories", some (GoValue.slice [GoValue.int64 2000])⟩ IndexerZero ∧
    Indexer.writeFields toolsByName IndexerZero [⟨"vipExpiration", some (GoValue.string "")⟩]
      = IndexerZero ∧
    Indexer.APIKey (Indexer.writeFields toolsByName IndexerZero
        ([⟨"apiKey", some (GoValue.string "secret")⟩]
          ++ ⟨"aPIKey", some (GoValue.string "later")⟩
            :: [⟨"cookie", some (GoValue.string "c")⟩]))
      = TFValue.known "later" :=
  ⟨(write_fields_dispatch toolsByName IndexerZero [] [] ⟨"mediums", none⟩).2.2.1 rfl IndexerZero,
   (write_fields_dispatch toolsByName IndexerZero [] []
      ⟨"aPIKey", some (GoValue.string "later")⟩).2.2.2.1 (by simp) (by decide) IndexerZero,
   (write_fields_dispatch toolsByName IndexerZero [] []
      ⟨"removeYear", some (GoValue.bool true)⟩).2.2.2.2.1 (by simp) (by decide) IndexerZero,
   (write_fields_dispatch toolsByName IndexerZero [] []
      ⟨"seedTime", some (GoValue.int64 30)⟩).2.2.2.2.2.1 (by simp) (by decide) IndexerZero,
   (write_fields_dispatch toolsByName IndexerZero [] []
      ⟨"seedRatio", some (GoValue.float64 2)⟩).2.2.2.2.2.2.1 (by simp) (by decide) IndexerZero,
   (write_fields_dispatch toolsByName IndexerZero [] []
      ⟨"categories", some (GoValue.slice [GoValue.int64 2000])⟩).2.2.2.2.2.2.2.1
      (by simp) (by decide) IndexerZero,
   (write_fields_dispatch toolsByName IndexerZero [] []
      ⟨"vipExpiration", some (GoValue.string "")⟩).2.2.2.2.2.2.2.2.1 (by decide) IndexerZero,
   (write_fields_dispatch toolsByName IndexerZero [⟨"apiKey", some (GoValue.string "secret")⟩]
      [⟨"cookie", some (GoValue.string "c")⟩]
      ⟨"aPIKey", some (GoValue.string "later")⟩).2.2.2.2.2.2.2.2.2.2 _ Indexer.APIKey
      (TFValue.known "later")
      (fun j => by
        have e : FieldByNameFunc Indexer.fields "aPIKey"
            = some ⟨"APIKey", GoFieldType.String, "api_key"⟩ := by decide
        have hn : "aPIKey" ∈ indexerStringFields := by decide
        simp [Indexer.writeFields, hn, toolsByName, writeByName, e, Indexer.SetField])
      (fun g hg j => by
        have e : FieldByNameFunc Indexer.fields "cookie"
            = some ⟨"Cookie", GoFieldType.String, "cookie"⟩ := by decide
        have hn : "cookie" ∈ indexerStringFields := by decide
        have hg2 : g = ⟨"cookie", some (GoValue.string "c")⟩ := List.mem_singleton.mp hg
        subst hg2
        simp [Indexer.writeFields, hn, toolsByName, writeByName, e, Indexer.SetField])⟩

/-- A field of the model is the same after `Indexer.writeFields` when the
writers write by name and every field of the list that could reach it, a field
of a table whose name matches the Go name, has a nil value. -/
theorem Indexer.writeFields_FieldByName (tools : Tools)
    (hS : WritesByName tools.WriteStringField) (hB : WritesByName tools.WriteBoolField)
    (hI : WritesByName tools.WriteIntField) (hF : WritesByName tools.WriteFloatField)
    (hL : WritesByName tools.WriteIntSliceField) (goName : String) (names : List String)
    (hT : ∀ n ∈ indexerStringFields ++ indexerBoolFields ++ indexerIntFields
        ++ indexerFloatFields ++ indexerIntSliceFields,
      n ∉ names → strings.EqualFold goName n = false)
    (fields : List starr.FieldOutput)
    (hc : ∀ f ∈ fields, f.Name ∈ names → f.Value = none) (i : Indexer) :
    (Indexer.writeFields tools i fields).FieldByName goName = i.FieldByName goName := by
  induction fields generalizing i with
  | nil => rfl
  | cons f fields ih =>
    have ih2 := ih (fun g hg => hc g (List.mem_cons_of_mem _ hg))
    have hf := hc f (List.mem_cons_self _ _)
    simp only [List.mem_append] at hT
    unfold Indexer.writeFields
    by_cases hv : f.Value = none
    · simp [hv, ih2]
    · have hn : f.Name ∉ names := fun h => hv (hf h)
      have hv2 : f.Value.isNone = false := by cases hv3 : f.Value <;> simp_all
      simp only [hv2, Bool.false_eq_true, if_false]
      split_ifs with h1 h2 h3 h4 h5
      · have hm : f.Name ∈ indexerStringFields := by simpa using h1
        rw [ih2, hS f i goName (hT _ (by simp only [hm, true_or]) hn)]
      · have hm : f.Name ∈ indexerBoolFields := by simpa using h2
        rw [ih2, hB f i goName (hT _ (by simp only [hm, true_or, or_true]) hn)]
      · have hm : f.Name ∈ indexerIntFields := by simpa using h3
        rw [ih2, hI f i goName (hT _ (by simp only [hm, true_or, or_true]) hn)]
      · have hm : f.Name ∈ indexerFloatFields := by simpa using h4
        rw [ih2, hF f i goName (hT _ (by simp only [hm, true_or, or_true]) hn)]
      · have hm : f.Name ∈ indexerIntSliceFields := by simpa using h5
        rw [ih2, hL f i goName (hT _ (by simp only [hm, or_true]) hn)]
      · exact ih2 i

/-- Assignment to one field leaves the fields of other names as they are. -/
theorem Indexer.SetField_FieldByName (i : Indexer) (g name : String) (v : FieldValue)
    (h : name ≠ g) : (i.SetField g v).FieldByName name = i.FieldByName name := by
  cases v with
  | Set v =>
    simp only [Indexer.SetField]
    by_cases hg : g = "Categories"
    · subst hg; rw [if_pos rfl]; unfold Indexer.FieldByName; simp only [h, if_false]
    rw [if_neg hg]
    by_cases hg : g = "Mediums"
    · subst hg; rw [if_pos rfl]; unfold Indexer.FieldByName; simp only [h, if_false]
    rw [if_neg hg]
    by_cases hg : g = "Codecs"
    · subst hg; rw [if_pos rfl]; unfold Indexer.FieldByName; simp only [h, if_false]
    rw [if_neg hg]
    by_cases hg : g = "RequiredFlags"
    · subst hg; rw [if_pos rfl]; unfold Indexer.FieldByName; simp only [h, if_false]
    rw [if_neg hg]
    by_cases hg : g = "Tags"
    · subst hg; rw [if_pos rfl]; unfold Indexer.FieldByName; simp only [h, if_false]
    rw [if_neg hg]
    by_cases hg : g = "MultiLanguages"
    · subst hg; rw [if_pos rfl]; unfold Indexer.FieldByName; simp only [h, if_false]
    rw [if_neg hg]
  | String v =>
    simp only [Indexer.SetField]
    by_cases hg : g = "Cookie"
    · subst hg; rw [if_pos rfl]; unfold Indexer.FieldByName; simp only [h, if_false]
    rw [if_neg hg]
    by_cases hg : g = "APIKey"
    · subst hg; rw [if_pos rfl]; unfold Indexer.FieldByName; simp only [h, if_false]
    rw [if_neg hg]
    by_cases hg : g = "ConfigContract"
    · subst hg; rw [if_pos rfl]; unfold Indexer.FieldByName; simp only [h, if_false]
    rw [if_neg hg]
    by_cases hg : g = "Implementation"
    · subst hg; rw [if_pos rfl]; unfold Indexer.FieldByName; simp only [h, if_false]
    rw [if_neg hg]
    by_cases hg : g = "Protocol"
    · subst hg; rw [if_pos rfl]; unfold Indexer.FieldByName; simp only [h, if_false]
    rw [if_neg hg]
    by_cases hg : g = "Username"
    · subst hg; rw [if_pos rfl]; unfold Indexer.FieldByName; simp only [h, if_false]
    rw [if_neg hg]
    by_cases hg : g = "Passkey"
    · subst hg; rw [if_pos rfl]; unfold Indexer.FieldByName; simp only [h, if_false]
    rw [if_neg hg]
    by_cases hg : g = "BaseURL"
    · subst hg; rw [if_pos rfl]; unfold Indexer.FieldByName; simp only [h, if_false]
    rw [if_neg hg]
    by_cases hg : g = "CaptchaToken"
    · subst hg; rw [if_pos rfl]; unfold Indexer.FieldByName; simp only [h, if_false]
    rw [if_neg hg]
    by_cases hg : g = "AdditionalParameters"
    · subst hg; rw [if_pos rfl]; unfold Indexer.FieldByName; simp only [h, if_false]
    rw [if_neg hg]
    by_cases hg : g = "APIPath"
    · subst hg; rw [if_pos rfl]; unfold Indexer.FieldByName; simp only [h, if_false]
    rw [if_neg hg]
    by_cases hg : g = "APIUser"
    · subst hg; rw [if_pos rfl]; unfold Indexer.FieldByName; simp only [h, if_false]
    rw [if_neg hg]
    by_cases hg : g = "Name"
    · subst hg; rw [if_pos rfl]; unfold Indexer.FieldByName; simp only [h, if_false]
    rw [if_neg hg]
  | Int64 v =>
    simp only [Indexer.SetField]
    by_cases hg : g = "Priority"
    · subst hg; rw [if_pos rfl]; unfold Indexer.FieldByName; simp only [h, if_false]
    rw [if_neg hg]
    by_cases hg : g = "SeedTime"
    · subst hg; rw [if_pos rfl]; unfold Indexer.FieldByName; simp only [h, if_false]
    rw [if_neg hg]
    by_cases hg : g = "MinimumSeeders"
    · subst hg; rw [if_pos rfl]; unfold Indexer.FieldByName; simp only [h, if_false]
    rw [if_neg hg]
    by_cases hg : g = "DownloadClientID"
    · subst hg; rw [if_pos rfl]; unfold Indexer.FieldByName; simp only [h, if_false]
    rw [if_neg hg]
    by_cases hg : g = "Delay"
    · subst hg; rw [if_pos rfl]; unfold Indexer.FieldByName; simp only [h, if_false]
    rw [if_neg hg]
    by_cases hg : g = "ID"
    · subst hg; rw [if_pos rfl]; unfold Indexer.FieldByName; simp only [h, if_false]
    rw [if_neg hg]
  | Float64 v =>
    simp only [Indexer.SetField]
    by_cases hg : g = "SeedRatio"
    · subst hg; rw [if_pos rfl]; unfold Indexer.FieldByName; simp only [h, if_false]
    rw [if_neg hg]
  | Bool v =>
    simp only [Indexer.SetField]
    by_cases hg : g = "AllowZeroSize"
    · subst hg; rw [if_pos rfl]; unfold Indexer.FieldByName; simp only [h, if_false]
    rw [if_neg hg]
    by_cases hg : g = "RankedOnly"
    · subst hg; rw [if_pos rfl]; unfold Indexer.FieldByName; simp only [h, if_false]
    rw [if_neg hg]
    by_cases hg : g = "EnableRss"
    · subst hg; rw [if_pos rfl]; unfold Indexer.FieldByName; simp only [h, if_false]
    rw [if_neg hg]
    by_cases hg : g = "EnableAutomaticSearch"
    · subst hg; rw [if_pos rfl]; unfold Indexer.FieldByName; simp only [h, if_false]
    rw [if_neg hg]
    by_cases hg : g = "EnableInteractiveSearch"
    · subst hg; rw [if_pos rfl]; unfold Indexer.FieldByName; simp only [h, if_false]
    rw [if_neg hg]
    by_cases hg : g = "RemoveYear"
    · subst hg; rw [if_pos rfl]; unfold Indexer.FieldByName; simp only [h, if_false]
    rw [if_neg hg]

/-- The field the lookup by name finds carries the name, letter case ignored. -/
theorem FieldByNameFunc_some (fields : List StructField) (name : String) (sf : StructField)
    (h : FieldByNameFunc fields name = some sf) : strings.EqualFold sf.Name name = true := by
  unfold FieldByNameFunc at h
  split at h
  · rename_i sf2 heq
    cases h
    have hm : sf ∈ fields.filter fun sf => strings.EqualFold sf.Name name := by
      rw [heq]; exact List.mem_singleton.mpr rfl
    exact (List.mem_filter.mp hm).2
  · cases h

/-- The modelled writers write by name. -/
theorem writeByName_WritesByName (value : GoValue → Option FieldValue) :
    WritesByName (writeByName value) := by
  intro f i name h
  unfold writeByName
  split
  · rename_i sf v hsf hv
    apply Indexer.SetField_FieldByName
    intro heq
    have := FieldByNameFunc_some _ _ _ hsf
    rw [← heq, h] at this
    cases this
  · rfl

/-- C18: empty set fields are never left unknown or null in the state of the
generic indexer. Let the five writers of the package `tools` write by name. For
every API response, after `Indexer.write` on the zero-valued `Indexer`: each of
the five set attributes backed by a field (categories, multi_languages,
required_flags, codecs, mediums) whose field is absent from the response, or
present only with a nil value, is the known empty set of int64, the set with
element type `Int64Type` whose elements are known and are none; each of the
sixteen scalar attributes backed by fields whose fields are absent from the
response, or present only with a nil value, is null. -/
theorem write_empty_sets_known (tools : Tools) (conv : Conversions)
    (indexer : radarr.IndexerOutput)
    (hS : WritesByName tools.WriteStringField) (hB : WritesByName tools.WriteBoolField)
    (hI : WritesByName tools.WriteIntField) (hF : WritesByName tools.WriteFloatField)
    (hL : WritesByName tools.WriteIntSliceField) :
    ((∀ f ∈ indexer.Fields, f.Name ∈ ["categories"] → f.Value = none) →
      (Indexer.write tools conv IndexerZero indexer).Categories
        = ⟨some attr.Type.Int64Type, TFValue.known []⟩) ∧
    ((∀ f ∈ indexer.Fields, f.Name ∈ ["multiLanguages"] → f.Value = none) →
      (Indexer.write tools conv IndexerZero indexer).MultiLanguages
        = ⟨some attr.Type.Int64Type, TFValue.known []⟩) ∧
    ((∀ f ∈ indexer.Fields, f.Name ∈ ["requiredFlags"] → f.Value = none) →
      (Indexer.write tools conv IndexerZero indexer).RequiredFlags
        = ⟨some attr.Type.Int64Type, TFValue.known []⟩) ∧
    ((∀ f ∈ indexer.Fields, f.Name ∈ ["codecs"] → f.Value = none) →
      (Indexer.write tools conv IndexerZero indexer).Codecs
        = ⟨some attr.Type.Int64Type, TFValue.known []⟩) ∧
    ((∀ f ∈ indexer.Fields, f.Name ∈ ["mediums"] → f.Value = none) →
      (Indexer.write tools conv IndexerZero indexer).Mediums
        = ⟨some attr.Type.Int64Type, TFValue.known []⟩) ∧
    ((∀ f ∈ indexer.Fields, f.Name ∈ ["additionalParameters"] → f.Value = none) →
      (Indexer.write tools conv IndexerZero indexer).AdditionalParameters = TFValue.null) ∧
    ((∀ f ∈ indexer.Fields, f.Name ∈ ["apiKey", "aPIKey"] → f.Value = none) →
      (Indexer.write tools conv IndexerZero indexer).APIKey = TFValue.null) ∧
    ((∀ f ∈ indexer.Fields, f.Name ∈ ["apiPath"] → f.Value = none) →
      (Indexer.write tools conv IndexerZero indexer).APIPath = TFValue.null) ∧
    ((∀ f ∈ indexer.Fields, f.Name ∈ ["baseUrl"] → f.Value = none) →
      (Indexer.write tools conv IndexerZero indexer).BaseURL = TFValue.null) ∧
    ((∀ f ∈ indexer.Fields, f.Name ∈ ["captchaToken"] → f.Value = none) →
      (Indexer.write tools conv IndexerZero indexer).CaptchaToken = TFValue.null) ∧
    ((∀ f ∈ indexer.Fields, f.Name ∈ ["cookie"] → f.Value = none) →
      (Indexer.write tools conv IndexerZero indexer).Cookie = TFValue.null) ∧
    ((∀ f ∈ indexer.Fields, f.Name ∈ ["passkey"] → f.Value = none) →
      (Indexer.write tools conv IndexerZero indexer).Passkey = TFValue.null) ∧
    ((∀ f ∈ indexer.Fields, f.Name ∈ ["username"] → f.Value = none) →
      (Indexer.write tools conv IndexerZero indexer).Username = TFValue.null) ∧
    ((∀ f ∈ indexer.Fields, f.Name ∈ ["aPIUser"] → f.Value = none) →
      (Indexer.write tools conv IndexerZero indexer).APIUser = TFValue.null) ∧
    ((∀ f ∈ indexer.Fields, f.Name ∈ ["allowZeroSize"] → f.Value = none) →
      (Indexer.write tools conv IndexerZero indexer).AllowZeroSize = TFValue.null) ∧
    ((∀ f ∈ indexer.Fields, f.Name ∈ ["removeYear"] → f.Value = none) →
      (Indexer.write tools conv IndexerZero indexer).RemoveYear = TFValue.null) ∧
    ((∀ f ∈ indexer.Fields, f.Name ∈ ["rankedOnly"] → f.Value = none) →
      (Indexer.write tools conv IndexerZero indexer).RankedOnly = TFValue.null) ∧
    ((∀ f ∈ indexer.Fields, f.Name ∈ ["delay"] → f.Value = none) →
      (Indexer.write tools conv IndexerZero indexer).Delay = TFValue.null) ∧
    ((∀ f ∈ indexer.Fields, f.Name ∈ ["minimumSeeders"] → f.Value = none) →
      (Indexer.write tools conv IndexerZero indexer).MinimumSeeders = TFValue.null) ∧
    ((∀ f ∈ indexer.Fields, f.Name ∈ ["seedTime"] → f.Value = none) →
      (Indexer.write tools conv IndexerZero indexer).SeedTime = TFValue.null) ∧
    ((∀ f ∈ indexer.Fields, f.Name ∈ ["seedRatio"] → f.Value = none) →
      (Indexer.write tools conv IndexerZero indexer).SeedRatio = TFValue.null) := by
  refine ⟨?_, ?_, ?_, ?_, ?_, ?_, ?_, ?_, ?_, ?_, ?_, ?_, ?_, ?_, ?_, ?_, ?_, ?_, ?_, ?_, ?_⟩
  · intro hc
    have h := Indexer.writeFields_FieldByName tools hS hB hI hF hL "Categories" ["categories"] (by decide)
      indexer.Fields hc
    simpa [Indexer.FieldByName, Indexer.write, IndexerZero, types.SetValueMust] using h _
  · intro hc
    have h := Indexer.writeFields_FieldByName tools hS hB hI hF hL "MultiLanguages" ["multiLanguages"] (by decide)
      indexer.Fields hc
    simpa [Indexer.FieldByName, Indexer.write, IndexerZero, types.SetValueMust] using h _
  · intro hc
    have h := Indexer.writeFields_FieldByName tools hS hB hI hF hL "RequiredFlags" ["requiredFlags"] (by decide)
      indexer.Fields hc
    simpa [Indexer.FieldByName, Indexer.write, IndexerZero, types.SetValueMust] using h _
  · intro hc
    have h := Indexer.writeFields_FieldByName tools hS hB hI hF hL "Codecs" ["codecs"] (by decide)
      indexer.Fields hc
    simpa [Indexer.FieldByName, Indexer.write, IndexerZero, types.SetValueMust] using h _
  · intro hc
    have h := Indexer.writeFields_FieldByName tools hS hB hI hF hL "Mediums" ["mediums"] (by decide)
      indexer.Fields hc
    simpa [Indexer.FieldByName, Indexer.write, IndexerZero, types.SetValueMust] using h _
  · intro hc
    have h := Indexer.writeFields_FieldByName tools hS hB hI hF hL "AdditionalParameters" ["additionalParameters"] (by decide)
      indexer.Fields hc
    simpa [Indexer.FieldByName, Indexer.write, IndexerZero, types.SetValueMust] using h _
  · intro hc
    have h := Indexer.writeFields_FieldByName tools hS hB hI hF hL "APIKey" ["apiKey", "aPIKey"] (by decide)
      indexer.Fields hc
    simpa [Indexer.FieldByName, Indexer.write, IndexerZero, types.SetValueMust] using h _
  · intro hc
    have h := Indexer.writeFields_FieldByName tools hS hB hI hF hL "APIPath" ["apiPath"] (by decide)
      indexer.Fields hc
    simpa [Indexer.FieldByName, Indexer.write, IndexerZero, types.SetValueMust] using h _
  · intro hc
    have h := Indexer.writeFields_FieldByName tools hS hB hI hF hL "BaseURL" ["baseUrl"] (by decide)
      indexer.Fields hc
    simpa [Indexer.FieldByName, Indexer.write, IndexerZero, types.SetValueMust] using h _
  · intro hc
    have h := Indexer.writeFields_FieldByName tools hS hB hI hF hL "CaptchaToken" ["captchaToken"] (by decide)
      indexer.Fields hc
    simpa [Indexer.FieldByName, Indexer.write, IndexerZero, types.SetValueMust] using h _
  · intro hc
    have h := Indexer.writeFields_FieldByName tools hS hB hI hF hL "Cookie" ["cookie"] (by decide)
      indexer.Fields hc
    simpa [Indexer.FieldByName, Indexer.write, IndexerZero, types.SetValueMust] using h _
  · intro hc
    have h := Indexer.writeFields_FieldByName tools hS hB hI hF hL "Passkey" ["passkey"] (by decide)
      indexer.Fields hc
    simpa [Indexer.FieldByName, Indexer.write, IndexerZero, types.SetValueMust] using h _
  · intro hc
    have h := Indexer.writeFields_FieldByName tools hS hB hI hF hL "Username" ["username"] (by decide)
      indexer.Fields hc
    simpa [Indexer.FieldByName, Indexer.write, IndexerZero, types.SetValueMust] using h _
  · intro hc
    have h := Indexer.writeFields_FieldByName tools hS hB hI hF hL "APIUser" ["aPIUser"] (by decide)
      indexer.Fields hc
    simpa [Indexer.FieldByName, Indexer.write, IndexerZero, types.SetValueMust] using h _
  · intro hc
    have h := Indexer.writeFields_FieldByName tools hS hB hI hF hL "AllowZeroSize" ["allowZeroSize"] (by decide)
      indexer.Fields hc
    simpa [Indexer.FieldByName, Indexer.write, IndexerZero, types.SetValueMust] using h _
  · intro hc
    have h := Indexer.writeFields_FieldByName tools hS hB hI hF hL "RemoveYear" ["removeYear"] (by decide)
      indexer.Fields hc
    simpa [Indexer.FieldByName, Indexer.write, IndexerZero, types.SetValueMust] using h _
  · intro hc
    have h := Indexer.writeFields_FieldByName tools hS hB hI hF hL "RankedOnly" ["rankedOnly"] (by decide)
      indexer.Fields hc
    simpa [Indexer.FieldByName, Indexer.write, IndexerZero, types.SetValueMust] using h _
  · intro hc
    have h := Indexer.writeFields_FieldByName tools hS hB hI hF hL "Delay" ["delay"] (by decide)
      indexer.Fields hc
    simpa [Indexer.FieldByName, Indexer.write, IndexerZero, types.SetValueMust] using h _
  · intro hc
    have h := Indexer.writeFields_FieldByName tools hS hB hI hF hL "MinimumSeeders" ["minimumSeeders"] (by decide)
      indexer.Fields hc
    simpa [Indexer.FieldByName, Indexer.write, IndexerZero, types.SetValueMust] using h _
  · intro hc
    have h := Indexer.writeFields_FieldByName tools hS hB hI hF hL "SeedTime" ["seedTime"] (by decide)
      indexer.Fields hc
    simpa [Indexer.FieldByName, Indexer.write, IndexerZero, types.SetValueMust] using h _
  · intro hc
    have h := Indexer.writeFields_FieldByName tools hS hB hI hF hL "SeedRatio" ["seedRatio"] (by decide)
      indexer.Fields hc
    simpa [Indexer.FieldByName, Indexer.write, IndexerZero, types.SetValueMust] using h _

/-- C18, at a run with the modelled writers: in the response of the runs shown
the field `mediums` is nil and no field is named `codecs`, `multiLanguages`,
`requiredFlags`, `cookie`, `seedRatio`, `removeYear` or `delay`; the four sets
are known and empty and the four scalars null, while `categories` and `api_key`
hold what their fields carry. -/
theorem write_empty_sets_known_witness :
    (Indexer.write toolsByName convStd IndexerZero indexerOutputStd).Mediums
      = ⟨some attr.Type.Int64Type, TFValue.known []⟩ ∧
    (Indexer.write toolsByName convStd IndexerZero indexerOutputStd).Codecs
      = ⟨some attr.Type.Int64Type, TFValue.known []⟩ ∧
    (Indexer.write toolsByName convStd IndexerZero indexerOutputStd).MultiLanguages
      = ⟨some attr.Type.Int64Type, TFValue.known []⟩ ∧
    (Indexer.write toolsByName convStd IndexerZero indexerOutputStd).RequiredFlags
      = ⟨some attr.Type.Int64Type, TFValue.known []⟩ ∧
    (Indexer.write toolsByName convStd IndexerZero indexerOutputStd).Cookie = TFValue.null ∧
    (Indexer.write toolsByName convStd IndexerZero indexerOutputStd).SeedRatio = TFValue.null ∧
    (Indexer.write toolsByName convStd IndexerZero indexerOutputStd).RemoveYear = TFValue.null ∧
    (Indexer.write toolsByName convStd IndexerZero indexerOutputStd).Delay = TFValue.null ∧
    (Indexer.write toolsByName convStd IndexerZero indexerOutputStd).Categories
      = ⟨some attr.Type.Int64Type, TFValue.known
          [attr.Value.int64 (TFValue.known 2000), attr.Value.int64 (TFValue.known 2010)]⟩ ∧
    (Indexer.write toolsByName convStd IndexerZero indexerOutputStd).APIKey
      = TFValue.known "later" :=
  have h := write_empty_sets_known toolsByName convStd indexerOutputStd
    (writeByName_WritesByName _) (writeByName_WritesByName _) (writeByName_WritesByName _)
    (writeByName_WritesByName _) (writeByName_WritesByName _)
  ⟨h.2.2.2.2.1 (by simp [indexerOutputStd]),
   h.2.2.2.1 (by simp [indexerOutputStd]),
   h.2.1 (by simp [indexerOutputStd]),
   h.2.2.1 (by simp [indexerOutputStd]),
   h.2.2.2.2.2.2.2.2.2.2.1 (by simp [indexerOutputStd]),
   h.2.2.2.2.2.2.2.2.2.2.2.2.2.2.2.2.2.2.2.2 (by simp [indexerOutputStd]),
   h.2.2.2.2.2.2.2.2.2.2.2.2.2.2.2.1 (by simp [indexerOutputStd]),
   h.2.2.2.2.2.2.2.2.2.2.2.2.2.2.2.2.2.1 (by simp [indexerOutputStd]),
   by decide, by decide⟩

/-- C19: `Indexer.readFields` emits fields in table order. For every model the
output is the concatenation, in the order bool, int, float, string, int-slice,
of the fields the typed readers return for the names of the five tables, in the
order of each table, the nil results left out: the output, as a list of
pointers, is the list of all results without the nil ones. Its length is at most
22 and no entry is nil. -/
theorem read_fields_table_order (tools : Tools) (i : Indexer) :
    Indexer.readFields tools i
      = indexerBoolFields.filterMap (fun name => tools.ReadBoolField name i)
        ++ indexerIntFields.filterMap (fun name => tools.ReadIntField name i)
        ++ indexerFloatFields.filterMap (fun name => tools.ReadFloatField name i)
        ++ indexerStringFields.filterMap (fun name => tools.ReadStringField name i)
        ++ indexerIntSliceFields.filterMap (fun name => tools.ReadIntSliceField name i) ∧
    (Indexer.readFields tools i).map some
      = (indexerBoolFields.map (fun name => tools.ReadBoolField name i)
        ++ indexerIntFields.map (fun name => tools.ReadIntField name i)
        ++ indexerFloatFields.map (fun name => tools.ReadFloatField name i)
        ++ indexerStringFields.map (fun name => tools.ReadStringField name i)
        ++ indexerIntSliceFields.map (fun name => tools.ReadIntSliceField name i)).filter
          (fun field => field.isSome) ∧
    (Indexer.readFields tools i).length ≤ 22 ∧
    none ∉ (Indexer.readFields tools i).map some := by
  have h : Indexer.readFields tools i
      = indexerBoolFields.filterMap (fun name => tools.ReadBoolField name i)
        ++ indexerIntFields.filterMap (fun name => tools.ReadIntField name i)
        ++ indexerFloatFields.filterMap (fun name => tools.ReadFloatField name i)
        ++ indexerStringFields.filterMap (fun name => tools.ReadStringField name i)
        ++ indexerIntSliceFields.filterMap (fun name => tools.ReadIntSliceField name i) := by
    simp only [Indexer.readFields, Indexer.readFields.loop_eq, List.nil_append]
  have hmap : ∀ (reader : String → Option starr.FieldInput) (names : List String),
      (names.filterMap reader).map some = (names.map reader).filter fun field => field.isSome := by
    intro reader names
    induction names with
    | nil => rfl
    | cons n ns ih =>
      cases hr : reader n <;> simp [List.filterMap_cons, List.filter_cons, hr, ih]
  refine ⟨h, ?_, ?_, by simp⟩
  · rw [h]
    simp only [List.map_append, List.filter_append, hmap]
  · rw [h]
    simp only [List.length_append]
    have h1 := List.length_filterMap_le (fun name => tools.ReadBoolField name i) indexerBoolFields
    have h2 := List.length_filterMap_le (fun name => tools.ReadIntField name i) indexerIntFields
    have h3 := List.length_filterMap_le (fun name => tools.ReadFloatField name i)
      indexerFloatFields
    have h4 := List.length_filterMap_le (fun name => tools.ReadStringField name i)
      indexerStringFields
    have h5 := List.length_filterMap_le (fun name => tools.ReadIntSliceField name i)
      indexerIntSliceFields
    have e1 : indexerBoolFields.length = 3 := rfl
    have e2 : indexerIntFields.length = 3 := rfl
    have e3 : indexerFloatFields.length = 1 := rfl
    have e4 : indexerStringFields.length = 10 := rfl
    have e5 : indexerIntSliceFields.length = 5 := rfl
    omega

/-- C20: every name of the dispatch tables of the indexer resolves, by name, to a
field of the model `Indexer` of the kind its table handles. With names compared
ignoring letter case, the lookup by name in the struct `Indexer` finds, for each
name of `indexerStringFields`, a field of type String, for each name of
`indexerBoolFields` a field of type Bool, for each name of `indexerIntFields` a
field of type Int64, for each name of `indexerFloatFields` a field of type
Float64, and for each name of `indexerIntSliceFields` a field of type Set; the
lookup fails for no name of a table. -/
theorem table_names_resolve :
    (∀ n ∈ indexerStringFields,
      (FieldByNameFunc Indexer.fields n).map StructField.GoType = some GoFieldType.String) ∧
    (∀ n ∈ indexerBoolFields,
      (FieldByNameFunc Indexer.fields n).map StructField.GoType = some GoFieldType.Bool) ∧
    (∀ n ∈ indexerIntFields,
      (FieldByNameFunc Indexer.fields n).map StructField.GoType = some GoFieldType.Int64) ∧
    (∀ n ∈ indexerFloatFields,
      (FieldByNameFunc Indexer.fields n).map StructField.GoType = some GoFieldType.Float64) ∧
    (∀ n ∈ indexerIntSliceFields,
      (FieldByNameFunc Indexer.fields n).map StructField.GoType = some GoFieldType.Set) ∧
    (∀ n ∈ indexerStringFields ++ indexerBoolFields ++ indexerIntFields
        ++ indexerFloatFields ++ indexerIntSliceFields,
      FieldByNameFunc Indexer.fields n ≠ none) := by
  refine ⟨?_, ?_, ?_, ?_, ?_, ?_⟩ <;> decide

end IndexerFields

/-! ## Statements: the state of the generic indexer -/

section IndexerState

/-- C17: the state `IndexerResource.Create`, `Read` and `Update` produce is
generated from the API response alone. For any two invocations of the same
operation, with any plans or prior states, clients and responses to fill, both
of which make their client call (no error is held after reading the plan or
state) and get the same response: the one write each makes to its state is
`State.Set` of the same value, `Indexer.write` of the response on the
zero-valued `Indexer`. -/
theorem indexer_state_from_response (tools : Tools) (conv : Conversions)
    (client1 client2 : radarr.Calls) (r1 r2 : IndexerResource)
    (response : radarr.IndexerOutput) :
    (∀ (req1 req2 : resource.CreateRequest Indexer)
        (resp1 resp2 : resource.CreateResponse Indexer),
      (resp1.Diagnostics.Append req1.Plan.diags).HasError = false →
      (resp2.Diagnostics.Append req2.Plan.diags).HasError = false →
      client1.AddIndexerContext (Indexer.read tools conv req1.Plan.value) = Except.ok response →
      client2.AddIndexerContext (Indexer.read tools conv req2.Plan.value) = Except.ok response →
      (IndexerResource.Create tools conv client1 r1 req1 resp1).State.writes
        = resp1.State.writes ++ [StateWrite.Set (Indexer.write tools conv IndexerZero response)] ∧
      (IndexerResource.Create tools conv client2 r2 req2 resp2).State.writes
        = resp2.State.writes
          ++ [StateWrite.Set (Indexer.write tools conv IndexerZero response)]) ∧
    (∀ (req1 req2 : resource.ReadRequest Indexer)
        (resp1 resp2 : resource.ReadResponse Indexer),
      (resp1.Diagnostics.Append req1.State.diags).HasError = false →
      (resp2.Diagnostics.Append req2.State.diags).HasError = false →
      client1.GetIndexerContext req1.State.value.ID.ValueInt64 = Except.ok response →
      client2.GetIndexerContext req2.State.value.ID.ValueInt64 = Except.ok response →
      (IndexerResource.Read tools conv client1 r1 req1 resp1).State.writes
        = resp1.State.writes ++ [StateWrite.Set (Indexer.write tools conv IndexerZero response)] ∧
      (IndexerResource.Read tools conv client2 r2 req2 resp2).State.writes
        = resp2.State.writes
          ++ [StateWrite.Set (Indexer.write tools conv IndexerZero response)]) ∧
    (∀ (req1 req2 : resource.UpdateRequest Indexer)
        (resp1 resp2 : resource.UpdateResponse Indexer),
      (resp1.Diagnostics.Append req1.Plan.diags).HasError = false →
      (resp2.Diagnostics.Append req2.Plan.diags).HasError = false →
      client1.UpdateIndexerContext (Indexer.read tools conv req1.Plan.value)
        = Except.ok response →
      client2.UpdateIndexerContext (Indexer.read tools conv req2.Plan.value)
        = Except.ok response →
      (IndexerResource.Update tools conv client1 r1 req1 resp1).State.writes
        = resp1.State.writes ++ [StateWrite.Set (Indexer.write tools conv IndexerZero response)] ∧
      (IndexerResource.Update tools conv client2 r2 req2 resp2).State.writes
        = resp2.State.writes
          ++ [StateWrite.Set (Indexer.write tools conv IndexerZero response)]) := by
  refine ⟨?_, ?_, ?_⟩
  · intro req1 req2 resp1 resp2 hd1 hd2 hc1 hc2
    replace hd1 : (resp1.Diagnostics ++ req1.Plan.diags).HasError = false := hd1
    replace hd2 : (resp2.Diagnostics ++ req2.Plan.diags).HasError = false := hd2
    constructor <;>
      simp [IndexerResource.Create, Readable.Get, hd1, hd2, hc1, hc2, Diagnostics.Append,
        tfsdk.State.Set]
  · intro req1 req2 resp1 resp2 hd1 hd2 hc1 hc2
    replace hd1 : (resp1.Diagnostics ++ req1.State.diags).HasError = false := hd1
    replace hd2 : (resp2.Diagnostics ++ req2.State.diags).HasError = false := hd2
    constructor <;>
      simp [IndexerResource.Read, Readable.Get, hd1, hd2, hc1, hc2, Diagnostics.Append,
        tfsdk.State.Set]
  · intro req1 req2 resp1 resp2 hd1 hd2 hc1 hc2
    replace hd1 : (resp1.Diagnostics ++ req1.Plan.diags).HasError = false := hd1
    replace hd2 : (resp2.Diagnostics ++ req2.Plan.diags).HasError = false := hd2
    constructor <;>
      simp [IndexerResource.Update, Readable.Get, hd1, hd2, hc1, hc2, Diagnostics.Append,
        tfsdk.State.Set]

/-- C17, at runs: a creation from the empty plan and a creation from a plan that
names the indexer, on a state with an earlier write, and likewise two reads and
two updates, with a client that answers with the indexer of the runs shown; each
pair sets the same state. -/
theorem indexer_state_from_response_witness :
    ((IndexerResource.Create toolsByName convStd callsStd ⟨none⟩
        ⟨⟨[], IndexerZero⟩⟩ ⟨⟨⟨[], IndexerZero⟩, []⟩, []⟩).State.writes
      = [] ++ [StateWrite.Set (Indexer.write toolsByName convStd IndexerZero indexerOutputStd)] ∧
     (IndexerResource.Create toolsByName convStd callsStd ⟨none⟩
        ⟨⟨[], { IndexerZero with Name := TFValue.known "other" }⟩⟩
        ⟨⟨⟨[], IndexerZero⟩, [StateWrite.RemoveResource]⟩, []⟩).State.writes
      = [StateWrite.RemoveResource]
        ++ [StateWrite.Set (Indexer.write toolsByName convStd IndexerZero indexerOutputStd)]) ∧
    ((IndexerResource.Read toolsByName convStd callsStd ⟨none⟩
        ⟨⟨[], IndexerZero⟩⟩ ⟨⟨⟨[], IndexerZero⟩, []⟩, []⟩).State.writes
      = [] ++ [StateWrite.Set (Indexer.write toolsByName convStd IndexerZero indexerOutputStd)] ∧
     (IndexerResource.Read toolsByName convStd callsStd ⟨none⟩
        ⟨⟨[], { IndexerZero with ID := TFValue.known 7 }⟩⟩
        ⟨⟨⟨[], IndexerZero⟩, [StateWrite.RemoveResource]⟩, []⟩).State.writes
      = [StateWrite.RemoveResource]
        ++ [StateWrite.Set (Indexer.write toolsByName convStd IndexerZero indexerOutputStd)]) ∧
    ((IndexerResource.Update toolsByName convStd callsStd ⟨none⟩
        ⟨⟨[], IndexerZero⟩⟩ ⟨⟨⟨[], IndexerZero⟩, []⟩, []⟩).State.writes
      = [] ++ [StateWrite.Set (Indexer.write toolsByName convStd IndexerZero indexerOutputStd)] ∧
     (IndexerResource.Update toolsByName convStd callsStd ⟨none⟩
        ⟨⟨[], { IndexerZero with Name := TFValue.known "other" }⟩⟩
        ⟨⟨⟨[], IndexerZero⟩, [StateWrite.RemoveResource]⟩, []⟩).State.writes
      = [StateWrite.RemoveResource]
        ++ [StateWrite.Set (Indexer.write toolsByName convStd IndexerZero indexerOutputStd)]) :=
  have h := indexer_state_from_response toolsByName convStd callsStd callsStd ⟨none⟩ ⟨none⟩
    indexerOutputStd
  ⟨h.1 ⟨⟨[], IndexerZero⟩⟩ ⟨⟨[], { IndexerZero with Name := TFValue.known "other" }⟩⟩
      ⟨⟨⟨[], IndexerZero⟩, []⟩, []⟩ ⟨⟨⟨[], IndexerZero⟩, [StateWrite.RemoveResource]⟩, []⟩
      (by decide) (by decide) rfl rfl,
   h.2.1 ⟨⟨[], IndexerZero⟩⟩ ⟨⟨[], { IndexerZero with ID := TFValue.known 7 }⟩⟩
      ⟨⟨⟨[], IndexerZero⟩, []⟩, []⟩ ⟨⟨⟨[], IndexerZero⟩, [StateWrite.RemoveResource]⟩, []⟩
      (by decide) (by decide) rfl rfl,
   h.2.2 ⟨⟨[], IndexerZero⟩⟩ ⟨⟨[], { IndexerZero with Name := TFValue.known "other" }⟩⟩
      ⟨⟨⟨[], IndexerZero⟩, []⟩, []⟩ ⟨⟨⟨[], IndexerZero⟩, [StateWrite.RemoveResource]⟩, []⟩
      (by decide) (by decide) rfl rfl⟩

end IndexerState

end Provider
